import Mathlib

/-!
# vqa-sys: clip generation and clip serving

A shallow embedding of the backend of the video question/answer platform:
the relational store of `config/database.js`, the video creation route of
`routes/videos.js`, the clip selector of `services/clipService.js` with the
routes of `routes/clips.js`, the question routes of `routes/questions.js`
and the routes of `routes/auth.js`.

Modelling conventions.

* The store is the content of the five tables, each a list of rows in
  insertion order.
* Values the database draws by itself are arguments of the operations: the
  results of `gen_random_uuid()`, of `NOW()` and of `RANDOM()`.
* Every statement sent to the database may throw.  Each operation takes a
  predicate `fails` over its statements that injects such failures; failures
  that the schema itself dictates (primary key, foreign key, `CHECK`,
  `VARCHAR(n)`, the range of `INTEGER`) are computed from the store.
* JavaScript numbers are `Int`; the routes are embedded for integer durations.
-/

namespace VqaSys

/-! ## Data model (`config/database.js`) -/

/-- Identifier drawn by `gen_random_uuid()`. -/
abbrev UUID := Nat

/-- Largest value of a PostgreSQL `INTEGER` column. -/
def pgIntMax : Int := 2147483647

/-- Smallest value of a PostgreSQL `INTEGER` column. -/
def pgIntMin : Int := -2147483648

/-- Reason why a statement sent to the database throws. -/
inductive DbError where
  | fault
  | uniqueViolation
  | foreignKeyViolation
  | checkViolation
  | valueTooLong
  | integerOutOfRange
  | undefinedColumn
  deriving DecidableEq, Repr

deriving instance DecidableEq for Except

/-- Row of table `users`. -/
structure User where
  id : UUID
  username : String
  password_hash : String
  created_at : Nat
  last_login : Option Nat
  deriving DecidableEq, Repr

/-- Row of table `videos`. -/
structure Video where
  id : UUID
  title : String
  url : String
  duration_seconds : Int
  total_clips_generated : Int
  uploaded_at : Nat
  deriving DecidableEq, Repr

/-- Row of table `clips`; `video_id` is a nullable foreign key. -/
structure Clip where
  id : UUID
  video_id : Option UUID
  start_time : Int
  end_time : Int
  is_dry : Bool
  served_count : Int
  created_at : Nat
  deriving DecidableEq, Repr

/-- Row of table `clip_views`. -/
structure ClipView where
  id : UUID
  clip_id : UUID
  user_id : UUID
  viewed_at : Nat
  session_duration : Option Int
  deriving DecidableEq, Repr

/-- Row of table `questions`. -/
structure Question where
  id : UUID
  clip_id : UUID
  user_id : UUID
  question_text : String
  answer_text : String
  created_at : Nat
  quality_score : Int
  deriving DecidableEq, Repr

/-- Committed content of the database. -/
structure Store where
  users : List User
  videos : List Video
  clips : List Clip
  clip_views : List ClipView
  questions : List Question
  deriving DecidableEq, Repr

/-- Store with five empty tables. -/
def Store.empty : Store := ⟨[], [], [], [], []⟩

/-! ## Video creation (`routes/videos.js`, `router.post('/')`) -/

/-- Object pushed onto `clips` by the generation loop. -/
structure ClipParams where
  video_id : UUID
  start_time : Int
  end_time : Int
  deriving DecidableEq, Repr

/-- Loop `for (let start = 0; start <= durationSeconds - 10; start++)` of the
route, entered with the current `start` and the array built so far. -/
def clipLoop (video_id : UUID) (durationSeconds : Int) (start : Int)
    (clips : List ClipParams) : List ClipParams :=
  if start ≤ durationSeconds - 10 then
    clipLoop video_id durationSeconds (start + 1)
      (clips ++ [{ video_id := video_id, start_time := start, end_time := start + 10 }])
  else
    clips
termination_by (durationSeconds - 9 - start).toNat
decreasing_by omega

/-- Array `clips` after the generation loop of the route. -/
def generateClips (video_id : UUID) (durationSeconds : Int) : List ClipParams :=
  clipLoop video_id durationSeconds 0 []

/-- Constraint `valid_clip_duration CHECK (end_time - start_time = 10)`. -/
def validClipDuration (start_time end_time : Int) : Bool :=
  end_time - start_time == 10

/-- Body of `POST /videos` after `express.json()`; an absent or `null` field
is `none`. -/
structure VideoBody where
  title : Option String
  url : Option String
  durationSeconds : Option Int
  deriving DecidableEq, Repr

/-- JavaScript truthiness of a field holding a string, `null` or nothing. -/
def truthyString : Option String → Bool
  | some s => s != ""
  | none => false

/-- JavaScript truthiness of a field holding an integer, `null` or nothing. -/
def truthyNumber : Option Int → Bool
  | some n => n != 0
  | none => false

/-- Statements that video creation sends through `pool` and `client`. -/
inductive VideoStmt where
  | connect
  | begin
  | insertVideo
  | insertClips
  | updateVideo
  | commit
  | rollback
  deriving DecidableEq, Repr

/-- Row of `SELECT c.*, v.url, v.title as video_title FROM clips c JOIN
videos v ON c.video_id = v.id`. -/
structure ClipRow where
  clip : Clip
  url : String
  video_title : String
  deriving DecidableEq, Repr

/-- Row of `SELECT q.*, c.start_time, c.end_time, v.title as video_title FROM
questions q JOIN clips c ON q.clip_id = c.id JOIN videos v ON c.video_id =
v.id`. -/
structure UserQuestionRow where
  question : Question
  start_time : Int
  end_time : Int
  video_title : String
  deriving DecidableEq, Repr

/-- Record written as JSON by a route. -/
inductive Payload where
  | error (msg : String)
  | created (video : Video) (clipsGenerated : Nat)
  | clip (row : ClipRow)
  | message (msg : String)
  | questionCreated (id clip_id user_id : UUID) (question_text answer_text : String)
      (created_at : Nat)
  | question (row : Option Question)
  | session (token : String) (id : UUID) (username : String) (createdAt : Nat)
  | userQuestions (rows : List UserQuestionRow)
  deriving DecidableEq, Repr

/-- Status code and JSON body answered by a route. -/
structure Response where
  status : Nat
  body : Payload
  deriving DecidableEq, Repr

/-- Result of one request: the committed store afterwards, the answer, and
the statements that were sent, in order. -/
structure Outcome (σ : Type) where
  store : Store
  response : Response
  issued : List σ

/-- Statement that throws when a failure is injected and otherwise runs. -/
def attempt {α : Type} (injected : Bool) (run : Except DbError α) : Except DbError α :=
  if injected then .error .fault else run

/-- Statement `INSERT INTO videos (title, url, duration_seconds) VALUES
($1, $2, $3) RETURNING *` under the constraints of table `videos`. -/
def insertVideo (db : Store) (id : UUID) (now : Nat) (title url : String)
    (duration : Int) : Except DbError (Store × Video) :=
  if db.videos.any (fun v => v.id == id) then .error .uniqueViolation
  else if title.length > 255 || url.length > 500 then .error .valueTooLong
  else if duration < pgIntMin || duration > pgIntMax then .error .integerOutOfRange
  else
    let video : Video :=
      { id := id, title := title, url := url, duration_seconds := duration,
        total_clips_generated := 0, uploaded_at := now }
    .ok ({ db with videos := db.videos ++ [video] }, video)

/-- Rows that the bulk insert adds for `clips`, the `i`-th with identifier
`ids i` and the column defaults `is_dry = FALSE`, `served_count = 0`. -/
def clipRows (ids : Nat → UUID) (now : Nat) (clips : List ClipParams) : List Clip :=
  clips.enum.map fun ip =>
    { id := ids ip.1, video_id := some ip.2.video_id, start_time := ip.2.start_time,
      end_time := ip.2.end_time, is_dry := false, served_count := 0, created_at := now }

/-- Statement `INSERT INTO clips (video_id, start_time, end_time) VALUES ...`
under the constraints of table `clips`. -/
def insertClips (db : Store) (ids : Nat → UUID) (now : Nat) (clips : List ClipParams) :
    Except DbError Store :=
  let rows := clipRows ids now clips
  if !decide (rows.map Clip.id).Nodup || rows.any (fun r => db.clips.any (fun c => c.id == r.id)) then
    .error .uniqueViolation
  else if clips.any (fun p => !db.videos.any (fun v => v.id == p.video_id)) then
    .error .foreignKeyViolation
  else if clips.any (fun p => !validClipDuration p.start_time p.end_time) then
    .error .checkViolation
  else
    .ok { db with clips := db.clips ++ rows }

/-- Value in the parameter array of a statement. -/
inductive SqlValue where
  | uuid (u : UUID)
  | int (n : Int)
  deriving DecidableEq, Repr

/-- Text that the callback of `clips.map` returns for the clip at `index`:
the template with `base = index * 3`. -/
def placeholderTuple (index : Nat) : String :=
  let base := index * 3
  "($" ++ toString (base + 1) ++ ", $" ++ toString (base + 2) ++ ", $" ++
    toString (base + 3) ++ ")"

/-- Constant `values` of the route: the tuples joined with a comma. -/
def valuesText (clips : List ClipParams) : String :=
  ",".intercalate (clips.enum.map fun ic => placeholderTuple ic.1)

/-- Constant `params` of the route: `clips.flatMap(clip => [clip.video_id,
clip.start_time, clip.end_time])`. -/
def insertParams (clips : List ClipParams) : List SqlValue :=
  clips.flatMap fun c => [.uuid c.video_id, .int c.start_time, .int c.end_time]

/-- Text of the bulk insert statement. -/
def insertClipsText (clips : List ClipParams) : String :=
  "INSERT INTO clips (video_id, start_time, end_time) VALUES " ++ valuesText clips

/-- Statement `UPDATE videos SET total_clips_generated = $1 WHERE id = $2`. -/
def updateClipCount (db : Store) (count : Int) (id : UUID) : Store :=
  { db with videos := db.videos.map fun v =>
      if v.id = id then { v with total_clips_generated := count } else v }

/-- Answer `res.status(201).json(...)` of video creation. -/
def createdResponse (video : Video) (clips : List ClipParams) : Response :=
  { status := 201
    body := .created { video with total_clips_generated := clips.length } clips.length }

/-- Statement `COMMIT` and the answer that follows it. -/
def commitVideo (fails : VideoStmt → Bool) (db : Store) (video : Video)
    (clips : List ClipParams) (issued : List VideoStmt) :
    Except DbError (Store × Response) × List VideoStmt :=
  if fails .commit then (.error .fault, issued ++ [.commit])
  else (.ok (db, createdResponse video clips), issued ++ [.commit])

/-- Inner `try` block of video creation, from `BEGIN` to the 201 answer, run
on the transaction's private copy of the store.  The result is the store to
commit with the answer, or the error thrown, and the statements sent. -/
def videoTransaction (db : Store) (fails : VideoStmt → Bool) (vid : UUID)
    (cids : Nat → UUID) (now : Nat) (title url : String) (durationSeconds : Int) :
    Except DbError (Store × Response) × List VideoStmt :=
  if fails .begin then (.error .fault, [.begin])
  else
    match attempt (fails .insertVideo) (insertVideo db vid now title url durationSeconds) with
    | .error e => (.error e, [.begin, .insertVideo])
    | .ok (db1, video) =>
      let clips := generateClips video.id durationSeconds
      if clips.length > 0 then
        match attempt (fails .insertClips) (insertClips db1 cids now clips) with
        | .error e => (.error e, [.begin, .insertVideo, .insertClips])
        | .ok db2 =>
          match attempt (fails .updateVideo) (.ok (updateClipCount db2 clips.length video.id)) with
          | .error e => (.error e, [.begin, .insertVideo, .insertClips, .updateVideo])
          | .ok db3 =>
            commitVideo fails db3 video clips [.begin, .insertVideo, .insertClips, .updateVideo]
      else
        commitVideo fails db1 video clips [.begin, .insertVideo]

/-- Answer of a failed validation. -/
def badRequest (msg : String) : Response :=
  { status := 400, body := .error msg }

/-- Answer of the outer `catch` of a route. -/
def serverError (msg : String) : Response :=
  { status := 500, body := .error msg }

/-- Route `POST /videos`.  A failed validation answers 400 before anything is
sent to the database.  When the inner block throws, `ROLLBACK` is sent and the
error (or the one thrown by `ROLLBACK`) reaches the outer `catch`, which
answers 500; nothing of the transaction is committed. -/
def createVideo (db : Store) (fails : VideoStmt → Bool) (vid : UUID) (cids : Nat → UUID)
    (now : Nat) (body : VideoBody) : Outcome VideoStmt :=
  if !truthyString body.title || !truthyString body.url || !truthyNumber body.durationSeconds then
    ⟨db, badRequest "Title, URL, and duration are required", []⟩
  else
    let title := body.title.getD ""
    let url := body.url.getD ""
    let durationSeconds := body.durationSeconds.getD 0
    if durationSeconds < 10 then
      ⟨db, badRequest "Video must be at least 10 seconds long", []⟩
    else if durationSeconds > 1020 then
      ⟨db, badRequest "Video cannot be longer than 17 minutes", []⟩
    else if fails .connect then
      ⟨db, serverError "Failed to create video and clips", [.connect]⟩
    else
      match videoTransaction db fails vid cids now title url durationSeconds with
      | (.ok (db', response), issued) => ⟨db', response, .connect :: issued⟩
      | (.error _, issued) =>
        ⟨db, serverError "Failed to create video and clips", .connect :: issued ++ [.rollback]⟩

/-! ## Clip selection (`services/clipService.js`, `routes/clips.js`) -/

/-- Statements that `getRandomClip` sends through `pool`. -/
inductive ClipStmt where
  | select
  | update
  | insertView
  deriving DecidableEq, Repr

/-- Rows of `clips c JOIN videos v ON c.video_id = v.id`, in clip order. -/
def joinClipsVideos (db : Store) : List ClipRow :=
  db.clips.flatMap fun c =>
    db.videos.filterMap fun v =>
      if c.video_id = some v.id then
        some { clip := c, url := v.url, video_title := v.title }
      else none

/-- Rows of the join that pass `WHERE c.is_dry = false`. -/
def candidateRows (db : Store) : List ClipRow :=
  (joinClipsVideos db).filter fun r => r.clip.is_dry == false

/-- Order of `ORDER BY c.served_count ASC, RANDOM()` on rows paired with the
value that `RANDOM()` took for them. -/
def servedThenRandom (a b : ClipRow × Nat) : Prop :=
  a.1.clip.served_count < b.1.clip.served_count ∨
    (a.1.clip.served_count = b.1.clip.served_count ∧ a.2 ≤ b.2)

instance servedThenRandomDecidable : DecidableRel servedThenRandom := fun a b =>
  inferInstanceAs (Decidable (a.1.clip.served_count < b.1.clip.served_count ∨
    (a.1.clip.served_count = b.1.clip.served_count ∧ a.2 ≤ b.2)))

instance servedThenRandom_isTotal : IsTotal (ClipRow × Nat) servedThenRandom :=
  ⟨fun a b => by unfold servedThenRandom; omega⟩

instance servedThenRandom_isTrans : IsTrans (ClipRow × Nat) servedThenRandom :=
  ⟨fun a b c => by unfold servedThenRandom; omega⟩

/-- Query of `getRandomClip`: `rand i` is the value of `RANDOM()` for the
`i`-th candidate row; the rows are sorted and `LIMIT 1` keeps the first. -/
def selectRandomClip (db : Store) (rand : Nat → Nat) : List ClipRow :=
  let keyed := (candidateRows db).enum.map fun ir => (ir.2, rand ir.1)
  ((keyed.insertionSort servedThenRandom).take 1).map Prod.fst

/-- Statement `UPDATE clips SET served_count = served_count + 1 WHERE id = $1`;
it throws when a new value leaves the range of `INTEGER`. -/
def incrementServed (db : Store) (id : UUID) : Except DbError Store :=
  if db.clips.any (fun c => c.id == id && decide (c.served_count + 1 > pgIntMax)) then
    .error .integerOutOfRange
  else
    .ok { db with clips := db.clips.map fun c =>
      if c.id = id then { c with served_count := c.served_count + 1 } else c }

/-- Statement `INSERT INTO clip_views (clip_id, user_id, session_duration)`
under the constraints of table `clip_views`; `viewed_at` defaults to `NOW()`. -/
def insertClipView (db : Store) (id : UUID) (now : Nat) (clip_id user_id : UUID)
    (session_duration : Option Int) : Except DbError Store :=
  if db.clip_views.any (fun w => w.id == id) then .error .uniqueViolation
  else if !db.clips.any (fun c => c.id == clip_id) || !db.users.any (fun u => u.id == user_id) then
    .error .foreignKeyViolation
  else
    .ok { db with clip_views := db.clip_views ++
      [{ id := id, clip_id := clip_id, user_id := user_id, viewed_at := now,
         session_duration := session_duration }] }

/-- Result of one call of a service method: the committed store afterwards,
the value returned or the error thrown, and the statements sent. -/
structure ServiceResult (α : Type) where
  store : Store
  result : Except DbError α
  issued : List ClipStmt

/-- Method `ClipService.getRandomClip(userId)`.  Each statement is committed
on its own: there is no transaction around them.  `none` is `null`. -/
def getRandomClip (db : Store) (fails : ClipStmt → Bool) (rand : Nat → Nat) (viewId : UUID)
    (now : Nat) (userId : UUID) : ServiceResult (Option ClipRow) :=
  match attempt (fails .select) (.ok (selectRandomClip db rand)) with
  | .error e => ⟨db, .error e, [.select]⟩
  | .ok [] => ⟨db, .ok none, [.select]⟩
  | .ok (clip :: _) =>
    match attempt (fails .update) (incrementServed db clip.clip.id) with
    | .error e => ⟨db, .error e, [.select, .update]⟩
    | .ok db1 =>
      match attempt (fails .insertView) (insertClipView db1 viewId now clip.clip.id userId none) with
      | .error e => ⟨db1, .error e, [.select, .update, .insertView]⟩
      | .ok db2 => ⟨db2, .ok (some clip), [.select, .update, .insertView]⟩

/-- Route `GET /clips/random` for the authenticated user `userId`. -/
def getRandom (db : Store) (fails : ClipStmt → Bool) (rand : Nat → Nat) (viewId : UUID)
    (now : Nat) (userId : UUID) : Outcome ClipStmt :=
  let r := getRandomClip db fails rand viewId now userId
  match r.result with
  | .error _ => ⟨r.store, serverError "Failed to get clip", r.issued⟩
  | .ok none => ⟨r.store, { status := 404, body := .error "No clips available" }, r.issued⟩
  | .ok (some clip) => ⟨r.store, { status := 200, body := .clip clip }, r.issued⟩

/-! ## Clips overlapping a window (`services/clipService.js`) -/

/-- Clause `(start_time >= $2 AND start_time < $3) OR (end_time > $2 AND
end_time <= $3) OR (start_time <= $2 AND end_time >= $3)` of
`getOverlappingClips`. -/
def overlapClause (c : Clip) (startTime endTime : Int) : Bool :=
  (decide (c.start_time ≥ startTime) && decide (c.start_time < endTime)) ||
    (decide (c.end_time > startTime) && decide (c.end_time ≤ endTime)) ||
    (decide (c.start_time ≤ startTime) && decide (c.end_time ≥ endTime))

/-- Order of `ORDER BY start_time`. -/
def byStartTime (a b : Clip) : Prop :=
  a.start_time ≤ b.start_time

instance byStartTimeDecidable : DecidableRel byStartTime := fun a b =>
  inferInstanceAs (Decidable (a.start_time ≤ b.start_time))

instance byStartTime_isTotal : IsTotal Clip byStartTime :=
  ⟨fun a b => by unfold byStartTime; omega⟩

instance byStartTime_isTrans : IsTrans Clip byStartTime :=
  ⟨fun a b c => by unfold byStartTime; omega⟩

/-- Method `ClipService.getOverlappingClips(videoId, startTime, endTime)`:
the rows of its query, or the error that it rethrows. -/
def getOverlappingClips (db : Store) (fails : Bool) (videoId : UUID)
    (startTime endTime : Int) : Except DbError (List Clip) :=
  attempt fails
    (.ok ((db.clips.filter fun c =>
      c.video_id == some videoId && overlapClause c startTime endTime).insertionSort byStartTime))

/-! ## Marking a clip dry (`routes/clips.js`, `router.post('/:id/mark-dry')`) -/

/-- Statements that the mark-dry route sends through `pool`. -/
inductive DryStmt where
  | select
  | update
  | insertView
  deriving DecidableEq, Repr

/-- Rows of `SELECT id FROM clips WHERE id = $1`. -/
def selectClipById (db : Store) (id : UUID) : List Clip :=
  db.clips.filter fun c => c.id == id

/-- Statement `UPDATE clips SET is_dry = true WHERE id = $1`. -/
def setDry (db : Store) (id : UUID) : Store :=
  { db with clips := db.clips.map fun c => if c.id = id then { c with is_dry := true } else c }

/-- Route `POST /clips/:id/mark-dry` for the authenticated user `userId`; the
route parameter is a well-formed identifier.  The statements are committed
one by one. -/
def markDry (db : Store) (fails : DryStmt → Bool) (viewId : UUID) (now : Nat) (id : UUID)
    (userId : UUID) : Outcome DryStmt :=
  match attempt (fails .select) (.ok (selectClipById db id)) with
  | .error _ => ⟨db, serverError "Failed to mark clip as dry", [.select]⟩
  | .ok [] => ⟨db, { status := 404, body := .error "Clip not found" }, [.select]⟩
  | .ok (_ :: _) =>
    match attempt (fails .update) (.ok (setDry db id)) with
    | .error _ => ⟨db, serverError "Failed to mark clip as dry", [.select, .update]⟩
    | .ok db1 =>
      match attempt (fails .insertView) (insertClipView db1 viewId now id userId (some 0)) with
      | .error _ =>
        ⟨db1, serverError "Failed to mark clip as dry", [.select, .update, .insertView]⟩
      | .ok db2 =>
        ⟨db2, { status := 200, body := .message "Clip marked as dry" },
          [.select, .update, .insertView]⟩

/-- Method `ClipService.markClipQuality`: its statement `UPDATE clips SET
quality_score = $1 WHERE id = $2` names a column that table `clips` does not
have, so the database rejects it and the method rethrows. -/
def markClipQuality (db : Store) (_clipId : UUID) (_qualityScore : Int) :
    Store × Except DbError Unit :=
  (db, .error .undefinedColumn)

/-! ## Questions (`routes/questions.js`) -/

/-- Value of `s.length` in JavaScript: the number of UTF-16 code units. -/
def jsLength (s : String) : Nat :=
  (s.data.map fun c => if c.val < 0x10000 then 1 else 2).sum

/-- Body of `POST /questions`; an absent or `null` field is `none`. -/
structure QuestionBody where
  clipId : Option UUID
  questionText : Option String
  answerText : Option String
  deriving DecidableEq, Repr

/-- Statements that question creation sends through `pool`. -/
inductive QuestionStmt where
  | selectClip
  | insertQuestion
  | updateClip
  deriving DecidableEq, Repr

/-- Statement `INSERT INTO questions (clip_id, user_id, question_text,
answer_text) VALUES ($1, $2, $3, $4) RETURNING ...` under the constraints of
table `questions`; `quality_score` defaults to 0. -/
def insertQuestion (db : Store) (id : UUID) (now : Nat) (clip_id user_id : UUID)
    (question_text answer_text : String) : Except DbError (Store × Question) :=
  if db.questions.any (fun q => q.id == id) then .error .uniqueViolation
  else if !db.clips.any (fun c => c.id == clip_id) || !db.users.any (fun u => u.id == user_id) then
    .error .foreignKeyViolation
  else
    let question : Question :=
      { id := id, clip_id := clip_id, user_id := user_id, question_text := question_text,
        answer_text := answer_text, created_at := now, quality_score := 0 }
    .ok ({ db with questions := db.questions ++ [question] }, question)

/-- Statement `UPDATE clips SET is_dry = false WHERE id = $1 AND is_dry = true`. -/
def clearDry (db : Store) (id : UUID) : Store :=
  { db with clips := db.clips.map fun c =>
      if c.id = id ∧ c.is_dry = true then { c with is_dry := false } else c }

/-- Route `POST /questions` for the authenticated user `userId`.  The
statements are committed one by one. -/
def createQuestion (db : Store) (fails : QuestionStmt → Bool) (questionId : UUID) (now : Nat)
    (userId : UUID) (body : QuestionBody) : Outcome QuestionStmt :=
  if body.clipId.isNone || !truthyString body.questionText || !truthyString body.answerText then
    ⟨db, badRequest "Clip ID, question, and answer are required", []⟩
  else
    let clipId := body.clipId.getD 0
    let questionText := body.questionText.getD ""
    let answerText := body.answerText.getD ""
    if jsLength questionText < 5 || jsLength questionText > 500 then
      ⟨db, badRequest "Question must be between 5 and 500 characters", []⟩
    else if jsLength answerText < 2 || jsLength answerText > 1000 then
      ⟨db, badRequest "Answer must be between 2 and 1000 characters", []⟩
    else
      match attempt (fails .selectClip) (.ok (selectClipById db clipId)) with
      | .error _ => ⟨db, serverError "Failed to create question", [.selectClip]⟩
      | .ok [] => ⟨db, { status := 404, body := .error "Clip not found" }, [.selectClip]⟩
      | .ok (_ :: _) =>
        match attempt (fails .insertQuestion)
            (insertQuestion db questionId now clipId userId questionText answerText) with
        | .error _ =>
          ⟨db, serverError "Failed to create question", [.selectClip, .insertQuestion]⟩
        | .ok (db1, q) =>
          match attempt (fails .updateClip) (.ok (clearDry db1 clipId)) with
          | .error _ =>
            ⟨db1, serverError "Failed to create question",
              [.selectClip, .insertQuestion, .updateClip]⟩
          | .ok db2 =>
            ⟨db2, { status := 201
                    body := .questionCreated q.id q.clip_id q.user_id q.question_text
                      q.answer_text q.created_at },
              [.selectClip, .insertQuestion, .updateClip]⟩

/-- Body of `PUT /questions/:id`; an absent or `null` field is `none`. -/
structure QuestionPatch where
  questionText : Option String
  answerText : Option String
  deriving DecidableEq, Repr

/-- Statements that question update sends through `pool`. -/
inductive PatchStmt where
  | selectOwner
  | update
  deriving DecidableEq, Repr

/-- Rows of `SELECT user_id FROM questions WHERE id = $1`, as question rows. -/
def selectQuestionById (db : Store) (id : UUID) : List Question :=
  db.questions.filter fun q => q.id == id

/-- Row after `SET question_text = ..., answer_text = ...` with the
assignments that the route builds: one for each truthy field of the patch. -/
def applyPatch (patch : QuestionPatch) (q : Question) : Question :=
  { q with
    question_text := if truthyString patch.questionText then patch.questionText.getD ""
                     else q.question_text
    answer_text := if truthyString patch.answerText then patch.answerText.getD ""
                   else q.answer_text }

/-- Statement `UPDATE questions SET ... WHERE id = $n RETURNING *`: the store
afterwards and the rows returned. -/
def updateQuestionRows (db : Store) (id : UUID) (patch : QuestionPatch) :
    Store × List Question :=
  ({ db with questions := db.questions.map fun q => if q.id = id then applyPatch patch q else q },
    (db.questions.filter fun q => q.id == id).map (applyPatch patch))

/-- Route `PUT /questions/:id` for the authenticated user `userId`; the route
parameter is a well-formed identifier. -/
def updateQuestion (db : Store) (fails : PatchStmt → Bool) (id : UUID) (userId : UUID)
    (patch : QuestionPatch) : Outcome PatchStmt :=
  if !truthyString patch.questionText && !truthyString patch.answerText then
    ⟨db, badRequest "No updates provided", []⟩
  else
    match attempt (fails .selectOwner) (.ok (selectQuestionById db id)) with
    | .error _ => ⟨db, serverError "Failed to update question", [.selectOwner]⟩
    | .ok [] => ⟨db, { status := 404, body := .error "Question not found" }, [.selectOwner]⟩
    | .ok (owner :: _) =>
      if owner.user_id ≠ userId then
        ⟨db, { status := 403, body := .error "You can only edit your own questions" },
          [.selectOwner]⟩
      else
        match attempt (fails .update) (.ok (updateQuestionRows db id patch)) with
        | .error _ => ⟨db, serverError "Failed to update question", [.selectOwner, .update]⟩
        | .ok (db1, rows) =>
          ⟨db1, { status := 200, body := .question rows.head? }, [.selectOwner, .update]⟩

/-- Statement that the per-user listing sends through `pool`. -/
inductive ListStmt where
  | select
  deriving DecidableEq, Repr

/-- Rows of `questions q JOIN clips c ON q.clip_id = c.id JOIN videos v ON
c.video_id = v.id`, in question order. -/
def joinQuestionsClipsVideos (db : Store) : List UserQuestionRow :=
  db.questions.flatMap fun q =>
    db.clips.flatMap fun c =>
      db.videos.flatMap fun v =>
        if q.clip_id = c.id ∧ c.video_id = some v.id then
          [{ question := q, start_time := c.start_time, end_time := c.end_time,
             video_title := v.title }]
        else []

/-- Order of `ORDER BY q.created_at DESC`. -/
def newestFirst (a b : UserQuestionRow) : Prop :=
  b.question.created_at ≤ a.question.created_at

instance newestFirstDecidable : DecidableRel newestFirst := fun a b =>
  inferInstanceAs (Decidable (b.question.created_at ≤ a.question.created_at))

instance newestFirst_isTotal : IsTotal UserQuestionRow newestFirst :=
  ⟨fun a b => by unfold newestFirst; omega⟩

instance newestFirst_isTrans : IsTrans UserQuestionRow newestFirst :=
  ⟨fun a b c => by unfold newestFirst; omega⟩

/-- Query of the per-user listing: the joined rows with `q.user_id = $1`,
sorted newest first, cut by `LIMIT 50`. -/
def selectUserQuestions (db : Store) (userId : UUID) : List UserQuestionRow :=
  (((joinQuestionsClipsVideos db).filter fun r => r.question.user_id == userId).insertionSort
    newestFirst).take 50

/-- Route `GET /questions/user` for the authenticated user `userId`. -/
def listUserQuestions (db : Store) (fails : ListStmt → Bool) (userId : UUID) :
    Outcome ListStmt :=
  match attempt (fails .select) (.ok (selectUserQuestions db userId)) with
  | .error _ => ⟨db, serverError "Failed to get user questions", [.select]⟩
  | .ok rows => ⟨db, { status := 200, body := .userQuestions rows }, [.select]⟩

/-! ## Registration and login (`routes/auth.js`) -/

/-- Body of `POST /auth/register` and `POST /auth/login`. -/
structure Credentials where
  username : Option String
  password : Option String
  deriving DecidableEq, Repr

/-- Statements that the auth routes send through `pool`. -/
inductive AuthStmt where
  | insertUser
  | selectUser
  | updateLogin
  deriving DecidableEq, Repr

/-- Statement `INSERT INTO users (username, password_hash) VALUES ($1, $2)
RETURNING id, username, created_at` under the constraints of table `users`. -/
def insertUser (db : Store) (id : UUID) (now : Nat) (username password_hash : String) :
    Except DbError (Store × User) :=
  if db.users.any (fun u => u.id == id || u.username == username) then .error .uniqueViolation
  else if username.length > 50 || password_hash.length > 255 then .error .valueTooLong
  else
    let user : User :=
      { id := id, username := username, password_hash := password_hash, created_at := now,
        last_login := none }
    .ok ({ db with users := db.users ++ [user] }, user)

/-- Route `POST /auth/register`.  `hash` is `bcrypt.hash(password, 10)` and
`generateToken` the function of that name of `middleware/auth`, neither of
which touches the store. -/
def register (db : Store) (fails : AuthStmt → Bool) (hash : String → String)
    (generateToken : UUID → String → String) (userId : UUID) (now : Nat)
    (body : Credentials) : Outcome AuthStmt :=
  if !truthyString body.username || !truthyString body.password then
    ⟨db, badRequest "Username and password are required", []⟩
  else
    let username := body.username.getD ""
    let password := body.password.getD ""
    if jsLength username < 3 || jsLength username > 50 then
      ⟨db, badRequest "Username must be between 3 and 50 characters", []⟩
    else if jsLength password < 6 then
      ⟨db, badRequest "Password must be at least 6 characters", []⟩
    else
      match attempt (fails .insertUser) (insertUser db userId now username (hash password)) with
      | .error .uniqueViolation => ⟨db, badRequest "Username already exists", [.insertUser]⟩
      | .error _ => ⟨db, serverError "Failed to register user", [.insertUser]⟩
      | .ok (db1, user) =>
        ⟨db1, { status := 201
                body := .session (generateToken user.id user.username) user.id user.username
                  user.created_at },
          [.insertUser]⟩

/-- Statement `UPDATE users SET last_login = NOW() WHERE id = $1`. -/
def touchLogin (db : Store) (now : Nat) (id : UUID) : Store :=
  { db with users := db.users.map fun u => if u.id = id then { u with last_login := some now } else u }

/-- Route `POST /auth/login`.  `compare` is `bcrypt.compare`. -/
def login (db : Store) (fails : AuthStmt → Bool) (compare : String → String → Bool)
    (generateToken : UUID → String → String) (now : Nat) (body : Credentials) :
    Outcome AuthStmt :=
  if !truthyString body.username || !truthyString body.password then
    ⟨db, badRequest "Username and password are required", []⟩
  else
    let username := body.username.getD ""
    let password := body.password.getD ""
    match attempt (fails .selectUser) (.ok (db.users.filter fun u => u.username == username)) with
    | .error _ => ⟨db, serverError "Failed to login", [.selectUser]⟩
    | .ok [] => ⟨db, { status := 401, body := .error "Invalid credentials" }, [.selectUser]⟩
    | .ok (user :: _) =>
      if !compare password user.password_hash then
        ⟨db, { status := 401, body := .error "Invalid credentials" }, [.selectUser]⟩
      else
        match attempt (fails .updateLogin) (.ok (touchLogin db now user.id)) with
        | .error _ => ⟨db, serverError "Failed to login", [.selectUser, .updateLogin]⟩
        | .ok db1 =>
          ⟨db1, { status := 200
                  body := .session (generateToken user.id user.username) user.id user.username
                    user.created_at },
            [.selectUser, .updateLogin]⟩

/-! ## Auxiliary definitions for the statements -/

/-- Window starting at offset `i` of the video `video_id`. -/
def windowAt (video_id : UUID) (i : Nat) : ClipParams :=
  { video_id := video_id, start_time := (i : Int), end_time := (i : Int) + 10 }

/-- Referential integrity of `clips.video_id`: every clip belongs to a stored
video.  Video creation is the only insert into `clips` and always supplies
the identifier of the video inserted just before. -/
def Store.clipsHaveVideos (db : Store) : Prop :=
  ∀ c ∈ db.clips, ∃ v ∈ db.videos, c.video_id = some v.id

/-- Primary key of table `clips`. -/
def Store.clipKeysUnique (db : Store) : Prop :=
  (db.clips.map Clip.id).Nodup

/-- Clip `c` is least served among the clips of `db` that are not dry. -/
def Store.leastServed (db : Store) (c : Clip) : Prop :=
  ∀ c' ∈ db.clips, c'.is_dry = false → c.served_count ≤ c'.served_count

instance Store.clipsHaveVideosDecidable (db : Store) : Decidable db.clipsHaveVideos := by
  unfold Store.clipsHaveVideos; infer_instance

instance Store.clipKeysUniqueDecidable (db : Store) : Decidable db.clipKeysUnique := by
  unfold Store.clipKeysUnique; infer_instance

instance Store.leastServedDecidable (db : Store) (c : Clip) : Decidable (db.leastServed c) := by
  unfold Store.leastServed; infer_instance

/-- Relation between a clip before and after a call that served the clip
`served`: every column is kept, except that `served_count` is one more on the
clip `served`. -/
def servedOnce (served : UUID) (c c' : Clip) : Prop :=
  c'.id = c.id ∧ c'.video_id = c.video_id ∧ c'.start_time = c.start_time ∧
    c'.end_time = c.end_time ∧ c'.is_dry = c.is_dry ∧ c'.created_at = c.created_at ∧
    c'.served_count = if c.id = served then c.served_count + 1 else c.served_count

/-- Relation between a clip before and after a request that marked the clip
`marked` dry: every column is kept, except that `is_dry` is true on the clip
`marked`. -/
def markedDry (marked : UUID) (c c' : Clip) : Prop :=
  c'.id = c.id ∧ c'.video_id = c.video_id ∧ c'.start_time = c.start_time ∧
    c'.end_time = c.end_time ∧ c'.served_count = c.served_count ∧
    c'.created_at = c.created_at ∧ c'.is_dry = if c.id = marked then true else c.is_dry

/-- Lengths that the validation of question creation accepts. -/
def validLengths (questionText answerText : String) : Prop :=
  5 ≤ jsLength questionText ∧ jsLength questionText ≤ 500 ∧
    2 ≤ jsLength answerText ∧ jsLength answerText ≤ 1000

instance validLengthsDecidable (q a : String) : Decidable (validLengths q a) := by
  unfold validLengths; infer_instance

/-- Primary key of table `questions`. -/
def Store.questionKeysUnique (db : Store) : Prop :=
  (db.questions.map Question.id).Nodup

instance Store.questionKeysUniqueDecidable (db : Store) : Decidable db.questionKeysUnique := by
  unfold Store.questionKeysUnique; infer_instance

/-- The patch passes the check `No updates provided`: one of its two texts is
a non-empty string. -/
def QuestionPatch.hasUpdate (patch : QuestionPatch) : Bool :=
  truthyString patch.questionText || truthyString patch.answerText

/-- Relation between a question row before and after an update of the
question `id`: the identifier is kept and every other row is unchanged. -/
def otherQuestionsKept (id : UUID) (x x' : Question) : Prop :=
  x'.id = x.id ∧ (x.id ≠ id → x' = x)

/-- Every clip that is dry before is still there, in the same position and
with the same identifier, and dry afterwards. -/
def dryFlagsKept (before after : Store) : Prop :=
  ∀ (i : Nat) (c : Clip), before.clips[i]? = some c → c.is_dry = true →
    ∃ c' : Clip, after.clips[i]? = some c' ∧ c'.id = c.id ∧ c'.is_dry = true

/-- One request to the backend, with the values that it takes from its
environment. -/
inductive Request where
  | select (fails : ClipStmt → Bool) (rand : Nat → Nat) (viewId : UUID) (now : Nat)
      (userId : UUID)
  | markDry (fails : DryStmt → Bool) (viewId : UUID) (now : Nat) (id userId : UUID)
  | createQuestion (fails : QuestionStmt → Bool) (questionId : UUID) (now : Nat)
      (userId : UUID) (body : QuestionBody)
  | updateQuestion (fails : PatchStmt → Bool) (id userId : UUID) (patch : QuestionPatch)
  | createVideo (fails : VideoStmt → Bool) (vid : UUID) (cids : Nat → UUID) (now : Nat)
      (body : VideoBody)

/-- Store after one request, and the clip row that the request served, if it
is a selection that returned one. -/
def Request.run (db : Store) : Request → Store × Option ClipRow
  | .select fails rand viewId now userId =>
    ((getRandomClip db fails rand viewId now userId).store,
      match (getRandomClip db fails rand viewId now userId).result with
      | .ok (some row) => some row
      | _ => none)
  | .markDry fails viewId now id userId =>
    ((VqaSys.markDry db fails viewId now id userId).store, none)
  | .createQuestion fails questionId now userId body =>
    ((VqaSys.createQuestion db fails questionId now userId body).store, none)
  | .updateQuestion fails id userId patch =>
    ((VqaSys.updateQuestion db fails id userId patch).store, none)
  | .createVideo fails vid cids now body =>
    ((VqaSys.createVideo db fails vid cids now body).store, none)

/-- Consecutive requests, each on the store left by the one before: the final
store and what each request served. -/
def runAll (db : Store) : List Request → Store × List (Option ClipRow)
  | [] => (db, [])
  | r :: rest => ((runAll (r.run db).1 rest).1, (r.run db).2 :: (runAll (r.run db).1 rest).2)

/-- The request is a question creation for the clip `c`. -/
def Request.asksAbout (c : UUID) : Request → Bool
  | .createQuestion _ _ _ _ body => body.clipId == some c
  | _ => false

/-- The clip `c` exists and every row with that identifier is dry. -/
def dryAt (c : UUID) (db : Store) : Prop :=
  (∃ x ∈ db.clips, x.id = c) ∧ ∀ x ∈ db.clips, x.id = c → x.is_dry = true

/-- Every clip of `before` is still there in `after`, in the same position,
and the two rows satisfy `R`. -/
def clipsRelated (R : Clip → Clip → Prop) (before after : Store) : Prop :=
  ∀ (i : Nat) (c : Clip), before.clips[i]? = some c →
    ∃ c' : Clip, after.clips[i]? = some c' ∧ R c c'

/-- No clip changed its `served_count`. -/
def servedKept (before after : Store) : Prop :=
  clipsRelated (fun c c' => c'.id = c.id ∧ c'.served_count = c.served_count) before after

/-- No clip lowered its `served_count`, and none raised it by more than one. -/
def servedGrown (before after : Store) : Prop :=
  clipsRelated (fun c c' => c'.id = c.id ∧ c.served_count ≤ c'.served_count ∧
    c'.served_count ≤ c.served_count + 1) before after

/-- The clips that `after` has beyond those of `before` have `served_count = 0`. -/
def newClipsUnserved (before after : Store) : Prop :=
  ∀ (i : Nat) (c : Clip), after.clips[i]? = some c → before.clips.length ≤ i →
    c.served_count = 0

/-- No clip of the store has a negative `served_count`. -/
def Store.servedNonneg (db : Store) : Prop :=
  ∀ c ∈ db.clips, 0 ≤ c.served_count

instance Store.servedNonnegDecidable (db : Store) : Decidable db.servedNonneg := by
  unfold Store.servedNonneg; infer_instance

/-- The interval of the clip and the window `[startTime, endTime)` overlap
in the half-open sense. -/
def overlapsHalfOpen (c : Clip) (startTime endTime : Int) : Prop :=
  c.start_time < endTime ∧ c.end_time > startTime

instance overlapsHalfOpenDecidable (c : Clip) (s e : Int) : Decidable (overlapsHalfOpen c s e) := by
  unfold overlapsHalfOpen; infer_instance

/-- Primary key of table `videos`. -/
def Store.videoKeysUnique (db : Store) : Prop :=
  (db.videos.map Video.id).Nodup

instance Store.videoKeysUniqueDecidable (db : Store) : Decidable db.videoKeysUnique := by
  unfold Store.videoKeysUnique; infer_instance

/-- Referential integrity of `questions.clip_id`: every question belongs to a
stored clip.  Question creation is the only insert into `questions` and
checks the clip first. -/
def Store.questionsHaveClips (db : Store) : Prop :=
  ∀ q ∈ db.questions, ∃ c ∈ db.clips, c.id = q.clip_id

instance Store.questionsHaveClipsDecidable (db : Store) : Decidable db.questionsHaveClips := by
  unfold Store.questionsHaveClips; infer_instance

/-- Questions of the store that the user `userId` authored. -/
def Store.questionsOf (db : Store) (userId : UUID) : List Question :=
  db.questions.filter fun q => q.user_id == userId

/-- Pool of `k` clips after `k * q + r` selections from equal counts `m`, with
`r < k`: every count is `m + q` or `m + q + 1` and the counts add up to
`k * m + k * q + r`, so exactly `r` clips are one ahead. -/
def balanced (m : Int) (k q r : Nat) (pool : List Clip) : Prop :=
  pool.length = k ∧ r < k ∧
    (∀ c ∈ pool, m + q ≤ c.served_count ∧ c.served_count ≤ m + q + 1) ∧
    (pool.map Clip.served_count).sum = k * m + k * q + r

/-- Sum of the `served_count` column. -/
def servedTotal (db : Store) : Int :=
  (db.clips.map Clip.served_count).sum

/-- Number of `served_count` increments between two stores. -/
def incrementsPerformed (before after : Store) : Int :=
  servedTotal after - servedTotal before

/-- Number of `clip_views` rows appended between two stores. -/
def viewsAppended (before after : Store) : Int :=
  (after.clip_views.length : Int) - (before.clip_views.length : Int)

/-- Number of clips that a call of `getRandomClip` returned. -/
def clipsReturned : Except DbError (Option ClipRow) → Int
  | .ok (some _) => 1
  | _ => 0

/-- The call sent the `INSERT INTO clip_views` and that statement threw. -/
def viewInsertThrew (r : ServiceResult (Option ClipRow)) : Bool :=
  r.issued.contains .insertView && clipsReturned r.result == 0

/-- Environment in which exactly the `INSERT INTO clip_views` throws. -/
def viewInsertFails : ClipStmt → Bool :=
  fun s => s == .insertView

/-- Values that one call of `getRandomClip` takes from its environment and
its caller. -/
structure ServeCall where
  fails : ClipStmt → Bool
  rand : Nat → Nat
  viewId : UUID
  now : Nat
  userId : UUID

/-- Consecutive calls of `getRandomClip`, each on the store left by the one
before: the final store and the results in order. -/
def serveAll (db : Store) : List ServeCall → Store × List (Except DbError (Option ClipRow))
  | [] => (db, [])
  | call :: rest =>
    let r := getRandomClip db call.fails call.rand call.viewId call.now call.userId
    ((serveAll r.store rest).1, r.result :: (serveAll r.store rest).2)

/-- Clips of the store that are not dry. -/
def Store.pool (db : Store) : List Clip :=
  db.clips.filter fun c => c.is_dry == false

/-- Rows of `clip_views` that reference the clip `id`. -/
def Store.viewsOf (db : Store) (id : UUID) : List ClipView :=
  db.clip_views.filter fun w => w.clip_id == id

/-! ## Sample stores -/

/-- Store with one user, one 12-second video and its three clips, the last
of them dry. -/
def sampleStore : Store :=
  { users := [{ id := 1, username := "ann", password_hash := "h", created_at := 0,
                last_login := none }]
    videos := [{ id := 7, title := "t", url := "u", duration_seconds := 12,
                 total_clips_generated := 3, uploaded_at := 5 }]
    clips := [{ id := 100, video_id := some 7, start_time := 0, end_time := 10,
                is_dry := false, served_count := 0, created_at := 5 },
              { id := 101, video_id := some 7, start_time := 1, end_time := 11,
                is_dry := false, served_count := 0, created_at := 5 },
              { id := 102, video_id := some 7, start_time := 2, end_time := 12,
                is_dry := true, served_count := 0, created_at := 5 }]
    clip_views := []
    questions := [] }

/-- Store whose only clip is dry. -/
def dryStore : Store :=
  { sampleStore with
    clips := [{ id := 102, video_id := some 7, start_time := 2, end_time := 12,
                is_dry := true, served_count := 4, created_at := 5 }] }

/-- Store whose only clip that is not dry is clip 100, never served. -/
def singleStore : Store :=
  { sampleStore with
    clips := [{ id := 100, video_id := some 7, start_time := 0, end_time := 10,
                is_dry := false, served_count := 0, created_at := 5 },
              { id := 102, video_id := some 7, start_time := 2, end_time := 12,
                is_dry := true, served_count := 0, created_at := 5 }] }

/-- Three calls by user 1 in which no statement throws. -/
def threeCalls : List ServeCall :=
  [{ fails := fun _ => false, rand := fun _ => 0, viewId := 55, now := 9, userId := 1 },
   { fails := fun _ => false, rand := fun _ => 0, viewId := 56, now := 10, userId := 1 },
   { fails := fun _ => false, rand := fun _ => 0, viewId := 57, now := 11, userId := 1 }]

/-- Request for a 12-second video. -/
def sampleBody : VideoBody :=
  { title := some "t", url := some "u", durationSeconds := some 12 }

/-- Identifier that the database draws for the `i`-th clip of a request. -/
def sampleClipIds : Nat → UUID :=
  fun i => 200 + i

/-- Environment in which exactly the statement `stmt` throws. -/
def onlyFails (stmt : VideoStmt) : VideoStmt → Bool :=
  fun s => s == stmt

/-- Sample store in which user 1 has asked question 300 about clip 100. -/
def askedStore : Store :=
  { sampleStore with
    questions := [{ id := 300, clip_id := 100, user_id := 1, question_text := "What?",
                    answer_text := "ok", created_at := 9, quality_score := 0 }] }

/-- Environment in which exactly the `UPDATE clips` of question creation
throws. -/
def flagUpdateFails : QuestionStmt → Bool :=
  fun s => s == .updateClip

/-- Sample store with two questions of user 1, asked at times 9 and 12, and
one question of user 2. -/
def listedStore : Store :=
  { sampleStore with
    questions := [{ id := 300, clip_id := 100, user_id := 1, question_text := "What?",
                    answer_text := "ok", created_at := 9, quality_score := 0 },
                  { id := 301, clip_id := 101, user_id := 2, question_text := "Where?",
                    answer_text := "here", created_at := 10, quality_score := 0 },
                  { id := 302, clip_id := 101, user_id := 1, question_text := "Which?",
                    answer_text := "that", created_at := 12, quality_score := 0 }] }

/-- Text of `n` letters. -/
def textOf (n : Nat) : String :=
  String.mk (List.replicate n 'a')

/-- Outcome of `RANDOM()` that is smallest on candidate row `i`. -/
def favour (i : Nat) : Nat → Nat :=
  fun j => if j = i then 0 else 1

/-- Environment in which no statement throws. -/
def noFault {σ : Type} : σ → Bool :=
  fun _ => false

/-- Store with user 1 and the 30-second video 7, as video creation leaves it:
21 clips with identifiers 200 to 220. -/
def store21 : Store :=
  (createVideo { Store.empty with users := sampleStore.users } noFault 7 sampleClipIds 5
    ⟨some "t", some "u", some 30⟩).store

/-- The same store written out. -/
def store21Rows : Store :=
  { users := sampleStore.users
    videos := [{ id := 7, title := "t", url := "u", duration_seconds := 30,
                 total_clips_generated := 21, uploaded_at := 5 }]
    clips := clipRows sampleClipIds 5 ((List.range 21).map (windowAt 7))
    clip_views := []
    questions := [] }

/-! # Theorems -/

/-! ## Clip generation: the sliding window -/

theorem clipLoop_eq (video_id : UUID) (D : Int) (n : Nat) :
    ∀ (start : Int) (acc : List ClipParams), (D - 9 - start).toNat = n →
      clipLoop video_id D start acc =
        acc ++ (List.range n).map fun i =>
          { video_id := video_id, start_time := start + i, end_time := start + i + 10 } := by
  induction n with
  | zero =>
    intro start acc h
    rw [clipLoop, if_neg (by omega)]
    simp
  | succ n ih =>
    intro start acc h
    rw [clipLoop, if_pos (by omega), ih (start + 1) _ (by omega)]
    rw [List.range_succ_eq_map, List.map_cons, List.map_map, List.append_assoc]
    congr 1
    simp only [List.singleton_append, Nat.cast_zero, add_zero, List.cons.injEq, true_and]
    apply List.map_congr_left
    intro i _
    simp only [Function.comp_apply, Nat.cast_succ, ClipParams.mk.injEq, true_and]
    constructor <;> ring

theorem generateClips_eq (video_id : UUID) (D : Int) :
    generateClips video_id D = (List.range (D - 9).toNat).map (windowAt video_id) := by
  rw [generateClips, clipLoop_eq video_id D (D - 9).toNat 0 [] (by simp)]
  simp [windowAt]

theorem generateClips_length (video_id : UUID) (D : Int) :
    (generateClips video_id D).length = (D - 9).toNat := by
  simp [generateClips_eq]

/-- C1: for every duration `D` with `10 ≤ D ≤ 1020` the clip list built by
video creation is `[(i, i + 10) for i = 0 .. D - 10]` in that order: it has
`D - 9` entries, the start offsets are exactly the integers of `[0, D - 10]`
without duplicates, and every clip has `end - start = 10`, so it passes the
`CHECK` constraint of table `clips`. -/
theorem generateClips_sliding_window (video_id : UUID) (D : Int)
    (hmin : 10 ≤ D) (hmax : D ≤ 1020) :
    generateClips video_id D
        = (List.range (D - 9).toNat).map (fun i =>
            { video_id := video_id, start_time := (i : Int), end_time := (i : Int) + 10 })
      ∧ ((generateClips video_id D).length : Int) = D - 9
      ∧ (generateClips video_id D).map ClipParams.start_time
          = (List.range (D - 9).toNat).map Int.ofNat
      ∧ ((generateClips video_id D).map ClipParams.start_time).Nodup
      ∧ (∀ s : Int, s ∈ (generateClips video_id D).map ClipParams.start_time
          ↔ 0 ≤ s ∧ s ≤ D - 10)
      ∧ (∀ c ∈ generateClips video_id D,
          c.end_time - c.start_time = 10
            ∧ validClipDuration c.start_time c.end_time = true
            ∧ c.video_id = video_id) := by
  have _ := hmax
  have hstarts : (generateClips video_id D).map ClipParams.start_time
      = (List.range (D - 9).toNat).map Int.ofNat := by
    rw [generateClips_eq, List.map_map]
    rfl
  refine ⟨generateClips_eq video_id D, ?_, hstarts, ?_, ?_, ?_⟩
  · rw [generateClips_length]; omega
  · rw [hstarts]
    exact (List.nodup_range _).map (fun a b h => by simpa using h)
  · intro s
    rw [hstarts]
    simp only [List.mem_map, List.mem_range]
    constructor
    · rintro ⟨i, hi, rfl⟩
      simp only [Int.ofNat_eq_coe]
      omega
    · rintro ⟨h0, h1⟩
      refine ⟨s.toNat, by omega, ?_⟩
      simp only [Int.ofNat_eq_coe]
      omega
  · intro c hc
    rw [generateClips_eq] at hc
    simp only [List.mem_map, List.mem_range] at hc
    obtain ⟨i, _, rfl⟩ := hc
    simp [windowAt, validClipDuration]

/-- C1 at `D = 30`: 21 clips with starts `0 .. 20`. -/
theorem generateClips_sliding_window_witness :
    (10 : Int) ≤ 30 ∧ (30 : Int) ≤ 1020
      ∧ ((generateClips 7 30).length : Int) = 30 - 9
      ∧ (∀ s : Int, s ∈ (generateClips 7 30).map ClipParams.start_time ↔ 0 ≤ s ∧ s ≤ 30 - 10) :=
  ⟨by decide, by decide,
    (generateClips_sliding_window 7 30 (by decide) (by decide)).2.1,
    (generateClips_sliding_window 7 30 (by decide) (by decide)).2.2.2.2.1⟩

/-! ## Clip selection: the candidate pool and the tie-break -/

theorem mem_joinClipsVideos (db : Store) (r : ClipRow) :
    r ∈ joinClipsVideos db ↔
      r.clip ∈ db.clips ∧
        ∃ v ∈ db.videos, r.clip.video_id = some v.id ∧ r.url = v.url ∧ r.video_title = v.title := by
  unfold joinClipsVideos
  simp only [List.mem_flatMap, List.mem_filterMap]
  constructor
  · rintro ⟨c, hc, v, hv, h⟩
    split at h
    · rename_i hcv
      cases h
      exact ⟨hc, v, hv, hcv, rfl, rfl⟩
    · cases h
  · rintro ⟨hc, v, hv, hcv, hu, ht⟩
    refine ⟨r.clip, hc, v, hv, ?_⟩
    rw [if_pos hcv, ← hu, ← ht]

theorem mem_candidateRows (db : Store) (r : ClipRow) :
    r ∈ candidateRows db ↔
      r.clip ∈ db.clips ∧ r.clip.is_dry = false ∧
        ∃ v ∈ db.videos, r.clip.video_id = some v.id ∧ r.url = v.url ∧ r.video_title = v.title := by
  unfold candidateRows
  simp only [List.mem_filter, mem_joinClipsVideos, beq_iff_eq]
  tauto

theorem candidateRows_eq_nil (db : Store) (h : ∀ c ∈ db.clips, c.is_dry = true) :
    candidateRows db = [] := by
  rw [List.eq_nil_iff_forall_not_mem]
  intro r hr
  rw [mem_candidateRows] at hr
  have := h r.clip hr.1
  rw [hr.2.1] at this
  cases this

theorem take_one_insertionSort {α : Type} (r : α → α → Prop) [DecidableRel r]
    [IsTotal α r] [IsTrans α r] (l : List α) :
    (l = [] ∧ (l.insertionSort r).take 1 = []) ∨
      ∃ x, (l.insertionSort r).take 1 = [x] ∧ x ∈ l ∧ ∀ y ∈ l, r x y := by
  cases h : l.insertionSort r with
  | nil =>
    left
    have hl := List.length_insertionSort r l
    rw [h] at hl
    exact ⟨List.length_eq_zero.mp hl.symm, rfl⟩
  | cons x t =>
    right
    have hs := List.sorted_insertionSort r l
    rw [h] at hs
    have hmem : ∀ y, y ∈ l ↔ y ∈ x :: t := fun y => by
      rw [← h]; exact (List.mem_insertionSort r).symm
    refine ⟨x, by simp, (hmem x).2 (List.mem_cons_self _ _), ?_⟩
    intro y hy
    rcases List.mem_cons.1 ((hmem y).1 hy) with rfl | hyt
    · exact (total_of r y y).elim id id
    · exact List.rel_of_sorted_cons hs y hyt

theorem mem_keyed (rows : List ClipRow) (rand : Nat → Nat) (x : ClipRow × Nat) :
    x ∈ rows.enum.map (fun ir => (ir.2, rand ir.1)) ↔
      ∃ i, rows[i]? = some x.1 ∧ x.2 = rand i := by
  simp only [List.mem_map, Prod.exists, List.mk_mem_enum_iff_getElem?]
  constructor
  · rintro ⟨i, r, hr, rfl⟩
    exact ⟨i, hr, rfl⟩
  · rintro ⟨i, hr, hk⟩
    exact ⟨i, x.1, hr, by rw [← hk]⟩

/-- The query yields no row exactly when there is no candidate, and otherwise
one candidate that is first in the order of the query. -/
theorem selectRandomClip_cases (db : Store) (rand : Nat → Nat) :
    (candidateRows db = [] ∧ selectRandomClip db rand = []) ∨
      ∃ row i, selectRandomClip db rand = [row] ∧ (candidateRows db)[i]? = some row ∧
        ∀ j other, (candidateRows db)[j]? = some other →
          servedThenRandom (row, rand i) (other, rand j) := by
  unfold selectRandomClip
  rcases take_one_insertionSort servedThenRandom
      ((candidateRows db).enum.map fun ir => (ir.2, rand ir.1)) with ⟨hnil, htake⟩ | ⟨x, htake, hx, hmin⟩
  · left
    refine ⟨?_, by simp only [htake, List.map_nil]⟩
    have := congrArg List.length hnil
    simpa using this
  · right
    obtain ⟨i, hi, hk⟩ := (mem_keyed _ rand x).1 hx
    refine ⟨x.1, i, by simp only [htake, List.map_cons, List.map_nil], hi, ?_⟩
    intro j other hj
    have := hmin (other, rand j) ((mem_keyed _ rand _).2 ⟨j, hj, rfl⟩)
    rw [← hk]
    exact this

theorem selectRandomClip_sound (db : Store) (rand : Nat → Nat) (row : ClipRow)
    (rest : List ClipRow) (h : selectRandomClip db rand = row :: rest) :
    rest = [] ∧ row ∈ candidateRows db ∧
      ∀ other ∈ candidateRows db, row.clip.served_count ≤ other.clip.served_count := by
  rcases selectRandomClip_cases db rand with ⟨_, hnil⟩ | ⟨row', i, hsel, hi, hmin⟩
  · rw [hnil] at h; cases h
  · rw [hsel] at h
    cases h
    refine ⟨rfl, List.getElem?_mem hi, ?_⟩
    intro other ho
    obtain ⟨j, hj⟩ := List.mem_iff_getElem?.1 ho
    have := hmin j other hj
    unfold servedThenRandom at this
    simp only at this
    omega

/-- A call that returns a clip sent its three statements and none threw. -/
theorem getRandomClip_returns (db : Store) (fails : ClipStmt → Bool) (rand : Nat → Nat)
    (viewId : UUID) (now : Nat) (userId : UUID) (row : ClipRow)
    (h : (getRandomClip db fails rand viewId now userId).result = .ok (some row)) :
    selectRandomClip db rand = [row] ∧
      ∃ db1, incrementServed db row.clip.id = .ok db1 ∧
        insertClipView db1 viewId now row.clip.id userId none
          = .ok (getRandomClip db fails rand viewId now userId).store := by
  unfold getRandomClip attempt at h ⊢
  cases hs : fails .select <;> simp only [hs, Bool.false_eq_true, if_false, if_true] at h ⊢
  · cases hsel : selectRandomClip db rand with
    | nil => simp only [hsel] at h; cases h
    | cons first rest =>
      simp only [hsel] at h ⊢
      have hrest := (selectRandomClip_sound db rand first rest hsel).1
      cases hu : fails .update <;> simp only [hu, Bool.false_eq_true, if_false, if_true] at h ⊢
      · cases hinc : incrementServed db first.clip.id with
        | error e => simp only [hinc] at h; cases h
        | ok db1 =>
          simp only [hinc] at h ⊢
          cases hi : fails .insertView <;>
            simp only [hi, Bool.false_eq_true, if_false, if_true] at h ⊢
          · cases hins : insertClipView db1 viewId now first.clip.id userId none with
            | error e => simp only [hins] at h; cases h
            | ok db2 =>
              simp only [hins] at h ⊢
              cases h
              exact ⟨by rw [hrest], db1, hinc, hins⟩
          · cases h
      · cases h
  · cases h

/-- A call whose three statements run without throwing returns the row
selected by the query. -/
theorem getRandomClip_of_steps (db db1 db2 : Store) (fails : ClipStmt → Bool)
    (rand : Nat → Nat) (viewId : UUID) (now : Nat) (userId : UUID) (row : ClipRow)
    (hf : ∀ s, fails s = false) (hsel : selectRandomClip db rand = [row])
    (hinc : incrementServed db row.clip.id = .ok db1)
    (hins : insertClipView db1 viewId now row.clip.id userId none = .ok db2) :
    (getRandomClip db fails rand viewId now userId).result = .ok (some row) ∧
      (getRandomClip db fails rand viewId now userId).store = db2 := by
  unfold getRandomClip attempt
  simp only [hf, Bool.false_eq_true, if_false, hsel, hinc, hins, and_self]

theorem clip_eq_of_id_eq (db : Store) (hpk : db.clipKeysUnique) (c c' : Clip)
    (hc : c ∈ db.clips) (hc' : c' ∈ db.clips) (hid : c'.id = c.id) : c' = c :=
  List.inj_on_of_nodup_map hpk hc' hc hid

theorem incrementServed_ok (db : Store) (id : UUID)
    (h : ∀ c ∈ db.clips, c.id = id → c.served_count < pgIntMax) :
    incrementServed db id = .ok { db with clips := db.clips.map fun c =>
      if c.id = id then { c with served_count := c.served_count + 1 } else c } := by
  unfold incrementServed
  rw [if_neg]
  simp only [List.any_eq_true, Bool.and_eq_true, beq_iff_eq, decide_eq_true_eq, not_exists,
    not_and]
  intro c hc hid
  have := h c hc hid
  omega

theorem incrementServed_inv (db db1 : Store) (id : UUID)
    (h : incrementServed db id = .ok db1) :
    db1 = { db with clips := db.clips.map fun c =>
      if c.id = id then { c with served_count := c.served_count + 1 } else c } := by
  unfold incrementServed at h
  split at h
  · cases h
  · cases h; rfl

theorem insertClipView_inv (db db2 : Store) (id : UUID) (now : Nat) (clip_id user_id : UUID)
    (d : Option Int) (h : insertClipView db id now clip_id user_id d = .ok db2) :
    db2 = { db with clip_views := db.clip_views ++
      [{ id := id, clip_id := clip_id, user_id := user_id, viewed_at := now,
         session_duration := d }] } := by
  unfold insertClipView at h
  split at h
  · cases h
  · split at h
    · cases h
    · cases h; rfl

theorem insertClipView_ok (db : Store) (id : UUID) (now : Nat) (clip_id user_id : UUID)
    (d : Option Int) (hfresh : ∀ w ∈ db.clip_views, w.id ≠ id)
    (hclip : ∃ c ∈ db.clips, c.id = clip_id) (huser : ∃ u ∈ db.users, u.id = user_id) :
    insertClipView db id now clip_id user_id d = .ok { db with clip_views := db.clip_views ++
      [{ id := id, clip_id := clip_id, user_id := user_id, viewed_at := now,
         session_duration := d }] } := by
  unfold insertClipView
  rw [if_neg, if_neg]
  · simp only [Bool.or_eq_true, Bool.not_eq_true', List.any_eq_false, beq_iff_eq, not_or,
      not_forall, Classical.not_imp, Decidable.not_not]
    obtain ⟨c, hc, hcid⟩ := hclip
    obtain ⟨u, hu, huid⟩ := huser
    exact ⟨⟨c, hc, hcid⟩, ⟨u, hu, huid⟩⟩
  · simp only [List.any_eq_true, beq_iff_eq, not_exists, not_and]
    exact hfresh

/-- C2: on a store whose clips all belong to a video, the clips that one call
of `getRandomClip` can return are exactly the clips that are not dry and have
the least `served_count` among the clips that are not dry.  A returned clip is
such a clip; and for each such clip some outcome of `RANDOM()` makes the
query select it, whatever its identifier or position, and a call in which no
statement throws then returns it. -/
theorem getRandomClip_choice_set (db : Store) (hfk : db.clipsHaveVideos) :
    (∀ fails rand viewId now userId row,
        (getRandomClip db fails rand viewId now userId).result = .ok (some row) →
          row.clip ∈ db.clips ∧ row.clip.is_dry = false ∧ db.leastServed row.clip) ∧
    (∀ c ∈ db.clips, c.is_dry = false → db.leastServed c →
        ∃ rand row, row.clip = c ∧ selectRandomClip db rand = [row] ∧
          ∀ fails viewId now userId,
            (∀ s, fails s = false) → db.clipKeysUnique → c.served_count < pgIntMax →
            (∃ u ∈ db.users, u.id = userId) → (∀ w ∈ db.clip_views, w.id ≠ viewId) →
              (getRandomClip db fails rand viewId now userId).result = .ok (some row)) := by
  constructor
  · intro fails rand viewId now userId row h
    obtain ⟨hsel, -⟩ := getRandomClip_returns db fails rand viewId now userId row h
    obtain ⟨-, hmem, hmin⟩ := selectRandomClip_sound db rand row [] hsel
    have hrow := (mem_candidateRows db row).1 hmem
    refine ⟨hrow.1, hrow.2.1, ?_⟩
    intro c' hc' hdry
    obtain ⟨v, hv, hcv⟩ := hfk c' hc'
    exact hmin ⟨c', v.url, v.title⟩
      ((mem_candidateRows db _).2 ⟨hc', hdry, v, hv, hcv, rfl, rfl⟩)
  · intro c hc hdry hleast
    obtain ⟨v, hv, hcv⟩ := hfk c hc
    have hmem : (⟨c, v.url, v.title⟩ : ClipRow) ∈ candidateRows db :=
      (mem_candidateRows db _).2 ⟨hc, hdry, v, hv, hcv, rfl, rfl⟩
    obtain ⟨i, hi⟩ := List.mem_iff_getElem?.1 hmem
    refine ⟨fun j => if j = i then 0 else 1, ⟨c, v.url, v.title⟩, rfl, ?_⟩
    have hsel : selectRandomClip db (fun j => if j = i then 0 else 1)
        = [(⟨c, v.url, v.title⟩ : ClipRow)] := by
      rcases selectRandomClip_cases db (fun j => if j = i then 0 else 1) with
        ⟨hnil, -⟩ | ⟨row, k, hsel, hk, hmin⟩
      · rw [hnil] at hmem; cases hmem
      · have hle := hmin i _ hi
        have hrow := (mem_candidateRows db row).1 (List.getElem?_mem hk)
        have hge := hleast row.clip hrow.1 hrow.2.1
        unfold servedThenRandom at hle
        simp only [if_true] at hle
        have hki : k = i := by
          by_contra hne
          rw [if_neg hne] at hle
          omega
        subst hki
        rw [hk] at hi
        cases hi
        exact hsel
    refine ⟨hsel, ?_⟩
    intro fails viewId now userId hf hpk hlt huser hfresh
    have hinc := incrementServed_ok db c.id (fun c' hc' hid => by
      rw [clip_eq_of_id_eq db hpk c c' hc hc' hid]; exact hlt)
    refine (getRandomClip_of_steps db _ _ fails _ viewId now userId _ hf hsel hinc
      (insertClipView_ok _ viewId now c.id userId none hfresh ?_ huser)).1
    exact ⟨{ c with served_count := c.served_count + 1 },
      List.mem_map.2 ⟨c, hc, by simp⟩, rfl⟩

/-- C2 on the sample store, whose clips all belong to video 7. -/
theorem getRandomClip_choice_set_witness :
    sampleStore.clipsHaveVideos ∧
      ∀ c ∈ sampleStore.clips, c.is_dry = false → sampleStore.leastServed c →
        ∃ rand row, row.clip = c ∧ selectRandomClip sampleStore rand = [row] ∧
          ∀ fails viewId now userId,
            (∀ s, fails s = false) → sampleStore.clipKeysUnique → c.served_count < pgIntMax →
            (∃ u ∈ sampleStore.users, u.id = userId) →
            (∀ w ∈ sampleStore.clip_views, w.id ≠ viewId) →
              (getRandomClip sampleStore fails rand viewId now userId).result = .ok (some row) :=
  ⟨by decide, (getRandomClip_choice_set sampleStore (by decide)).2⟩

/-! ## Clip selection: the empty pool -/

/-- C3: when no clip of the store has `is_dry = false`, selection changes
nothing in the store and never answers 200; when the query does not throw,
`getRandomClip` returns `null` and the route answers 404 with
`No clips available`, having sent the query only. -/
theorem getRandom_unavailable (db : Store) (fails : ClipStmt → Bool) (rand : Nat → Nat)
    (viewId : UUID) (now : Nat) (userId : UUID)
    (hpool : ∀ c ∈ db.clips, c.is_dry = true) :
    (getRandom db fails rand viewId now userId).store = db ∧
      (getRandom db fails rand viewId now userId).response.status ≠ 200 ∧
      (getRandom db fails rand viewId now userId).issued = [.select] ∧
      (fails .select = false →
        (getRandomClip db fails rand viewId now userId).result = .ok none ∧
          (getRandom db fails rand viewId now userId).response
            = { status := 404, body := .error "No clips available" }) := by
  have hsel : selectRandomClip db rand = [] := by
    rcases selectRandomClip_cases db rand with ⟨-, h⟩ | ⟨row, i, -, hi, -⟩
    · exact h
    · rw [candidateRows_eq_nil db hpool] at hi
      simp at hi
  unfold getRandom getRandomClip attempt
  cases hs : fails .select <;>
    simp [hs, hsel, serverError]

/-- C3 on the store whose only clip is dry. -/
theorem getRandom_unavailable_witness :
    (∀ c ∈ dryStore.clips, c.is_dry = true) ∧
      (getRandom dryStore noFault (favour 0) 55 9 1).store = dryStore ∧
      (getRandom dryStore noFault (favour 0) 55 9 1).response
        = { status := 404, body := .error "No clips available" } :=
  ⟨by decide,
    (getRandom_unavailable dryStore noFault (favour 0) 55 9 1 (by decide)).1,
    ((getRandom_unavailable dryStore noFault (favour 0) 55 9 1 (by decide)).2.2.2 rfl).2⟩

/-! ## Clip selection: the effect of a successful call -/

theorem forall2_map_self {α : Type} (R : α → α → Prop) (f : α → α) (l : List α)
    (h : ∀ x ∈ l, R x (f x)) : List.Forall₂ R l (l.map f) := by
  rw [List.forall₂_map_right_iff, List.forall₂_same]
  exact h

/-- C4: a call of `getRandomClip` that returns the row of clip `c` raises the
stored `served_count` of `c` by exactly one, appends exactly one `clip_views`
row, for `c` and the calling user, and changes nothing else: the clips are
the same rows in the same order with every other column and every other
`served_count` kept, the earlier `clip_views` rows are kept, and so are the
other tables. -/
theorem getRandomClip_effect (db : Store) (fails : ClipStmt → Bool) (rand : Nat → Nat)
    (viewId : UUID) (now : Nat) (userId : UUID) (row : ClipRow)
    (h : (getRandomClip db fails rand viewId now userId).result = .ok (some row)) :
    row.clip ∈ db.clips ∧
      { row.clip with served_count := row.clip.served_count + 1 }
        ∈ (getRandomClip db fails rand viewId now userId).store.clips ∧
      List.Forall₂ (servedOnce row.clip.id) db.clips
        (getRandomClip db fails rand viewId now userId).store.clips ∧
      (getRandomClip db fails rand viewId now userId).store.clip_views
        = db.clip_views ++ [{ id := viewId, clip_id := row.clip.id, user_id := userId,
                              viewed_at := now, session_duration := none }] ∧
      (getRandomClip db fails rand viewId now userId).store.users = db.users ∧
      (getRandomClip db fails rand viewId now userId).store.videos = db.videos ∧
      (getRandomClip db fails rand viewId now userId).store.questions = db.questions := by
  obtain ⟨hsel, db1, hinc, hins⟩ := getRandomClip_returns db fails rand viewId now userId row h
  have hmem := ((mem_candidateRows db row).1 (selectRandomClip_sound db rand row [] hsel).2.1).1
  have h1 := incrementServed_inv db db1 _ hinc
  have h2 := insertClipView_inv db1 _ viewId now _ userId none hins
  rw [h2, h1]
  refine ⟨hmem, ?_, ?_, rfl, rfl, rfl, rfl⟩
  · exact List.mem_map.2 ⟨row.clip, hmem, by simp⟩
  · apply forall2_map_self
    intro c _
    unfold servedOnce
    by_cases hc : c.id = row.clip.id <;> simp [hc]

/-- C4 on the sample store: the call that serves clip 101 to user 1. -/
theorem getRandomClip_effect_witness :
    (getRandomClip sampleStore noFault (favour 1) 55 9 1).result
        = .ok (some ⟨⟨101, some 7, 1, 11, false, 0, 5⟩, "u", "t"⟩) ∧
      (getRandomClip sampleStore noFault (favour 1) 55 9 1).store.clips
        = [{ id := 100, video_id := some 7, start_time := 0, end_time := 10,
             is_dry := false, served_count := 0, created_at := 5 },
           { id := 101, video_id := some 7, start_time := 1, end_time := 11,
             is_dry := false, served_count := 1, created_at := 5 },
           { id := 102, video_id := some 7, start_time := 2, end_time := 12,
             is_dry := true, served_count := 0, created_at := 5 }] ∧
      (getRandomClip sampleStore noFault (favour 1) 55 9 1).store.clip_views
        = sampleStore.clip_views ++ [{ id := 55, clip_id := 101, user_id := 1, viewed_at := 9,
                                       session_duration := none }] :=
  ⟨by decide, by decide,
    (getRandomClip_effect sampleStore noFault (favour 1) 55 9 1
      ⟨⟨101, some 7, 1, 11, false, 0, 5⟩, "u", "t"⟩ (by decide)).2.2.2.1⟩

/-! ## Clip selection: increments, views and returned clips -/

theorem servedTotal_map_of_not_mem (id : UUID) (l : List Clip) (h : id ∉ l.map Clip.id) :
    l.map (fun c => if c.id = id then { c with served_count := c.served_count + 1 } else c) = l := by
  conv_rhs => rw [← List.map_id l]
  apply List.map_congr_left
  intro c hc
  have : c.id ≠ id := fun heq => h (heq ▸ List.mem_map_of_mem Clip.id hc)
  simp [this]

theorem sum_served_increment (id : UUID) (l : List Clip) (hnd : (l.map Clip.id).Nodup)
    (hmem : id ∈ l.map Clip.id) :
    ((l.map fun c => if c.id = id then { c with served_count := c.served_count + 1 } else c).map
        Clip.served_count).sum = (l.map Clip.served_count).sum + 1 := by
  induction l with
  | nil => simp at hmem
  | cons a t ih =>
    rw [List.map_cons, List.nodup_cons] at hnd
    by_cases ha : a.id = id
    · have hnot : id ∉ t.map Clip.id := ha ▸ hnd.1
      simp only [List.map_cons, ha, if_true, List.sum_cons]
      rw [servedTotal_map_of_not_mem id t hnot]
      omega
    · have ht : id ∈ t.map Clip.id := by
        rw [List.map_cons, List.mem_cons] at hmem
        rcases hmem with h | h
        · exact absurd h.symm ha
        · exact h
      simp only [List.map_cons, ha, if_false, List.sum_cons]
      rw [ih hnd.2 ht]
      omega

/-- Shape of every call of `getRandomClip`, by the statement at which it ended. -/
theorem getRandomClip_shapes (db : Store) (fails : ClipStmt → Bool) (rand : Nat → Nat)
    (viewId : UUID) (now : Nat) (userId : UUID) :
    (∃ e, getRandomClip db fails rand viewId now userId = ⟨db, .error e, [.select]⟩) ∨
    (getRandomClip db fails rand viewId now userId = ⟨db, .ok none, [.select]⟩) ∨
    (∃ e, getRandomClip db fails rand viewId now userId = ⟨db, .error e, [.select, .update]⟩) ∨
    (∃ row db1 e, selectRandomClip db rand = [row] ∧ incrementServed db row.clip.id = .ok db1 ∧
      getRandomClip db fails rand viewId now userId
        = ⟨db1, .error e, [.select, .update, .insertView]⟩) ∨
    (∃ row db1 db2, selectRandomClip db rand = [row] ∧ incrementServed db row.clip.id = .ok db1 ∧
      insertClipView db1 viewId now row.clip.id userId none = .ok db2 ∧
      getRandomClip db fails rand viewId now userId
        = ⟨db2, .ok (some row), [.select, .update, .insertView]⟩) := by
  unfold getRandomClip attempt
  cases hs : fails .select <;> simp only [hs, Bool.false_eq_true, if_false, if_true]
  · cases hsel : selectRandomClip db rand with
    | nil => right; left; rfl
    | cons first rest =>
      have hrest := (selectRandomClip_sound db rand first rest hsel).1
      subst hrest
      cases hu : fails .update <;> simp only [hu, Bool.false_eq_true, if_false, if_true]
      · cases hinc : incrementServed db first.clip.id with
        | error e => right; right; left; exact ⟨e, rfl⟩
        | ok db1 =>
          cases hi : fails .insertView <;> simp only [hi, Bool.false_eq_true, if_false, if_true]
          · cases hins : insertClipView db1 viewId now first.clip.id userId none with
            | error e => right; right; right; left; exact ⟨first, db1, e, rfl, hinc, rfl⟩
            | ok db2 => right; right; right; right; exact ⟨first, db1, db2, rfl, hinc, hins, rfl⟩
          · right; right; right; left; exact ⟨first, db1, _, rfl, hinc, rfl⟩
      · right; right; left; exact ⟨_, rfl⟩
  · left; exact ⟨_, rfl⟩

theorem incrementsPerformed_incrementServed (db db1 : Store) (hpk : db.clipKeysUnique)
    (c : Clip) (hc : c ∈ db.clips) (hinc : incrementServed db c.id = .ok db1) :
    incrementsPerformed db db1 = 1 ∧ db1.clip_views = db.clip_views := by
  rw [incrementServed_inv db db1 c.id hinc]
  unfold incrementsPerformed servedTotal
  simp only [and_true]
  rw [sum_served_increment c.id db.clips hpk (List.mem_map_of_mem Clip.id hc)]
  omega

/-- C5, counterexample: on the sample store, when the `INSERT INTO clip_views`
throws, the call has already raised one `served_count`; no `clip_views` row is
appended and no clip is returned, so the three numbers are not equal. -/
theorem getRandomClip_increment_without_view :
    incrementsPerformed sampleStore
        (getRandomClip sampleStore viewInsertFails (favour 0) 55 9 1).store = 1 ∧
      viewsAppended sampleStore
        (getRandomClip sampleStore viewInsertFails (favour 0) 55 9 1).store = 0 ∧
      clipsReturned (getRandomClip sampleStore viewInsertFails (favour 0) 55 9 1).result = 0 ∧
      ¬ (incrementsPerformed sampleStore
            (getRandomClip sampleStore viewInsertFails (favour 0) 55 9 1).store
          = viewsAppended sampleStore
            (getRandomClip sampleStore viewInsertFails (favour 0) 55 9 1).store) := by
  decide

/-- C5, amended: on a store with unique clip identifiers, every call of
`getRandomClip` appends as many `clip_views` rows as it returns clips, 0 or 1.
The number of `served_count` increments equals that number too whenever the
call returns a clip, reports no clip, or throws at the query or at the
`UPDATE`.  When the `INSERT INTO clip_views` throws, the increment that the
`UPDATE` committed stays: one increment, no row appended, no clip returned. -/
theorem getRandomClip_accounting (db : Store) (hpk : db.clipKeysUnique)
    (fails : ClipStmt → Bool) (rand : Nat → Nat) (viewId : UUID) (now : Nat) (userId : UUID) :
    viewsAppended db (getRandomClip db fails rand viewId now userId).store
        = clipsReturned (getRandomClip db fails rand viewId now userId).result ∧
      (clipsReturned (getRandomClip db fails rand viewId now userId).result = 0 ∨
        clipsReturned (getRandomClip db fails rand viewId now userId).result = 1) ∧
      (viewInsertThrew (getRandomClip db fails rand viewId now userId) = false →
        incrementsPerformed db (getRandomClip db fails rand viewId now userId).store
          = clipsReturned (getRandomClip db fails rand viewId now userId).result) ∧
      (viewInsertThrew (getRandomClip db fails rand viewId now userId) = true →
        incrementsPerformed db (getRandomClip db fails rand viewId now userId).store = 1 ∧
          viewsAppended db (getRandomClip db fails rand viewId now userId).store = 0 ∧
          clipsReturned (getRandomClip db fails rand viewId now userId).result = 0) := by
  rcases getRandomClip_shapes db fails rand viewId now userId with
    ⟨e, h⟩ | h | ⟨e, h⟩ | ⟨row, db1, e, hsel, hinc, h⟩ | ⟨row, db1, db2, hsel, hinc, hins, h⟩
  · rw [h]; simp [viewsAppended, clipsReturned, incrementsPerformed, viewInsertThrew]
  · rw [h]; simp [viewsAppended, clipsReturned, incrementsPerformed, viewInsertThrew]
  · rw [h]; simp [viewsAppended, clipsReturned, incrementsPerformed, viewInsertThrew]
  · have hmem := ((mem_candidateRows db row).1 (selectRandomClip_sound db rand row [] hsel).2.1).1
    obtain ⟨h1, h2⟩ := incrementsPerformed_incrementServed db db1 hpk row.clip hmem hinc
    rw [h]
    simp [viewsAppended, clipsReturned, viewInsertThrew, h1, h2]
  · have hmem := ((mem_candidateRows db row).1 (selectRandomClip_sound db rand row [] hsel).2.1).1
    obtain ⟨h1, h2⟩ := incrementsPerformed_incrementServed db db1 hpk row.clip hmem hinc
    have h3 := insertClipView_inv db1 db2 viewId now row.clip.id userId none hins
    have h4 : incrementsPerformed db db2 = 1 := by
      rw [← h1, h3]; rfl
    have h5 : viewsAppended db db2 = 1 := by
      rw [h3]; unfold viewsAppended; simp [h2]
    rw [h]
    simp [clipsReturned, viewInsertThrew, h4, h5]

/-- C5, amended, on the sample store: a call without failure and a call whose
`INSERT INTO clip_views` throws. -/
theorem getRandomClip_accounting_witness :
    sampleStore.clipKeysUnique ∧
      incrementsPerformed sampleStore (getRandomClip sampleStore noFault (favour 0) 55 9 1).store
        = clipsReturned (getRandomClip sampleStore noFault (favour 0) 55 9 1).result ∧
      viewsAppended sampleStore (getRandomClip sampleStore viewInsertFails (favour 0) 55 9 1).store
        = clipsReturned (getRandomClip sampleStore viewInsertFails (favour 0) 55 9 1).result :=
  ⟨by decide,
    (getRandomClip_accounting sampleStore (by decide) noFault (favour 0) 55 9 1).2.2.1
      (by decide),
    (getRandomClip_accounting sampleStore (by decide) viewInsertFails (favour 0) 55 9 1).1⟩

/-! ## Clip selection: repeated selection from a single-clip pool -/

theorem pool_incrementServed (db : Store) (id : UUID) :
    ({ db with clips := db.clips.map fun c =>
        if c.id = id then { c with served_count := c.served_count + 1 } else c } : Store).pool
      = db.pool.map fun c =>
        if c.id = id then { c with served_count := c.served_count + 1 } else c := by
  unfold Store.pool
  simp only [List.filter_map]
  congr 1
  apply List.filter_congr
  intro c _
  by_cases h : c.id = id <;> simp [h]

/-- One successful call on a pool with the single clip `c` returns `c`, leaves
the pool with `c` served once more, and appends one view of `c`. -/
theorem getRandomClip_single_step (db : Store) (c : Clip) (hpool : db.pool = [c])
    (fails : ClipStmt → Bool) (rand : Nat → Nat) (viewId : UUID) (now : Nat) (userId : UUID)
    (row : ClipRow)
    (h : (getRandomClip db fails rand viewId now userId).result = .ok (some row)) :
    row.clip = c ∧
      (getRandomClip db fails rand viewId now userId).store.pool
        = [{ c with served_count := c.served_count + 1 }] ∧
      (getRandomClip db fails rand viewId now userId).store.clip_views
        = db.clip_views ++ [{ id := viewId, clip_id := c.id, user_id := userId,
                              viewed_at := now, session_duration := none }] := by
  obtain ⟨hsel, db1, hinc, hins⟩ := getRandomClip_returns db fails rand viewId now userId row h
  have hrow := (mem_candidateRows db row).1 (selectRandomClip_sound db rand row [] hsel).2.1
  have hc : row.clip = c := by
    have : row.clip ∈ db.pool := by
      unfold Store.pool
      exact List.mem_filter.2 ⟨hrow.1, by simp [hrow.2.1]⟩
    rw [hpool] at this
    simpa using this
  have h1 := incrementServed_inv db db1 _ hinc
  have h2 := insertClipView_inv db1 _ viewId now _ userId none hins
  refine ⟨hc, ?_, ?_⟩
  · rw [h2]
    show db1.pool = _
    rw [h1, pool_incrementServed, hpool, hc]
    simp
  · rw [h2, h1, hc]

theorem serveAll_single_pool (calls : List ServeCall) :
    ∀ (db : Store) (c : Clip), db.pool = [c] →
      (∀ r ∈ (serveAll db calls).2, clipsReturned r = 1) →
        (∀ r ∈ (serveAll db calls).2, ∃ row, r = .ok (some row) ∧ row.clip.id = c.id) ∧
          (serveAll db calls).1.pool
            = [{ c with served_count := c.served_count + calls.length }] ∧
          ((serveAll db calls).1.viewsOf c.id).length
            = (db.viewsOf c.id).length + calls.length ∧
          (serveAll db calls).1.clip_views.length = db.clip_views.length + calls.length := by
  induction calls with
  | nil =>
    intro db c hpool _
    simp [serveAll, hpool]
  | cons call rest ih =>
    intro db c hpool hall
    simp only [serveAll, List.mem_cons, forall_eq_or_imp] at hall ⊢
    obtain ⟨hhead, htail⟩ := hall
    obtain ⟨row, hrow⟩ : ∃ row, (getRandomClip db call.fails call.rand call.viewId call.now
        call.userId).result = .ok (some row) := by
      generalize (getRandomClip db call.fails call.rand call.viewId call.now
        call.userId).result = r at hhead
      match r, hhead with
      | .ok (some row), _ => exact ⟨row, rfl⟩
    obtain ⟨hc, hp, hv⟩ := getRandomClip_single_step db c hpool _ _ _ _ _ row hrow
    obtain ⟨i1, i2, i3, i4⟩ := ih _ _ hp htail
    refine ⟨⟨⟨row, hrow, by rw [hc]⟩, i1⟩, ?_, ?_, ?_⟩
    · rw [i2]
      simp only [List.length_cons, Nat.cast_add, Nat.cast_one, List.cons.injEq, and_true,
        Clip.mk.injEq, true_and]
      omega
    · rw [i3]
      unfold Store.viewsOf
      rw [hv]
      simp only [List.filter_append, List.length_append, List.length_cons]
      simp
      omega
    · rw [i4, hv]
      simp
      omega

theorem map_id_incrementServed (id : UUID) (l : List Clip) :
    (l.map fun c => if c.id = id then { c with served_count := c.served_count + 1 } else c).map
      Clip.id = l.map Clip.id := by
  rw [List.map_map]
  apply List.map_congr_left
  intro c _
  by_cases h : c.id = id <;> simp [h]

/-- One call on a pool with the single clip `c` returns a clip when no
statement throws: the clip has a video, its count is below the largest
`INTEGER`, the user exists and the identifier of the view is fresh. -/
theorem getRandomClip_single_succeeds (db : Store) (c : Clip) (hpool : db.pool = [c])
    (hpk : db.clipKeysUnique) (hv : ∃ v ∈ db.videos, c.video_id = some v.id)
    (fails : ClipStmt → Bool) (rand : Nat → Nat) (viewId : UUID) (now : Nat) (userId : UUID)
    (hf : ∀ s, fails s = false) (hu : ∃ u ∈ db.users, u.id = userId)
    (hfresh : ∀ w ∈ db.clip_views, w.id ≠ viewId) (hlt : c.served_count < pgIntMax) :
    (∃ row, (getRandomClip db fails rand viewId now userId).result = .ok (some row)) ∧
      (getRandomClip db fails rand viewId now userId).store.clipKeysUnique ∧
      (getRandomClip db fails rand viewId now userId).store.videos = db.videos ∧
      (getRandomClip db fails rand viewId now userId).store.users = db.users := by
  have hc : c ∈ db.clips ∧ c.is_dry = false := by
    have : c ∈ db.pool := by rw [hpool]; exact List.mem_singleton_self c
    unfold Store.pool at this
    simpa using List.mem_filter.1 this
  obtain ⟨v, hvm, hcv⟩ := hv
  have hcand : (⟨c, v.url, v.title⟩ : ClipRow) ∈ candidateRows db :=
    (mem_candidateRows db _).2 ⟨hc.1, hc.2, v, hvm, hcv, rfl, rfl⟩
  rcases selectRandomClip_cases db rand with ⟨hnil, -⟩ | ⟨row, i, hsel, hi, -⟩
  · rw [hnil] at hcand; cases hcand
  · have hrow := (mem_candidateRows db row).1 (List.getElem?_mem hi)
    have hrc : row.clip = c := by
      have : row.clip ∈ db.pool := by
        unfold Store.pool
        exact List.mem_filter.2 ⟨hrow.1, by simp [hrow.2.1]⟩
      rw [hpool] at this
      simpa using this
    have hinc := incrementServed_ok db row.clip.id (fun c' hc' hid => by
      rw [hrc] at hid
      rw [clip_eq_of_id_eq db hpk c c' hc.1 hc' hid]; exact hlt)
    have hins := insertClipView_ok
      ({ db with clips := db.clips.map fun x =>
          if x.id = row.clip.id then { x with served_count := x.served_count + 1 } else x })
      viewId now row.clip.id userId none hfresh
      ⟨{ row.clip with served_count := row.clip.served_count + 1 },
        List.mem_map.2 ⟨row.clip, hrow.1, by simp⟩, rfl⟩ hu
    obtain ⟨hres, hstore⟩ :=
      getRandomClip_of_steps db _ _ fails rand viewId now userId row hf hsel hinc hins
    refine ⟨⟨row, hres⟩, ?_, ?_, ?_⟩
    · rw [hstore]
      unfold Store.clipKeysUnique
      simp only [map_id_incrementServed]
      exact hpk
    · rw [hstore]
    · rw [hstore]

theorem serveAll_single_succeeds (calls : List ServeCall) :
    ∀ (db : Store) (c : Clip), db.pool = [c] → db.clipKeysUnique →
      (∃ v ∈ db.videos, c.video_id = some v.id) →
      (∀ call ∈ calls, (∀ s, call.fails s = false) ∧ ∃ u ∈ db.users, u.id = call.userId) →
      (calls.map ServeCall.viewId).Nodup →
      (∀ call ∈ calls, ∀ w ∈ db.clip_views, w.id ≠ call.viewId) →
      c.served_count + calls.length ≤ pgIntMax →
        ∀ r ∈ (serveAll db calls).2, clipsReturned r = 1 := by
  induction calls with
  | nil =>
    intro db c _ _ _ _ _ _ _ r hr
    simp [serveAll] at hr
  | cons call rest ih =>
    intro db c hpool hpk hv henv hnd hfresh hle r hr
    simp only [List.length_cons, Nat.cast_add, Nat.cast_one] at hle
    have hcall := henv call (List.mem_cons_self _ _)
    obtain ⟨⟨row, hrow⟩, hpk1, hvid, husers⟩ := getRandomClip_single_succeeds db c hpool hpk hv
      call.fails call.rand call.viewId call.now call.userId hcall.1 hcall.2
      (hfresh call (List.mem_cons_self _ _)) (by omega)
    obtain ⟨-, hp, hviews⟩ := getRandomClip_single_step db c hpool _ _ _ _ _ row hrow
    simp only [serveAll, List.mem_cons] at hr
    rcases hr with rfl | hr
    · rw [hrow]; rfl
    · rw [List.map_cons, List.nodup_cons] at hnd
      refine ih _ _ hp hpk1 (by rw [hvid]; exact hv) ?_ hnd.2 ?_ (by simp only; omega) r hr
      · intro k hk
        rw [husers]
        exact henv k (List.mem_cons_of_mem _ hk)
      · intro k hk w hw
        rw [hviews, List.mem_append, List.mem_singleton] at hw
        rcases hw with hw | rfl
        · exact hfresh k (List.mem_cons_of_mem _ hk) w hw
        · intro heq
          have hkv : call.viewId = k.viewId := heq
          exact hnd.1 (hkv ▸ List.mem_map_of_mem ServeCall.viewId hk)

/-- C6: from a pool whose only clip that is not dry is `c`, with
`served_count = 0` and no `clip_views` row, any number `n` of consecutive
successful selections all return `c`; afterwards `served_count` of `c` is `n`
and exactly `n` `clip_views` rows reference `c`.  The selections are all
successful when no statement throws: `c` has a video, clip identifiers are
unique, the users exist, the view identifiers are fresh, and `n` does not
exceed the largest `INTEGER`. -/
theorem serveAll_single_clip (db : Store) (c : Clip) (calls : List ServeCall)
    (hpool : db.pool = [c]) (hzero : c.served_count = 0) (hviews : db.clip_views = []) :
    ((∀ r ∈ (serveAll db calls).2, clipsReturned r = 1) →
        (∀ r ∈ (serveAll db calls).2, ∃ row, r = .ok (some row) ∧ row.clip.id = c.id) ∧
          (serveAll db calls).1.pool = [{ c with served_count := calls.length }] ∧
          ((serveAll db calls).1.viewsOf c.id).length = calls.length ∧
          (serveAll db calls).1.clip_views.length = calls.length) ∧
      (db.clipKeysUnique → (∃ v ∈ db.videos, c.video_id = some v.id) →
        (∀ call ∈ calls, (∀ s, call.fails s = false) ∧ ∃ u ∈ db.users, u.id = call.userId) →
        (calls.map ServeCall.viewId).Nodup → (calls.length : Int) ≤ pgIntMax →
          ∀ r ∈ (serveAll db calls).2, clipsReturned r = 1) := by
  constructor
  · intro hall
    obtain ⟨h1, h2, h3, h4⟩ := serveAll_single_pool calls db c hpool hall
    refine ⟨h1, ?_, ?_, ?_⟩
    · rw [h2, hzero, zero_add]
    · rw [h3]; unfold Store.viewsOf; simp [hviews]
    · rw [h4]; simp [hviews]
  · intro hpk hv henv hnd hle
    refine serveAll_single_succeeds calls db c hpool hpk hv henv hnd ?_ (by rw [hzero]; omega)
    intro _ _ w hw
    rw [hviews] at hw
    cases hw

/-- C6 on the store whose pool is clip 100 alone, served three times. -/
theorem serveAll_single_clip_witness :
    singleStore.pool = [⟨100, some 7, 0, 10, false, 0, 5⟩] ∧
      (∀ r ∈ (serveAll singleStore threeCalls).2, clipsReturned r = 1) ∧
      (serveAll singleStore threeCalls).1.pool = [⟨100, some 7, 0, 10, false, 3, 5⟩] ∧
      ((serveAll singleStore threeCalls).1.viewsOf 100).length = 3 :=
  ⟨by decide, by decide,
    ((serveAll_single_clip singleStore ⟨100, some 7, 0, 10, false, 0, 5⟩ threeCalls
      (by decide) rfl rfl).1 (by decide)).2.1,
    ((serveAll_single_clip singleStore ⟨100, some 7, 0, 10, false, 0, 5⟩ threeCalls
      (by decide) rfl rfl).1 (by decide)).2.2.1⟩

/-! ## Video creation: validation -/

theorem generateClips_short (video_id : UUID) (D : Int) (h : D < 10) :
    generateClips video_id D = [] := by
  rw [generateClips_eq]
  have : (D - 9).toNat = 0 := by omega
  rw [this]
  rfl

/-- C7: for every integer duration `D < 10`, zero and negative values
included, video creation answers 400 before anything is sent to the database:
no statement is issued, so the transaction is never begun, and the store is
unchanged; the generation loop itself yields no clip for such a duration. -/
theorem createVideo_rejects_short (db : Store) (fails : VideoStmt → Bool) (vid : UUID)
    (cids : Nat → UUID) (now : Nat) (title url : Option String) (D : Int) (h : D < 10) :
    (createVideo db fails vid cids now ⟨title, url, some D⟩).response.status = 400 ∧
      (createVideo db fails vid cids now ⟨title, url, some D⟩).issued = [] ∧
      (createVideo db fails vid cids now ⟨title, url, some D⟩).store = db ∧
      generateClips vid D = [] := by
  refine ⟨?_, ?_, ?_, generateClips_short vid D h⟩ <;>
  · unfold createVideo
    split
    · rfl
    · simp only [Option.getD_some, if_pos h]
      try rfl

/-- C7 at `D = 9`, `D = 0` and `D = -3`. -/
theorem createVideo_rejects_short_witness :
    (9 : Int) < 10 ∧
      (createVideo sampleStore noFault 8 sampleClipIds 6 ⟨some "t", some "u", some 9⟩).response
        = badRequest "Video must be at least 10 seconds long" ∧
      (createVideo sampleStore noFault 8 sampleClipIds 6 ⟨some "t", some "u", some 0⟩).response.status
        = 400 ∧
      (createVideo sampleStore noFault 8 sampleClipIds 6 ⟨some "t", some "u", some (-3)⟩).store
        = sampleStore :=
  ⟨by decide, by decide,
    (createVideo_rejects_short sampleStore noFault 8 sampleClipIds 6 (some "t") (some "u") 0
      (by decide)).1,
    (createVideo_rejects_short sampleStore noFault 8 sampleClipIds 6 (some "t") (some "u") (-3)
      (by decide)).2.2.1⟩

/-! ## Video creation: the transaction -/

theorem insertVideo_inv (db db1 : Store) (id : UUID) (now : Nat) (title url : String)
    (D : Int) (video : Video) (h : insertVideo db id now title url D = .ok (db1, video)) :
    video = { id := id, title := title, url := url, duration_seconds := D,
              total_clips_generated := 0, uploaded_at := now } ∧
      db1 = { db with videos := db.videos ++ [video] } ∧
      (∀ v ∈ db.videos, v.id ≠ id) := by
  unfold insertVideo at h
  split at h
  · cases h
  · rename_i hpk
    split at h
    · cases h
    · split at h
      · cases h
      · simp only [Except.ok.injEq, Prod.mk.injEq] at h
        obtain ⟨h1, h2⟩ := h
        subst h2
        refine ⟨rfl, h1.symm, ?_⟩
        simpa using hpk

theorem insertClips_inv (db db2 : Store) (ids : Nat → UUID) (now : Nat)
    (clips : List ClipParams) (h : insertClips db ids now clips = .ok db2) :
    db2 = { db with clips := db.clips ++ clipRows ids now clips } := by
  unfold insertClips at h
  simp only at h
  split at h
  · cases h
  · split at h
    · cases h
    · split at h
      · cases h
      · cases h; rfl

/-- For a duration of at least 10 the inner block either throws, after
`BEGIN` was sent, or runs its five statements and yields the store to commit. -/
theorem videoTransaction_cases (db : Store) (fails : VideoStmt → Bool) (vid : UUID)
    (cids : Nat → UUID) (now : Nat) (title url : String) (D : Int) (hD : 10 ≤ D) :
    (∃ e issued, videoTransaction db fails vid cids now title url D = (.error e, issued) ∧
      VideoStmt.begin ∈ issued ∧ (fails .begin = false → VideoStmt.insertVideo ∈ issued)) ∨
    (∃ db1 video db2, insertVideo db vid now title url D = .ok (db1, video) ∧
      insertClips db1 cids now (generateClips video.id D) = .ok db2 ∧
      fails .begin = false ∧ fails .insertVideo = false ∧ fails .insertClips = false ∧
      fails .updateVideo = false ∧ fails .commit = false ∧
      videoTransaction db fails vid cids now title url D
        = (.ok (updateClipCount db2 (generateClips video.id D).length video.id,
                createdResponse video (generateClips video.id D)),
           [.begin, .insertVideo, .insertClips, .updateVideo, .commit])) := by
  unfold videoTransaction attempt commitVideo
  cases hb : fails .begin <;> simp only [Bool.false_eq_true, if_false, if_true]
  · cases hiv : fails .insertVideo <;> simp only [Bool.false_eq_true, if_false, if_true]
    · cases hins : insertVideo db vid now title url D with
      | error e => left; exact ⟨e, _, rfl, by simp, by simp⟩
      | ok pair =>
        obtain ⟨db1, video⟩ := pair
        have hlen : (generateClips video.id D).length > 0 := by
          rw [generateClips_length]; omega
        simp only [hlen, if_true]
        cases hic : fails .insertClips <;> simp only [Bool.false_eq_true, if_false, if_true]
        · cases hcl : insertClips db1 cids now (generateClips video.id D) with
          | error e => left; exact ⟨e, _, rfl, by simp, by simp⟩
          | ok db2 =>
            cases huv : fails .updateVideo <;> simp only [Bool.false_eq_true, if_false, if_true]
            · cases hc : fails .commit <;> simp only [Bool.false_eq_true, if_false, if_true]
              · right
                exact ⟨db1, video, db2, rfl, hcl, trivial, trivial, trivial, trivial, trivial, rfl⟩
              · left; exact ⟨_, _, rfl, by simp, by simp⟩
            · left; exact ⟨_, _, rfl, by simp, by simp⟩
        · left; exact ⟨_, _, rfl, by simp, by simp⟩
    · left; exact ⟨_, _, rfl, by simp, by simp⟩
  · left; exact ⟨_, _, rfl, by simp, by simp⟩

theorem createVideo_valid (db : Store) (fails : VideoStmt → Bool) (vid : UUID)
    (cids : Nat → UUID) (now : Nat) (title url : String) (D : Int)
    (ht : title ≠ "") (hu : url ≠ "") (hmin : 10 ≤ D) (hmax : D ≤ 1020) :
    createVideo db fails vid cids now ⟨some title, some url, some D⟩ =
      if fails .connect then
        ⟨db, serverError "Failed to create video and clips", [.connect]⟩
      else
        match videoTransaction db fails vid cids now title url D with
        | (.ok (db', response), issued) => ⟨db', response, .connect :: issued⟩
        | (.error _, issued) =>
          ⟨db, serverError "Failed to create video and clips", .connect :: issued ++ [.rollback]⟩ := by
  have h0 : D ≠ 0 := by omega
  unfold createVideo
  simp only [truthyString, truthyNumber, bne_iff_ne, ne_eq, ht, hu, h0, not_false_eq_true,
    decide_True, Bool.not_true, Bool.or_self, Bool.false_eq_true, if_false, Option.getD_some,
    not_lt.2 hmin, not_lt.2 hmax]
  rw [if_neg (by simp [ht, hu, h0])]

theorem map_setCount_of_fresh (vid : UUID) (count : Int) (l : List Video)
    (h : ∀ v ∈ l, v.id ≠ vid) :
    l.map (fun v => if v.id = vid then { v with total_clips_generated := count } else v) = l := by
  conv_rhs => rw [← List.map_id l]
  apply List.map_congr_left
  intro v hv
  simp [h v hv]

/-- Outcomes of video creation for a request that passes validation: either
nothing is committed and the answer is 500, or no statement threw and the
video with its counter and all its clips are committed, with answer 201. -/
theorem createVideo_outcomes (db : Store) (fails : VideoStmt → Bool) (vid : UUID)
    (cids : Nat → UUID) (now : Nat) (title url : String) (D : Int)
    (ht : title ≠ "") (hu : url ≠ "") (hmin : 10 ≤ D) (hmax : D ≤ 1020) :
    ((createVideo db fails vid cids now ⟨some title, some url, some D⟩).store = db ∧
      (createVideo db fails vid cids now ⟨some title, some url, some D⟩).response
        = serverError "Failed to create video and clips" ∧
      VideoStmt.connect ∈ (createVideo db fails vid cids now ⟨some title, some url, some D⟩).issued ∧
      (fails .connect = false →
        VideoStmt.rollback ∈
            (createVideo db fails vid cids now ⟨some title, some url, some D⟩).issued ∧
        (fails .begin = false → VideoStmt.insertVideo ∈
            (createVideo db fails vid cids now ⟨some title, some url, some D⟩).issued))) ∨
    ((∀ s, s ≠ VideoStmt.rollback → fails s = false) ∧ (∀ v ∈ db.videos, v.id ≠ vid) ∧
      (createVideo db fails vid cids now ⟨some title, some url, some D⟩).store
        = { db with
            videos := db.videos ++
              [{ id := vid, title := title, url := url, duration_seconds := D,
                 total_clips_generated := (generateClips vid D).length, uploaded_at := now }]
            clips := db.clips ++ clipRows cids now (generateClips vid D) } ∧
      (createVideo db fails vid cids now ⟨some title, some url, some D⟩).response
        = createdResponse
            { id := vid, title := title, url := url, duration_seconds := D,
              total_clips_generated := 0, uploaded_at := now } (generateClips vid D) ∧
      (createVideo db fails vid cids now ⟨some title, some url, some D⟩).issued
        = [.connect, .begin, .insertVideo, .insertClips, .updateVideo, .commit]) := by
  rw [createVideo_valid db fails vid cids now title url D ht hu hmin hmax]
  cases hc : fails .connect <;> simp only [Bool.false_eq_true, if_false, if_true]
  · rcases videoTransaction_cases db fails vid cids now title url D hmin with
      ⟨e, issued, htx, hb, hiv⟩ | ⟨db1, video, db2, hins, hcl, f1, f2, f3, f4, f5, htx⟩
    · left
      rw [htx]
      refine ⟨rfl, rfl, by simp, fun _ => ⟨by simp, fun h => ?_⟩⟩
      simp [hiv h]
    · right
      rw [htx]
      obtain ⟨hv, hdb1, hfresh⟩ := insertVideo_inv db db1 vid now title url D video hins
      have hdb2 := insertClips_inv db1 db2 cids now _ hcl
      refine ⟨?_, hfresh, ?_, ?_, rfl⟩
      · intro s hs
        cases s <;> first | assumption | exact absurd rfl hs
      · simp only
        rw [hdb2, hdb1, hv]
        simp only [updateClipCount, List.map_append, List.map_cons, List.map_nil, if_true,
          map_setCount_of_fresh vid _ db.videos hfresh]
      · simp only
        rw [hv]
  · left
    exact ⟨trivial, trivial, by simp, fun h => by cases h⟩

/-- A request either passes validation or is answered 400 with nothing sent
to the database and the store unchanged. -/
theorem createVideo_validation (db : Store) (fails : VideoStmt → Bool) (vid : UUID)
    (cids : Nat → UUID) (now : Nat) (body : VideoBody) :
    (∃ title url D, body = ⟨some title, some url, some D⟩ ∧ title ≠ "" ∧ url ≠ "" ∧
      10 ≤ D ∧ D ≤ 1020) ∨
    ((createVideo db fails vid cids now body).response.status = 400 ∧
      (createVideo db fails vid cids now body).store = db ∧
      (createVideo db fails vid cids now body).issued = []) := by
  obtain ⟨title, url, dur⟩ := body
  by_cases hv : (!truthyString title || !truthyString url || !truthyNumber dur) = true
  · right
    unfold createVideo
    simp only [hv, if_true, badRequest, and_self]
  · cases title with
    | none => simp [truthyString] at hv
    | some t =>
      cases url with
      | none => simp [truthyString] at hv
      | some u =>
        cases dur with
        | none => simp [truthyNumber] at hv
        | some D =>
          by_cases h1 : D < 10
          · right
            unfold createVideo
            simp only [hv, Option.getD_some, if_pos h1, badRequest, and_self]
            simp
          · by_cases h2 : D > 1020
            · right
              unfold createVideo
              simp only [hv, Option.getD_some, if_neg h1, if_pos h2, badRequest, and_self]
              simp
            · left
              simp only [truthyString, truthyNumber, bne_iff_ne, ne_eq, Bool.or_eq_true,
                Bool.not_eq_true', decide_eq_false_iff_not, not_or, Decidable.not_not] at hv
              exact ⟨t, u, D, rfl, by simpa using hv.1.1, by simpa using hv.1.2, by omega, by omega⟩

theorem createVideo_too_long (db : Store) (fails : VideoStmt → Bool) (vid : UUID)
    (cids : Nat → UUID) (now : Nat) (title url : String) (D : Int)
    (ht : title ≠ "") (hu : url ≠ "") (h : 1020 < D) :
    createVideo db fails vid cids now ⟨some title, some url, some D⟩
      = ⟨db, badRequest "Video cannot be longer than 17 minutes", []⟩ := by
  have h0 : D ≠ 0 := by omega
  have h10 : ¬ D < 10 := by omega
  unfold createVideo
  rw [if_neg (by simp [truthyString, truthyNumber, ht, hu, h0])]
  simp only [Option.getD_some, if_neg h10, gt_iff_lt, if_pos h]

/-- C8: every video row that video creation adds to the store has
`10 ≤ duration_seconds ≤ 1020`.  For a request with title and url present and
an integer duration `D`, the database is reached if and only if
`10 ≤ D ≤ 1020`, and then, unless connecting or `BEGIN` throws, the insert of
the video is sent; for `D > 1020` the answer is 400 with
`Video cannot be longer than 17 minutes`, nothing sent, store unchanged. -/
theorem createVideo_duration_bounds (db : Store) (fails : VideoStmt → Bool) (vid : UUID)
    (cids : Nat → UUID) (now : Nat) (title url : Option String) (D : Int) :
    (∀ v ∈ (createVideo db fails vid cids now ⟨title, url, some D⟩).store.videos,
        v ∈ db.videos ∨ (v.duration_seconds = D ∧ 10 ≤ D ∧ D ≤ 1020)) ∧
      (truthyString title = true → truthyString url = true →
        ((createVideo db fails vid cids now ⟨title, url, some D⟩).issued ≠ []
            ↔ 10 ≤ D ∧ D ≤ 1020) ∧
          (fails .connect = false → fails .begin = false →
            (VideoStmt.insertVideo ∈ (createVideo db fails vid cids now ⟨title, url, some D⟩).issued
              ↔ 10 ≤ D ∧ D ≤ 1020)) ∧
          (1020 < D →
            (createVideo db fails vid cids now ⟨title, url, some D⟩).response
                = badRequest "Video cannot be longer than 17 minutes" ∧
              (createVideo db fails vid cids now ⟨title, url, some D⟩).store = db ∧
              (createVideo db fails vid cids now ⟨title, url, some D⟩).issued = [])) := by
  rcases createVideo_validation db fails vid cids now ⟨title, url, some D⟩ with
    ⟨t, u, D', hbody, ht, hu, hmin, hmax⟩ | ⟨hstatus, hstore, hissued⟩
  · simp only [VideoBody.mk.injEq, Option.some.injEq] at hbody
    obtain ⟨rfl, rfl, rfl⟩ := hbody
    have hout := createVideo_outcomes db fails vid cids now t u D ht hu hmin hmax
    constructor
    · intro v hv
      rcases hout with ⟨hstore, -⟩ | ⟨-, -, hstore, -⟩
      · rw [hstore] at hv; exact Or.inl hv
      · rw [hstore] at hv
        simp only [List.mem_append, List.mem_singleton] at hv
        rcases hv with hv | rfl
        · exact Or.inl hv
        · exact Or.inr ⟨rfl, hmin, hmax⟩
    · intro _ _
      refine ⟨?_, ?_, fun h => absurd hmax (by omega)⟩
      · refine ⟨fun _ => ⟨hmin, hmax⟩, fun _ => ?_⟩
        rcases hout with ⟨-, -, hc, -⟩ | ⟨-, -, -, -, hi⟩
        · exact List.ne_nil_of_mem hc
        · rw [hi]; simp
      · intro hc hb
        refine ⟨fun _ => ⟨hmin, hmax⟩, fun _ => ?_⟩
        rcases hout with ⟨-, -, -, h⟩ | ⟨-, -, -, -, hi⟩
        · exact (h hc).2 hb
        · rw [hi]; simp
  · constructor
    · intro v hv
      rw [hstore] at hv
      exact Or.inl hv
    · intro ht hu
      have ht' : ∃ t, title = some t ∧ t ≠ "" := by
        cases title with
        | none => simp [truthyString] at ht
        | some t => exact ⟨t, rfl, by simpa [truthyString] using ht⟩
      have hu' : ∃ u, url = some u ∧ u ≠ "" := by
        cases url with
        | none => simp [truthyString] at hu
        | some u => exact ⟨u, rfl, by simpa [truthyString] using hu⟩
      obtain ⟨t, rfl, htne⟩ := ht'
      obtain ⟨u, rfl, hune⟩ := hu'
      have hrange : ¬ (10 ≤ D ∧ D ≤ 1020) := by
        rintro ⟨hmin, hmax⟩
        have hout := createVideo_outcomes db fails vid cids now t u D htne hune hmin hmax
        rcases hout with ⟨-, -, hc, -⟩ | ⟨-, -, -, -, hi⟩
        · rw [hissued] at hc; cases hc
        · rw [hissued] at hi; cases hi
      refine ⟨?_, ?_, fun h => ?_⟩
      · rw [hissued]
        exact ⟨fun h => absurd rfl h, fun h => absurd h hrange⟩
      · intro _ _
        rw [hissued]
        exact ⟨fun h => (by cases h), fun h => absurd h hrange⟩
      · rw [createVideo_too_long db fails vid cids now t u D htne hune h]
        exact ⟨rfl, rfl, rfl⟩

/-- C8 on the sample store: a 12-second video is inserted, a 1021-second one
is answered 400. -/
theorem createVideo_duration_bounds_witness :
    truthyString (some "t") = true ∧ truthyString (some "u") = true ∧
      (VideoStmt.insertVideo ∈
          (createVideo sampleStore noFault 8 sampleClipIds 6 ⟨some "t", some "u", some 12⟩).issued
        ↔ (10 : Int) ≤ 12 ∧ (12 : Int) ≤ 1020) ∧
      (createVideo sampleStore noFault 8 sampleClipIds 6 ⟨some "t", some "u", some 1021⟩).response
        = badRequest "Video cannot be longer than 17 minutes" :=
  ⟨by decide, by decide,
    ((createVideo_duration_bounds sampleStore noFault 8 sampleClipIds 6 (some "t") (some "u")
      12).2 (by decide) (by decide)).2.1 rfl rfl,
    (((createVideo_duration_bounds sampleStore noFault 8 sampleClipIds 6 (some "t") (some "u")
      1021).2 (by decide) (by decide)).2.2 (by decide)).1⟩

/-! ## Video creation: rollback and the clip counter -/

/-- C9: for a request that passes validation, when the insert of the video,
the bulk insert of the clips or the update of the counter throws (or
connecting, `BEGIN` or `COMMIT` does), the committed store is the store
before the request and the answer is 500, never 201; once connected,
`ROLLBACK` is sent.  More generally every outcome other than 201, whatever
made a statement throw, leaves the store as it was, and 201 is answered only
when no statement threw. -/
theorem createVideo_rollback (db : Store) (fails : VideoStmt → Bool) (vid : UUID)
    (cids : Nat → UUID) (now : Nat) (title url : String) (D : Int)
    (ht : title ≠ "") (hu : url ≠ "") (hmin : 10 ≤ D) (hmax : D ≤ 1020) :
    ((fails .connect = true ∨ fails .begin = true ∨ fails .insertVideo = true ∨
        fails .insertClips = true ∨ fails .updateVideo = true ∨ fails .commit = true) →
      (createVideo db fails vid cids now ⟨some title, some url, some D⟩).store = db ∧
        (createVideo db fails vid cids now ⟨some title, some url, some D⟩).response
          = serverError "Failed to create video and clips" ∧
        (fails .connect = false → VideoStmt.rollback ∈
          (createVideo db fails vid cids now ⟨some title, some url, some D⟩).issued)) ∧
      ((createVideo db fails vid cids now ⟨some title, some url, some D⟩).response.status ≠ 201 →
        (createVideo db fails vid cids now ⟨some title, some url, some D⟩).store = db ∧
          (createVideo db fails vid cids now ⟨some title, some url, some D⟩).response
            = serverError "Failed to create video and clips") ∧
      ((createVideo db fails vid cids now ⟨some title, some url, some D⟩).response.status = 201 →
        ∀ s, s ≠ VideoStmt.rollback → fails s = false) := by
  rcases createVideo_outcomes db fails vid cids now title url D ht hu hmin hmax with
    ⟨hstore, hresp, -, hrb⟩ | ⟨hf, -, -, hresp, -⟩
  · refine ⟨fun _ => ⟨hstore, hresp, fun hc => (hrb hc).1⟩, fun _ => ⟨hstore, hresp⟩, fun h => ?_⟩
    rw [hresp] at h
    cases h
  · refine ⟨fun h => ?_, fun h => ?_, fun _ => hf⟩
    · exfalso
      rcases h with h | h | h | h | h | h <;>
        · rw [hf _ (by decide)] at h
          cases h
    · rw [hresp] at h
      exact absurd rfl h

/-- C9 on the sample store: the bulk insert of the clips throws. -/
theorem createVideo_rollback_witness :
    ("t" ≠ "" ∧ "u" ≠ "" ∧ (10 : Int) ≤ 12 ∧ (12 : Int) ≤ 1020 ∧
        onlyFails .insertClips .insertClips = true) ∧
      (createVideo sampleStore (onlyFails .insertClips) 8 sampleClipIds 6
        ⟨some "t", some "u", some 12⟩).store = sampleStore ∧
      (createVideo sampleStore (onlyFails .insertClips) 8 sampleClipIds 6
        ⟨some "t", some "u", some 12⟩).response = serverError "Failed to create video and clips" :=
  ⟨by decide,
    ((createVideo_rollback sampleStore (onlyFails .insertClips) 8 sampleClipIds 6 "t" "u" 12
      (by decide) (by decide) (by decide) (by decide)).1 (by decide)).1,
    ((createVideo_rollback sampleStore (onlyFails .insertClips) 8 sampleClipIds 6 "t" "u" 12
      (by decide) (by decide) (by decide) (by decide)).1 (by decide)).2.1⟩

theorem clipRows_length (ids : Nat → UUID) (now : Nat) (clips : List ClipParams) :
    (clipRows ids now clips).length = clips.length := by
  simp [clipRows]

theorem clipRows_video (ids : Nat → UUID) (now : Nat) (vid : UUID) (D : Int) :
    ∀ r ∈ clipRows ids now (generateClips vid D), r.video_id = some vid := by
  intro r hr
  unfold clipRows at hr
  simp only [List.mem_map, Prod.exists] at hr
  obtain ⟨i, p, hp, rfl⟩ := hr
  have hmem : p ∈ generateClips vid D :=
    List.getElem?_mem (List.mk_mem_enum_iff_getElem?.1 hp)
  rw [generateClips_eq] at hmem
  simp only [List.mem_map, List.mem_range] at hmem
  obtain ⟨_, _, rfl⟩ := hmem
  rfl

/-- C10: when video creation answers 201 for duration `D`, then
`10 ≤ D ≤ 1020`, the store gained one video row and the clip rows of that
video, and the stored `total_clips_generated`, the number of clip rows
inserted, and the `video.total_clips_generated` and `clipsGenerated` of the
answer are all `D - 9`; the video of the answer is the stored row.  On a store
whose clips all belong to stored videos, `D - 9` is also the number of all
clip rows of that video. -/
theorem createVideo_counter (db : Store) (fails : VideoStmt → Bool) (vid : UUID)
    (cids : Nat → UUID) (now : Nat) (title url : Option String) (D : Int)
    (h : (createVideo db fails vid cids now ⟨title, url, some D⟩).response.status = 201) :
    10 ≤ D ∧ D ≤ 1020 ∧
      ∃ (video : Video) (rows : List Clip) (n : Nat),
        (createVideo db fails vid cids now ⟨title, url, some D⟩).store.videos
            = db.videos ++ [video] ∧
          (createVideo db fails vid cids now ⟨title, url, some D⟩).store.clips
            = db.clips ++ rows ∧
          (createVideo db fails vid cids now ⟨title, url, some D⟩).response.body
            = .created video n ∧
          video.id = vid ∧ video.duration_seconds = D ∧
          video.total_clips_generated = D - 9 ∧ (n : Int) = D - 9 ∧
          (rows.length : Int) = D - 9 ∧ (∀ r ∈ rows, r.video_id = some vid) ∧
          (db.clipsHaveVideos →
            (((createVideo db fails vid cids now ⟨title, url, some D⟩).store.clips.filter
              fun c => c.video_id == some vid).length : Int) = D - 9) := by
  rcases createVideo_validation db fails vid cids now ⟨title, url, some D⟩ with
    ⟨t, u, D', hbody, ht, hu, hmin, hmax⟩ | ⟨hstatus, -, -⟩
  · simp only [VideoBody.mk.injEq, Option.some.injEq] at hbody
    obtain ⟨rfl, rfl, rfl⟩ := hbody
    rcases createVideo_outcomes db fails vid cids now t u D ht hu hmin hmax with
      ⟨-, hresp, -⟩ | ⟨-, hfresh, hstore, hresp, -⟩
    · rw [hresp] at h; cases h
    · have hlen : ((generateClips vid D).length : Int) = D - 9 := by
        rw [generateClips_length]; omega
      have hrows : ((clipRows cids now (generateClips vid D)).length : Int) = D - 9 := by
        rw [clipRows_length]; exact hlen
      refine ⟨hmin, hmax, _, clipRows cids now (generateClips vid D),
        (generateClips vid D).length, by rw [hstore], by rw [hstore], by rw [hresp]; rfl,
        rfl, rfl, hlen, hlen, hrows, clipRows_video cids now vid D, ?_⟩
      intro hfk
      rw [hstore]
      simp only [List.filter_append, List.length_append]
      have hold : db.clips.filter (fun c => c.video_id == some vid) = [] := by
        rw [List.filter_eq_nil_iff]
        intro c hc
        obtain ⟨v, hv, hcv⟩ := hfk c hc
        have := hfresh v hv
        simp only [hcv, beq_iff_eq, Option.some.injEq]
        exact this
      have hnew : (clipRows cids now (generateClips vid D)).filter
          (fun c => c.video_id == some vid) = clipRows cids now (generateClips vid D) := by
        rw [List.filter_eq_self]
        intro r hr
        simp [clipRows_video cids now vid D r hr]
      rw [hold, hnew]
      simp only [List.length_nil, Nat.cast_zero, zero_add]
      exact hrows
  · rw [hstatus] at h; cases h

theorem createVideo_sample_created :
    (createVideo sampleStore noFault 8 sampleClipIds 6 ⟨some "t", some "u", some 12⟩).response.status
      = 201 := by
  rw [createVideo_valid _ _ _ _ _ _ _ _ (by decide) (by decide) (by decide) (by decide)]
  unfold videoTransaction
  simp only [generateClips_eq]
  decide

/-- C10 on the sample store: a 12-second video gets three clips and the
counter 3. -/
theorem createVideo_counter_witness :
    (createVideo sampleStore noFault 8 sampleClipIds 6 ⟨some "t", some "u", some 12⟩).response.status
        = 201 ∧
      ∃ (video : Video) (rows : List Clip) (n : Nat),
        (createVideo sampleStore noFault 8 sampleClipIds 6
            ⟨some "t", some "u", some 12⟩).store.videos = sampleStore.videos ++ [video] ∧
          (createVideo sampleStore noFault 8 sampleClipIds 6
            ⟨some "t", some "u", some 12⟩).store.clips = sampleStore.clips ++ rows ∧
          (createVideo sampleStore noFault 8 sampleClipIds 6
            ⟨some "t", some "u", some 12⟩).response.body = .created video n ∧
          video.total_clips_generated = 12 - 9 ∧ (n : Int) = 12 - 9 ∧
          (rows.length : Int) = 12 - 9 :=
  ⟨createVideo_sample_created,
    let ⟨video, rows, n, h1, h2, h3, _, _, h4, h5, h6, _⟩ :=
      (createVideo_counter sampleStore noFault 8 sampleClipIds 6 (some "t") (some "u") 12
        createVideo_sample_created).2.2
    ⟨video, rows, n, h1, h2, h3, h4, h5, h6⟩⟩

/-! ## Marking a clip dry -/

theorem selectClipById_eq_nil (db : Store) (id : UUID) :
    selectClipById db id = [] ↔ ∀ c ∈ db.clips, c.id ≠ id := by
  unfold selectClipById
  simp [List.filter_eq_nil_iff]

/-- A mark-dry request answered 200 found the clip and ran its update and its
insert. -/
theorem markDry_ok_inv (db : Store) (fails : DryStmt → Bool) (viewId : UUID) (now : Nat)
    (id userId : UUID) (h : (markDry db fails viewId now id userId).response.status = 200) :
    (∃ c ∈ db.clips, c.id = id) ∧
      insertClipView (setDry db id) viewId now id userId (some 0)
        = .ok (markDry db fails viewId now id userId).store := by
  unfold markDry attempt at h ⊢
  cases hs : fails .select <;> simp only [hs, Bool.false_eq_true, if_false, if_true] at h ⊢
  · cases hsel : selectClipById db id with
    | nil => simp only [hsel] at h; cases h
    | cons first rest =>
      simp only [hsel] at h ⊢
      have hex : ∃ c ∈ db.clips, c.id = id := by
        by_contra hne
        have := (selectClipById_eq_nil db id).2 (by simpa using hne)
        rw [hsel] at this
        cases this
      cases hu : fails .update <;> simp only [hu, Bool.false_eq_true, if_false, if_true] at h ⊢
      · cases hi : fails .insertView <;>
          simp only [hi, Bool.false_eq_true, if_false, if_true] at h ⊢
        · cases hins : insertClipView (setDry db id) viewId now id userId (some 0) with
          | error e => simp only [hins] at h; cases h
          | ok db2 => exact ⟨hex, rfl⟩
        · cases h
      · cases h
  · cases h

/-- C11: a mark-dry request answered 200 leaves the clips as the same rows in
the same order with `is_dry = true` on the clip of the request and every
other column, `served_count` included, and every other clip unchanged; it
appends exactly one `clip_views` row, for that clip and the calling user with
`session_duration = 0`, and keeps the other tables.  For an existing clip the
request is answered 200 when no statement throws: the user exists and the
identifier of the view is fresh. -/
theorem markDry_effect (db : Store) (fails : DryStmt → Bool) (viewId : UUID) (now : Nat)
    (id userId : UUID) :
    ((markDry db fails viewId now id userId).response.status = 200 →
        List.Forall₂ (markedDry id) db.clips (markDry db fails viewId now id userId).store.clips ∧
          (∀ c ∈ (markDry db fails viewId now id userId).store.clips, c.id = id →
            c.is_dry = true) ∧
          (markDry db fails viewId now id userId).store.clip_views
            = db.clip_views ++ [{ id := viewId, clip_id := id, user_id := userId,
                                  viewed_at := now, session_duration := some 0 }] ∧
          (markDry db fails viewId now id userId).store.users = db.users ∧
          (markDry db fails viewId now id userId).store.videos = db.videos ∧
          (markDry db fails viewId now id userId).store.questions = db.questions) ∧
      ((∃ c ∈ db.clips, c.id = id) → (∀ s, fails s = false) →
        (∃ u ∈ db.users, u.id = userId) → (∀ w ∈ db.clip_views, w.id ≠ viewId) →
          (markDry db fails viewId now id userId).response
            = { status := 200, body := .message "Clip marked as dry" }) := by
  constructor
  · intro h
    obtain ⟨-, hins⟩ := markDry_ok_inv db fails viewId now id userId h
    rw [insertClipView_inv _ _ viewId now id userId (some 0) hins]
    refine ⟨?_, ?_, rfl, rfl, rfl, rfl⟩
    · apply forall2_map_self
      intro c _
      unfold markedDry
      by_cases hc : c.id = id <;> simp [hc]
    · intro c hc hid
      simp only [setDry, List.mem_map] at hc
      obtain ⟨c0, -, rfl⟩ := hc
      by_cases h0 : c0.id = id
      · simp [h0]
      · simp only [h0, if_false] at hid
  · intro hex hf hu hfresh
    obtain ⟨c, hc, hid⟩ := hex
    have hsel : selectClipById db id ≠ [] := fun hnil =>
      (selectClipById_eq_nil db id).1 hnil c hc hid
    have hins := insertClipView_ok (setDry db id) viewId now id userId (some 0) hfresh
      ⟨{ c with is_dry := true }, by
        simp only [setDry, List.mem_map]
        exact ⟨c, hc, by simp [hid]⟩, hid⟩ hu
    unfold markDry attempt
    simp only [hf, Bool.false_eq_true, if_false]
    cases hrows : selectClipById db id with
    | nil => exact absurd hrows hsel
    | cons first rest => simp only [hins]

/-- C11 on the sample store: user 1 marks clip 101 dry. -/
theorem markDry_effect_witness :
    (∃ c ∈ sampleStore.clips, c.id = 101) ∧
      (markDry sampleStore noFault 55 9 101 1).response
        = { status := 200, body := .message "Clip marked as dry" } ∧
      (markDry sampleStore noFault 55 9 101 1).store.clip_views
        = sampleStore.clip_views ++ [{ id := 55, clip_id := 101, user_id := 1, viewed_at := 9,
                                       session_duration := some 0 }] :=
  ⟨by decide,
    (markDry_effect sampleStore noFault 55 9 101 1).2 (by decide) (fun _ => rfl) (by decide)
      (by decide),
    ((markDry_effect sampleStore noFault 55 9 101 1).1 (by decide)).2.2.1⟩

/-- C12: for a clip identifier that no clip of the store has, mark-dry
changes nothing in the store, sends the lookup only and never answers 200;
when the lookup does not throw it answers 404 with `Clip not found`. -/
theorem markDry_not_found (db : Store) (fails : DryStmt → Bool) (viewId : UUID) (now : Nat)
    (id userId : UUID) (h : ∀ c ∈ db.clips, c.id ≠ id) :
    (markDry db fails viewId now id userId).store = db ∧
      (markDry db fails viewId now id userId).response.status ≠ 200 ∧
      (markDry db fails viewId now id userId).issued = [.select] ∧
      (fails .select = false →
        (markDry db fails viewId now id userId).response
          = { status := 404, body := .error "Clip not found" }) := by
  have hsel := (selectClipById_eq_nil db id).2 h
  unfold markDry attempt
  cases hs : fails .select <;> simp [hs, hsel, serverError]

/-- C12 on the sample store, which has no clip 999. -/
theorem markDry_not_found_witness :
    (∀ c ∈ sampleStore.clips, c.id ≠ 999) ∧
      (markDry sampleStore noFault 55 9 999 1).store = sampleStore ∧
      (markDry sampleStore noFault 55 9 999 1).response
        = { status := 404, body := .error "Clip not found" } :=
  ⟨by decide,
    (markDry_not_found sampleStore noFault 55 9 999 1 (by decide)).1,
    (markDry_not_found sampleStore noFault 55 9 999 1 (by decide)).2.2.2 rfl⟩

/-! ## Question creation -/

theorem jsLength_empty : jsLength "" = 0 := rfl

theorem ne_empty_of_jsLength_pos (s : String) (h : 0 < jsLength s) : s ≠ "" := by
  rintro rfl
  rw [jsLength_empty] at h
  exact absurd h (by decide)

theorem jsLength_textOf (n : Nat) : jsLength (textOf n) = n := by
  unfold jsLength textOf
  induction n with
  | zero => rfl
  | succ n ih =>
    simp only [List.replicate_succ, List.map_cons, List.sum_cons] at ih ⊢
    rw [ih]
    have : ('a' : Char).val < 0x10000 := by decide
    simp only [this, if_true]
    omega

/-- Database part of question creation, reached when the body passes
validation. -/
theorem createQuestion_valid (db : Store) (fails : QuestionStmt → Bool) (questionId : UUID)
    (now : Nat) (userId clipId : UUID) (q a : String) (h : validLengths q a) :
    createQuestion db fails questionId now userId ⟨some clipId, some q, some a⟩ =
      match attempt (fails .selectClip) (.ok (selectClipById db clipId)) with
      | .error _ => ⟨db, serverError "Failed to create question", [.selectClip]⟩
      | .ok [] => ⟨db, { status := 404, body := .error "Clip not found" }, [.selectClip]⟩
      | .ok (_ :: _) =>
        match attempt (fails .insertQuestion)
            (insertQuestion db questionId now clipId userId q a) with
        | .error _ =>
          ⟨db, serverError "Failed to create question", [.selectClip, .insertQuestion]⟩
        | .ok (db1, row) =>
          match attempt (fails .updateClip) (.ok (clearDry db1 clipId)) with
          | .error _ =>
            ⟨db1, serverError "Failed to create question",
              [.selectClip, .insertQuestion, .updateClip]⟩
          | .ok db2 =>
            ⟨db2, { status := 201
                    body := .questionCreated row.id row.clip_id row.user_id row.question_text
                      row.answer_text row.created_at },
              [.selectClip, .insertQuestion, .updateClip]⟩ := by
  obtain ⟨h1, h2, h3, h4⟩ := h
  have hq := ne_empty_of_jsLength_pos q (by omega)
  have ha := ne_empty_of_jsLength_pos a (by omega)
  unfold createQuestion
  rw [if_neg (by simp [truthyString, hq, ha])]
  simp only [Option.getD_some]
  rw [if_neg (by simp; omega), if_neg (by simp; omega)]

/-- A body whose texts fail the length checks is answered 400 with nothing
sent to the database. -/
theorem createQuestion_invalid (db : Store) (fails : QuestionStmt → Bool) (questionId : UUID)
    (now : Nat) (userId clipId : UUID) (q a : String) (h : ¬ validLengths q a) :
    (createQuestion db fails questionId now userId ⟨some clipId, some q, some a⟩).response.status
        = 400 ∧
      (createQuestion db fails questionId now userId ⟨some clipId, some q, some a⟩).store = db ∧
      (createQuestion db fails questionId now userId ⟨some clipId, some q, some a⟩).issued = [] := by
  unfold validLengths at h
  unfold createQuestion
  split
  · exact ⟨rfl, rfl, rfl⟩
  · simp only [Option.getD_some]
    split
    · exact ⟨rfl, rfl, rfl⟩
    · rename_i hq
      split
      · exact ⟨rfl, rfl, rfl⟩
      · rename_i ha
        exfalso
        simp only [Bool.or_eq_true, decide_eq_true_eq, not_or, not_lt] at hq ha
        omega

theorem insertQuestion_inv (db db1 : Store) (id : UUID) (now : Nat) (clip_id user_id : UUID)
    (q a : String) (row : Question)
    (h : insertQuestion db id now clip_id user_id q a = .ok (db1, row)) :
    row = { id := id, clip_id := clip_id, user_id := user_id, question_text := q,
            answer_text := a, created_at := now, quality_score := 0 } ∧
      db1 = { db with questions := db.questions ++ [row] } := by
  unfold insertQuestion at h
  split at h
  · cases h
  · split at h
    · cases h
    · simp only [Except.ok.injEq, Prod.mk.injEq] at h
      obtain ⟨h1, h2⟩ := h
      subst h2
      exact ⟨rfl, h1.symm⟩

theorem insertQuestion_ok (db : Store) (id : UUID) (now : Nat) (clip_id user_id : UUID)
    (q a : String) (hfresh : ∀ x ∈ db.questions, x.id ≠ id)
    (hclip : ∃ c ∈ db.clips, c.id = clip_id) (huser : ∃ u ∈ db.users, u.id = user_id) :
    insertQuestion db id now clip_id user_id q a
      = .ok ({ db with questions := db.questions ++
                [{ id := id, clip_id := clip_id, user_id := user_id, question_text := q,
                   answer_text := a, created_at := now, quality_score := 0 }] },
             { id := id, clip_id := clip_id, user_id := user_id, question_text := q,
               answer_text := a, created_at := now, quality_score := 0 }) := by
  unfold insertQuestion
  rw [if_neg, if_neg]
  · simp only [Bool.or_eq_true, Bool.not_eq_true', List.any_eq_false, beq_iff_eq, not_or,
      not_forall, Classical.not_imp, Decidable.not_not]
    obtain ⟨c, hc, hcid⟩ := hclip
    obtain ⟨u, hu, huid⟩ := huser
    exact ⟨⟨c, hc, hcid⟩, ⟨u, hu, huid⟩⟩
  · simp only [List.any_eq_true, beq_iff_eq, not_exists, not_and]
    exact hfresh

/-- Outcomes of question creation for a body that passes validation, by the
statement at which the request ended. -/
theorem createQuestion_outcomes (db : Store) (fails : QuestionStmt → Bool) (questionId : UUID)
    (now : Nat) (userId clipId : UUID) (q a : String) (h : validLengths q a) :
    (fails .selectClip = true ∧
      createQuestion db fails questionId now userId ⟨some clipId, some q, some a⟩
        = ⟨db, serverError "Failed to create question", [.selectClip]⟩) ∨
    (fails .selectClip = false ∧ (∀ c ∈ db.clips, c.id ≠ clipId) ∧
      createQuestion db fails questionId now userId ⟨some clipId, some q, some a⟩
        = ⟨db, { status := 404, body := .error "Clip not found" }, [.selectClip]⟩) ∨
    ((∃ c ∈ db.clips, c.id = clipId) ∧
      (fails .insertQuestion = true ∨
        ∃ e, insertQuestion db questionId now clipId userId q a = .error e) ∧
      createQuestion db fails questionId now userId ⟨some clipId, some q, some a⟩
        = ⟨db, serverError "Failed to create question", [.selectClip, .insertQuestion]⟩) ∨
    ((∃ c ∈ db.clips, c.id = clipId) ∧
      ∃ db1 row, insertQuestion db questionId now clipId userId q a = .ok (db1, row) ∧
        fails .updateClip = true ∧
        createQuestion db fails questionId now userId ⟨some clipId, some q, some a⟩
          = ⟨db1, serverError "Failed to create question",
              [.selectClip, .insertQuestion, .updateClip]⟩) ∨
    ((∃ c ∈ db.clips, c.id = clipId) ∧
      ∃ db1 row, insertQuestion db questionId now clipId userId q a = .ok (db1, row) ∧
        (∀ s, fails s = false) ∧
        createQuestion db fails questionId now userId ⟨some clipId, some q, some a⟩
          = ⟨clearDry db1 clipId,
              { status := 201
                body := .questionCreated row.id row.clip_id row.user_id row.question_text
                  row.answer_text row.created_at },
              [.selectClip, .insertQuestion, .updateClip]⟩) := by
  rw [createQuestion_valid db fails questionId now userId clipId q a h]
  unfold attempt
  cases hs : fails .selectClip <;> simp only [Bool.false_eq_true, if_false, if_true]
  · cases hsel : selectClipById db clipId with
    | nil =>
      right; left
      exact ⟨trivial, (selectClipById_eq_nil db clipId).1 hsel, rfl⟩
    | cons first rest =>
      have hex : ∃ c ∈ db.clips, c.id = clipId := by
        by_contra hne
        have := (selectClipById_eq_nil db clipId).2 (by simpa using hne)
        rw [hsel] at this
        cases this
      cases hi : fails .insertQuestion <;> simp only [Bool.false_eq_true, if_false, if_true]
      · cases hins : insertQuestion db questionId now clipId userId q a with
        | error e =>
          right; right; left
          exact ⟨hex, Or.inr ⟨e, rfl⟩, rfl⟩
        | ok pair =>
          obtain ⟨db1, row⟩ := pair
          cases hu : fails .updateClip <;> simp only [Bool.false_eq_true, if_false, if_true]
          · right; right; right; right
            refine ⟨hex, db1, row, rfl, ?_, rfl⟩
            intro s
            cases s <;> assumption
          · right; right; right; left
            exact ⟨hex, db1, row, rfl, trivial, rfl⟩
      · right; right; left
        exact ⟨hex, Or.inl trivial, trivial⟩
  · left
    exact ⟨trivial, trivial⟩

/-- C15: for text strings `q` and `a`, question creation is answered 400 if
and only if the lengths are not `5 ≤ |q| ≤ 500` and `2 ≤ |a| ≤ 1000`; a 400
answer sends nothing to the database and leaves the store unchanged, so no
question row is inserted and no clip flag changes.  With lengths in range, an
existing clip and no statement throwing (the user exists, the identifier of
the question is fresh) the answer is 201 and the question row is inserted. -/
theorem createQuestion_length_validation (db : Store) (fails : QuestionStmt → Bool)
    (questionId : UUID) (now : Nat) (userId clipId : UUID) (q a : String) :
    ((createQuestion db fails questionId now userId ⟨some clipId, some q, some a⟩).response.status
          = 400 ↔
        ¬ (5 ≤ jsLength q ∧ jsLength q ≤ 500 ∧ 2 ≤ jsLength a ∧ jsLength a ≤ 1000)) ∧
      ((createQuestion db fails questionId now userId ⟨some clipId, some q, some a⟩).response.status
          = 400 →
        (createQuestion db fails questionId now userId ⟨some clipId, some q, some a⟩).store = db ∧
          (createQuestion db fails questionId now userId ⟨some clipId, some q, some a⟩).issued
            = []) ∧
      (5 ≤ jsLength q ∧ jsLength q ≤ 500 ∧ 2 ≤ jsLength a ∧ jsLength a ≤ 1000 →
        (∃ c ∈ db.clips, c.id = clipId) → (∀ s, fails s = false) →
        (∃ u ∈ db.users, u.id = userId) → (∀ x ∈ db.questions, x.id ≠ questionId) →
          (createQuestion db fails questionId now userId
              ⟨some clipId, some q, some a⟩).response.status = 201 ∧
            (createQuestion db fails questionId now userId
              ⟨some clipId, some q, some a⟩).store.questions
              = db.questions ++
                [{ id := questionId, clip_id := clipId, user_id := userId, question_text := q,
                   answer_text := a, created_at := now, quality_score := 0 }]) := by
  by_cases hv : validLengths q a
  · have hv' := hv
    unfold validLengths at hv'
    have hne : (createQuestion db fails questionId now userId
        ⟨some clipId, some q, some a⟩).response.status ≠ 400 := by
      rcases createQuestion_outcomes db fails questionId now userId clipId q a hv with
        ⟨-, h⟩ | ⟨-, -, h⟩ | ⟨-, -, h⟩ | ⟨-, _, _, -, -, h⟩ | ⟨-, _, _, -, -, h⟩ <;>
      · rw [h]; simp [serverError]
    refine ⟨⟨fun h => absurd h hne, fun h => absurd hv' h⟩, fun h => absurd h hne, ?_⟩
    intro _ hclip hf huser hfresh
    have hins := insertQuestion_ok db questionId now clipId userId q a hfresh hclip huser
    rcases createQuestion_outcomes db fails questionId now userId clipId q a hv with
      ⟨hs, -⟩ | ⟨-, hno, -⟩ | ⟨-, hfail, -⟩ | ⟨-, _, _, -, hu, -⟩ | ⟨-, db1, row, hok, -, h⟩
    · rw [hf] at hs; cases hs
    · obtain ⟨c, hc, hid⟩ := hclip
      exact absurd hid (hno c hc)
    · rcases hfail with hi | ⟨e, he⟩
      · rw [hf] at hi; cases hi
      · rw [hins] at he; cases he
    · rw [hf] at hu; cases hu
    · rw [hins] at hok
      simp only [Except.ok.injEq, Prod.mk.injEq] at hok
      obtain ⟨rfl, rfl⟩ := hok
      rw [h]
      exact ⟨rfl, rfl⟩
  · obtain ⟨h1, h2, h3⟩ := createQuestion_invalid db fails questionId now userId clipId q a hv
    unfold validLengths at hv
    exact ⟨⟨fun _ => hv, fun _ => h1⟩, fun _ => ⟨h2, h3⟩, fun h => absurd h hv⟩

/-- C15 on the sample store: texts of 5 and 2 and of 500 and 1000 code units
are accepted for clip 100; a question of 4 or 501 and an answer of 1 or 1001
are answered 400. -/
theorem createQuestion_length_validation_witness :
    ((createQuestion sampleStore noFault 300 9 1 ⟨some 100, some "What?", some "ok"⟩).response.status
        = 201) ∧
      ((createQuestion sampleStore noFault 300 9 1
        ⟨some 100, some (textOf 500), some (textOf 1000)⟩).response.status = 201) ∧
      ((createQuestion sampleStore noFault 300 9 1
        ⟨some 100, some (textOf 4), some "ok"⟩).response.status = 400) ∧
      ((createQuestion sampleStore noFault 300 9 1
        ⟨some 100, some (textOf 501), some "ok"⟩).response.status = 400) ∧
      ((createQuestion sampleStore noFault 300 9 1
        ⟨some 100, some "What?", some (textOf 1)⟩).response.status = 400) ∧
      ((createQuestion sampleStore noFault 300 9 1
        ⟨some 100, some "What?", some (textOf 1001)⟩).response.status = 400) :=
  ⟨((createQuestion_length_validation sampleStore noFault 300 9 1 100 "What?" "ok").2.2
      (by decide) (by decide) (fun _ => rfl) (by decide) (by decide)).1,
    ((createQuestion_length_validation sampleStore noFault 300 9 1 100 (textOf 500)
      (textOf 1000)).2.2 (by simp [jsLength_textOf]) (by decide) (fun _ => rfl) (by decide)
      (by decide)).1,
    (createQuestion_length_validation sampleStore noFault 300 9 1 100 (textOf 4) "ok").1.2
      (by simp [jsLength_textOf]),
    (createQuestion_length_validation sampleStore noFault 300 9 1 100 (textOf 501) "ok").1.2
      (by simp [jsLength_textOf]),
    (createQuestion_length_validation sampleStore noFault 300 9 1 100 "What?" (textOf 1)).1.2
      (by simp [jsLength_textOf]),
    (createQuestion_length_validation sampleStore noFault 300 9 1 100 "What?" (textOf 1001)).1.2
      (by simp [jsLength_textOf])⟩

/-- C20: for a clip identifier that no clip of the store has and texts of
valid length, question creation changes nothing in the store, so no question
row is inserted and no dry flag changes; it sends the lookup only and never
answers 201; when the lookup does not throw it answers 404 with
`Clip not found`. -/
theorem createQuestion_clip_not_found (db : Store) (fails : QuestionStmt → Bool)
    (questionId : UUID) (now : Nat) (userId clipId : UUID) (q a : String)
    (hlen : 5 ≤ jsLength q ∧ jsLength q ≤ 500 ∧ 2 ≤ jsLength a ∧ jsLength a ≤ 1000)
    (hmissing : ∀ c ∈ db.clips, c.id ≠ clipId) :
    (createQuestion db fails questionId now userId ⟨some clipId, some q, some a⟩).store = db ∧
      (createQuestion db fails questionId now userId ⟨some clipId, some q, some a⟩).response.status
        ≠ 201 ∧
      (createQuestion db fails questionId now userId ⟨some clipId, some q, some a⟩).issued
        = [.selectClip] ∧
      (fails .selectClip = false →
        (createQuestion db fails questionId now userId ⟨some clipId, some q, some a⟩).response
          = { status := 404, body := .error "Clip not found" }) := by
  have hex : ¬ ∃ c ∈ db.clips, c.id = clipId := by
    rintro ⟨c, hc, hid⟩
    exact hmissing c hc hid
  rcases createQuestion_outcomes db fails questionId now userId clipId q a hlen with
    ⟨hs, h⟩ | ⟨-, -, h⟩ | ⟨hc, -⟩ | ⟨hc, -⟩ | ⟨hc, -⟩
  · rw [h]
    refine ⟨rfl, by simp [serverError], rfl, fun hf => ?_⟩
    rw [hs] at hf; cases hf
  · rw [h]
    exact ⟨rfl, by simp, rfl, fun _ => rfl⟩
  · exact absurd hc hex
  · exact absurd hc hex
  · exact absurd hc hex

/-- C20 on the sample store, which has no clip 999. -/
theorem createQuestion_clip_not_found_witness :
    (5 ≤ jsLength "What?" ∧ jsLength "What?" ≤ 500 ∧ 2 ≤ jsLength "ok" ∧ jsLength "ok" ≤ 1000) ∧
      (∀ c ∈ sampleStore.clips, c.id ≠ 999) ∧
      (createQuestion sampleStore noFault 300 9 1 ⟨some 999, some "What?", some "ok"⟩).store
        = sampleStore ∧
      (createQuestion sampleStore noFault 300 9 1 ⟨some 999, some "What?", some "ok"⟩).response
        = { status := 404, body := .error "Clip not found" } :=
  ⟨by decide, by decide,
    (createQuestion_clip_not_found sampleStore noFault 300 9 1 999 "What?" "ok" (by decide)
      (by decide)).1,
    (createQuestion_clip_not_found sampleStore noFault 300 9 1 999 "What?" "ok" (by decide)
      (by decide)).2.2.2 rfl⟩

/-! ## Question update -/

theorem selectQuestionById_eq_nil (db : Store) (id : UUID) :
    selectQuestionById db id = [] ↔ ∀ q ∈ db.questions, q.id ≠ id := by
  unfold selectQuestionById
  simp [List.filter_eq_nil_iff]

theorem filter_id_of_not_mem (id : UUID) (l : List Question) (h : id ∉ l.map Question.id) :
    l.filter (fun q => q.id == id) = [] := by
  rw [List.filter_eq_nil_iff]
  intro q hq
  simp only [beq_iff_eq]
  exact fun heq => h (heq ▸ List.mem_map_of_mem Question.id hq)

theorem filter_id_singleton (l : List Question) (hnd : (l.map Question.id).Nodup)
    (q : Question) (hq : q ∈ l) : l.filter (fun x => x.id == q.id) = [q] := by
  induction l with
  | nil => cases hq
  | cons a t ih =>
    rw [List.map_cons, List.nodup_cons] at hnd
    rcases List.mem_cons.1 hq with rfl | hqt
    · rw [List.filter_cons_of_pos (by simp), filter_id_of_not_mem _ t hnd.1]
    · have hne : a.id ≠ q.id := fun heq => hnd.1 (heq ▸ List.mem_map_of_mem Question.id hqt)
      rw [List.filter_cons_of_neg (by simpa using hne)]
      exact ih hnd.2 hqt

/-- Database part of question update, reached when the patch passes the
check `No updates provided`. -/
theorem updateQuestion_valid (db : Store) (fails : PatchStmt → Bool) (id userId : UUID)
    (patch : QuestionPatch) (h : patch.hasUpdate = true) :
    updateQuestion db fails id userId patch =
      match attempt (fails .selectOwner) (.ok (selectQuestionById db id)) with
      | .error _ => ⟨db, serverError "Failed to update question", [.selectOwner]⟩
      | .ok [] => ⟨db, { status := 404, body := .error "Question not found" }, [.selectOwner]⟩
      | .ok (owner :: _) =>
        if owner.user_id ≠ userId then
          ⟨db, { status := 403, body := .error "You can only edit your own questions" },
            [.selectOwner]⟩
        else
          match attempt (fails .update) (.ok (updateQuestionRows db id patch)) with
          | .error _ => ⟨db, serverError "Failed to update question", [.selectOwner, .update]⟩
          | .ok (db1, rows) =>
            ⟨db1, { status := 200, body := .question rows.head? }, [.selectOwner, .update]⟩ := by
  unfold QuestionPatch.hasUpdate at h
  unfold updateQuestion
  rw [if_neg]
  simp only [Bool.and_eq_true, Bool.not_eq_true', not_and, Bool.not_eq_false]
  intro hq
  rw [hq] at h
  simpa using h

theorem updateQuestion_empty (db : Store) (fails : PatchStmt → Bool) (id userId : UUID)
    (patch : QuestionPatch) (h : patch.hasUpdate = false) :
    updateQuestion db fails id userId patch = ⟨db, badRequest "No updates provided", []⟩ := by
  unfold QuestionPatch.hasUpdate at h
  unfold updateQuestion
  rw [if_pos]
  simp only [Bool.or_eq_false_iff] at h
  simp [h.1, h.2]

/-- C17: for a question authored by another user and a patch with at least
one non-empty text, update changes nothing in the store, sends the ownership
lookup only and never answers 200; when the lookup does not throw it answers
403 with `You can only edit your own questions`. -/
theorem updateQuestion_forbidden (db : Store) (fails : PatchStmt → Bool) (id userId : UUID)
    (patch : QuestionPatch) (q : Question) (hpk : db.questionKeysUnique)
    (hq : q ∈ db.questions) (hid : q.id = id) (hother : q.user_id ≠ userId)
    (hpatch : patch.hasUpdate = true) :
    (updateQuestion db fails id userId patch).store = db ∧
      (updateQuestion db fails id userId patch).response.status ≠ 200 ∧
      (updateQuestion db fails id userId patch).issued = [.selectOwner] ∧
      (fails .selectOwner = false →
        (updateQuestion db fails id userId patch).response
          = { status := 403, body := .error "You can only edit your own questions" }) := by
  have hsel : selectQuestionById db id = [q] := by
    unfold selectQuestionById
    rw [← hid]
    exact filter_id_singleton db.questions hpk q hq
  rw [updateQuestion_valid db fails id userId patch hpatch]
  unfold attempt
  cases hs : fails .selectOwner <;>
    simp [hsel, hother, serverError]

/-- C17 on the store with question 300 of user 1: user 2 tries to edit it. -/
theorem updateQuestion_forbidden_witness :
    askedStore.questionKeysUnique ∧
      (updateQuestion askedStore noFault 300 2 ⟨some "Which?", none⟩).store = askedStore ∧
      (updateQuestion askedStore noFault 300 2 ⟨some "Which?", none⟩).response
        = { status := 403, body := .error "You can only edit your own questions" } :=
  ⟨by decide,
    (updateQuestion_forbidden askedStore noFault 300 2 ⟨some "Which?", none⟩
      ⟨300, 100, 1, "What?", "ok", 9, 0⟩ (by decide) (by decide) rfl (by decide) (by decide)).1,
    (updateQuestion_forbidden askedStore noFault 300 2 ⟨some "Which?", none⟩
      ⟨300, 100, 1, "What?", "ok", 9, 0⟩ (by decide) (by decide) rfl (by decide)
      (by decide)).2.2.2 rfl⟩

/-- C18, counterexample: the author of question 300 sends a patch that
provides the empty string as question text and `Paris` as answer text.  The
answer is 200, the answer text is replaced, and the stored and returned
question text is still `What?`, not the provided value. -/
theorem updateQuestion_empty_text_ignored :
    (updateQuestion askedStore noFault 300 1 ⟨some "", some "Paris"⟩).response
        = { status := 200
            body := .question (some { id := 300, clip_id := 100, user_id := 1,
                                      question_text := "What?", answer_text := "Paris",
                                      created_at := 9, quality_score := 0 }) } ∧
      (updateQuestion askedStore noFault 300 1 ⟨some "", some "Paris"⟩).store.questions
        = [{ id := 300, clip_id := 100, user_id := 1, question_text := "What?",
             answer_text := "Paris", created_at := 9, quality_score := 0 }] ∧
      ¬ ((updateQuestion askedStore noFault 300 1 ⟨some "", some "Paris"⟩).store.questions.map
          Question.question_text = [""]) := by
  decide

theorem updateQuestionRows_returned (db : Store) (id : UUID) (patch : QuestionPatch)
    (q : Question) (hpk : db.questionKeysUnique) (hq : q ∈ db.questions) (hid : q.id = id) :
    (updateQuestionRows db id patch).2 = [applyPatch patch q] := by
  unfold updateQuestionRows
  simp only
  rw [← hid, filter_id_singleton db.questions hpk q hq]
  rfl

/-- C18, amended: for an update by the author of the question in which no
statement throws, each of `question_text` and `answer_text` that the patch
provides as a non-empty string is set to exactly that string, each field that
is absent or the empty string keeps its stored value, the other columns of
the question are kept, every other question row and every other table is
unchanged, and the record returned is the row stored afterwards. -/
theorem updateQuestion_by_author (db : Store) (fails : PatchStmt → Bool) (id userId : UUID)
    (patch : QuestionPatch) (q : Question) (hpk : db.questionKeysUnique)
    (hq : q ∈ db.questions) (hid : q.id = id) (hauthor : q.user_id = userId)
    (hpatch : patch.hasUpdate = true) (hf : ∀ s, fails s = false) :
    ∃ r : Question,
      (updateQuestion db fails id userId patch).response
          = { status := 200, body := .question (some r) } ∧
        (∀ t, patch.questionText = some t → t ≠ "" → r.question_text = t) ∧
        (patch.questionText = none ∨ patch.questionText = some "" →
          r.question_text = q.question_text) ∧
        (∀ t, patch.answerText = some t → t ≠ "" → r.answer_text = t) ∧
        (patch.answerText = none ∨ patch.answerText = some "" →
          r.answer_text = q.answer_text) ∧
        (r.id = q.id ∧ r.clip_id = q.clip_id ∧ r.user_id = q.user_id ∧
          r.created_at = q.created_at ∧ r.quality_score = q.quality_score) ∧
        r ∈ (updateQuestion db fails id userId patch).store.questions ∧
        (∀ x ∈ (updateQuestion db fails id userId patch).store.questions, x.id = id → x = r) ∧
        List.Forall₂ (otherQuestionsKept id) db.questions
          (updateQuestion db fails id userId patch).store.questions ∧
        (updateQuestion db fails id userId patch).store.users = db.users ∧
        (updateQuestion db fails id userId patch).store.videos = db.videos ∧
        (updateQuestion db fails id userId patch).store.clips = db.clips ∧
        (updateQuestion db fails id userId patch).store.clip_views = db.clip_views := by
  have hsel : selectQuestionById db id = [q] := by
    unfold selectQuestionById
    rw [← hid]
    exact filter_id_singleton db.questions hpk q hq
  have hrows := updateQuestionRows_returned db id patch q hpk hq hid
  have hout : updateQuestion db fails id userId patch
      = ⟨(updateQuestionRows db id patch).1,
          { status := 200, body := .question (some (applyPatch patch q)) },
          [.selectOwner, .update]⟩ := by
    rw [updateQuestion_valid db fails id userId patch hpatch]
    unfold attempt
    simp only [hf, Bool.false_eq_true, if_false, hsel, hauthor, ne_eq, not_true_eq_false]
    rw [hrows]
    rfl
  refine ⟨applyPatch patch q, by rw [hout], ?_, ?_, ?_, ?_, ⟨rfl, rfl, rfl, rfl, rfl⟩, ?_, ?_,
    ?_, by rw [hout]; rfl, by rw [hout]; rfl, by rw [hout]; rfl, by rw [hout]; rfl⟩
  · intro t ht hne
    simp [applyPatch, ht, truthyString, hne]
  · rintro (h | h) <;> simp [applyPatch, h, truthyString]
  · intro t ht hne
    simp [applyPatch, ht, truthyString, hne]
  · rintro (h | h) <;> simp [applyPatch, h, truthyString]
  · rw [hout]
    simp only [updateQuestionRows, List.mem_map]
    exact ⟨q, hq, by simp [hid]⟩
  · rw [hout]
    simp only [updateQuestionRows, List.mem_map]
    rintro x ⟨x0, hx0, rfl⟩ hxid
    by_cases h0 : x0.id = id
    · have : x0 = q := List.inj_on_of_nodup_map hpk hx0 hq (by rw [h0, hid])
      subst this
      simp [h0]
    · simp only [h0, if_false] at hxid
  · rw [hout]
    simp only [updateQuestionRows]
    apply forall2_map_self
    intro x _
    unfold otherQuestionsKept
    by_cases h0 : x.id = id <;> simp [h0, applyPatch]

/-- C18, amended, on the store with question 300 of user 1: the author
replaces the answer text and leaves the question text out. -/
theorem updateQuestion_by_author_witness :
    askedStore.questionKeysUnique ∧
      ∃ r : Question,
        (updateQuestion askedStore noFault 300 1 ⟨none, some "Paris"⟩).response
            = { status := 200, body := .question (some r) } ∧
          r.answer_text = "Paris" ∧ r.question_text = "What?" :=
  ⟨by decide,
    let ⟨r, h1, _, h3, h4, _⟩ :=
      updateQuestion_by_author askedStore noFault 300 1 ⟨none, some "Paris"⟩
        ⟨300, 100, 1, "What?", "ok", 9, 0⟩ (by decide) (by decide) rfl rfl (by decide)
        (fun _ => rfl)
    ⟨r, h1, h4 "Paris" rfl (by decide), h3 (Or.inl rfl)⟩⟩

/-- C19, counterexample: the sample store has no question 999, and an update
of question 999 with a patch that provides no text is answered 400 with `No
updates provided`, not 404. -/
theorem updateQuestion_empty_patch_not_404 :
    (∀ q ∈ sampleStore.questions, q.id ≠ 999) ∧
      (updateQuestion sampleStore noFault 999 1 ⟨none, none⟩).response
        = badRequest "No updates provided" ∧
      (updateQuestion sampleStore noFault 999 1 ⟨none, none⟩).response.status ≠ 404 := by
  decide

/-- C19, amended: for a question identifier that no question of the store
has, every user and every patch, update changes nothing in the store and
never answers 200.  With a patch that has at least one non-empty text it sends
the lookup only and, when the lookup does not throw, answers 404 with
`Question not found`; a patch with no non-empty text is answered 400 with
`No updates provided` before the lookup. -/
theorem updateQuestion_not_found (db : Store) (fails : PatchStmt → Bool) (id userId : UUID)
    (patch : QuestionPatch) (hmissing : ∀ q ∈ db.questions, q.id ≠ id) :
    (updateQuestion db fails id userId patch).store = db ∧
      (updateQuestion db fails id userId patch).response.status ≠ 200 ∧
      (patch.hasUpdate = true →
        (updateQuestion db fails id userId patch).issued = [.selectOwner] ∧
          (fails .selectOwner = false →
            (updateQuestion db fails id userId patch).response
              = { status := 404, body := .error "Question not found" })) ∧
      (patch.hasUpdate = false →
        (updateQuestion db fails id userId patch).issued = [] ∧
          (updateQuestion db fails id userId patch).response
            = badRequest "No updates provided") := by
  have hsel := (selectQuestionById_eq_nil db id).2 hmissing
  cases hp : patch.hasUpdate
  · rw [updateQuestion_empty db fails id userId patch hp]
    simp [badRequest]
  · rw [updateQuestion_valid db fails id userId patch hp]
    unfold attempt
    cases hs : fails .selectOwner <;> simp [hsel, serverError]

/-- C19, amended, on the sample store, which has no question 999. -/
theorem updateQuestion_not_found_witness :
    (∀ q ∈ sampleStore.questions, q.id ≠ 999) ∧
      (updateQuestion sampleStore noFault 999 1 ⟨some "Which?", none⟩).store = sampleStore ∧
      (updateQuestion sampleStore noFault 999 1 ⟨some "Which?", none⟩).response
        = { status := 404, body := .error "Question not found" } :=
  ⟨by decide,
    (updateQuestion_not_found sampleStore noFault 999 1 ⟨some "Which?", none⟩ (by decide)).1,
    ((updateQuestion_not_found sampleStore noFault 999 1 ⟨some "Which?", none⟩
      (by decide)).2.2.1 (by decide)).2 rfl⟩

/-- C16, failing run: starting from an empty question table, user 1 creates a
question with texts of valid length and then updates it with the one-letter
question text `a`.  Both requests succeed and the stored question text has
length 1, below the minimum of 5: the update route checks no length. -/
theorem updateQuestion_breaks_length_invariant :
    sampleStore.questions = [] ∧
      (createQuestion sampleStore noFault 300 9 1
        ⟨some 100, some "What?", some "ok"⟩).response.status = 201 ∧
      (updateQuestion
        (createQuestion sampleStore noFault 300 9 1 ⟨some 100, some "What?", some "ok"⟩).store
        noFault 300 1 ⟨some "a", none⟩).response.status = 200 ∧
      (updateQuestion
        (createQuestion sampleStore noFault 300 9 1 ⟨some 100, some "What?", some "ok"⟩).store
        noFault 300 1 ⟨some "a", none⟩).store.questions
        = [{ id := 300, clip_id := 100, user_id := 1, question_text := "a",
             answer_text := "ok", created_at := 9, quality_score := 0 }] ∧
      jsLength "a" < 5 := by
  decide

/-! ## The dry flag across the operations -/

theorem dryFlagsKept_of_clips_eq (db db' : Store) (h : db'.clips = db.clips) :
    dryFlagsKept db db' := by
  unfold dryFlagsKept
  intro i c hc hdry
  exact ⟨c, by rw [h]; exact hc, rfl, hdry⟩

theorem dryFlagsKept_of_append (db db' : Store) (extra : List Clip)
    (h : db'.clips = db.clips ++ extra) : dryFlagsKept db db' := by
  unfold dryFlagsKept
  intro i c hc hdry
  refine ⟨c, ?_, rfl, hdry⟩
  rw [h, List.getElem?_append_left (List.getElem?_eq_some.1 hc).1]
  exact hc

theorem dryFlagsKept_of_map (db db' : Store) (f : Clip → Clip)
    (hf : ∀ c, (f c).id = c.id ∧ (c.is_dry = true → (f c).is_dry = true))
    (h : db'.clips = db.clips.map f) : dryFlagsKept db db' := by
  unfold dryFlagsKept
  intro i c hc hdry
  refine ⟨f c, ?_, (hf c).1, (hf c).2 hdry⟩
  rw [h, List.getElem?_map, hc]
  rfl

theorem insertClipView_clips (db db2 : Store) (id : UUID) (now : Nat) (clip_id user_id : UUID)
    (d : Option Int) (h : insertClipView db id now clip_id user_id d = .ok db2) :
    db2.clips = db.clips := by
  rw [insertClipView_inv db db2 id now clip_id user_id d h]

theorem getRandomClip_clips (db : Store) (fails : ClipStmt → Bool) (rand : Nat → Nat)
    (viewId : UUID) (now : Nat) (userId : UUID) :
    (getRandomClip db fails rand viewId now userId).store.clips = db.clips ∨
      ∃ id, (getRandomClip db fails rand viewId now userId).store.clips
        = db.clips.map fun c =>
            if c.id = id then { c with served_count := c.served_count + 1 } else c := by
  rcases getRandomClip_shapes db fails rand viewId now userId with
    ⟨e, h⟩ | h | ⟨e, h⟩ | ⟨row, db1, e, -, hinc, h⟩ | ⟨row, db1, db2, -, hinc, hins, h⟩
  · left; rw [h]
  · left; rw [h]
  · left; rw [h]
  · right
    refine ⟨row.clip.id, ?_⟩
    rw [h, incrementServed_inv db db1 _ hinc]
  · right
    refine ⟨row.clip.id, ?_⟩
    rw [h]
    show db2.clips = _
    rw [insertClipView_clips db1 db2 _ _ _ _ _ hins, incrementServed_inv db db1 _ hinc]

theorem markDry_clips (db : Store) (fails : DryStmt → Bool) (viewId : UUID) (now : Nat)
    (id userId : UUID) :
    (markDry db fails viewId now id userId).store.clips = db.clips ∨
      (markDry db fails viewId now id userId).store.clips = (setDry db id).clips := by
  unfold markDry attempt
  cases fails .select <;> simp only [Bool.false_eq_true, if_false, if_true]
  · cases selectClipById db id with
    | nil => left; rfl
    | cons first rest =>
      cases fails .update <;> simp only [Bool.false_eq_true, if_false, if_true]
      · cases fails .insertView <;> simp only [Bool.false_eq_true, if_false, if_true]
        · cases hins : insertClipView (setDry db id) viewId now id userId (some 0) with
          | error e => right; rfl
          | ok db2 => right; exact insertClipView_clips _ _ _ _ _ _ _ hins
        · right; trivial
      · left; trivial
  · left; trivial

theorem updateQuestion_clips (db : Store) (fails : PatchStmt → Bool) (id userId : UUID)
    (patch : QuestionPatch) : (updateQuestion db fails id userId patch).store.clips = db.clips := by
  unfold updateQuestion attempt updateQuestionRows
  split
  · rfl
  · cases fails .selectOwner <;> simp only [Bool.false_eq_true, if_false, if_true]
    cases selectQuestionById db id with
    | nil => rfl
    | cons owner rest =>
      simp only
      split
      · rfl
      · cases fails .update <;> simp only [Bool.false_eq_true, if_false, if_true]

theorem insertUser_clips (db db1 : Store) (id : UUID) (now : Nat) (username hash : String)
    (user : User) (h : insertUser db id now username hash = .ok (db1, user)) :
    db1.clips = db.clips := by
  unfold insertUser at h
  split at h
  · cases h
  · split at h
    · cases h
    · simp only [Except.ok.injEq, Prod.mk.injEq] at h
      rw [← h.1]

theorem register_clips (db : Store) (fails : AuthStmt → Bool) (hash : String → String)
    (generateToken : UUID → String → String) (userId : UUID) (now : Nat) (body : Credentials) :
    (register db fails hash generateToken userId now body).store.clips = db.clips := by
  unfold register attempt
  split
  · rfl
  · simp only
    split
    · rfl
    · split
      · rfl
      · cases fails .insertUser <;> simp only [Bool.false_eq_true, if_false, if_true]
        cases hins : insertUser db userId now (body.username.getD "")
            (hash (body.password.getD "")) with
        | error e => cases e <;> rfl
        | ok pair =>
          obtain ⟨db1, user⟩ := pair
          exact insertUser_clips db db1 _ _ _ _ user hins

theorem login_clips (db : Store) (fails : AuthStmt → Bool) (compare : String → String → Bool)
    (generateToken : UUID → String → String) (now : Nat) (body : Credentials) :
    (login db fails compare generateToken now body).store.clips = db.clips := by
  unfold login attempt touchLogin
  split
  · rfl
  · simp only
    cases fails .selectUser <;> simp only [Bool.false_eq_true, if_false, if_true]
    split
    · rename_i h; cases h
    · rfl
    · split
      · rfl
      · cases fails .updateLogin <;> simp only [Bool.false_eq_true, if_false, if_true]

/-- A body of question creation either has its three fields with texts of
valid length or is answered 400 with nothing sent to the database. -/
theorem createQuestion_validation (db : Store) (fails : QuestionStmt → Bool)
    (questionId : UUID) (now : Nat) (userId : UUID) (body : QuestionBody) :
    (∃ clipId q a, body = ⟨some clipId, some q, some a⟩ ∧ validLengths q a) ∨
    ((createQuestion db fails questionId now userId body).response.status = 400 ∧
      (createQuestion db fails questionId now userId body).store = db ∧
      (createQuestion db fails questionId now userId body).issued = []) := by
  obtain ⟨clipId, q, a⟩ := body
  cases clipId with
  | none => right; unfold createQuestion; simp [badRequest]
  | some clipId =>
    cases q with
    | none => right; unfold createQuestion; simp [badRequest, truthyString]
    | some q =>
      cases a with
      | none => right; unfold createQuestion; simp [badRequest, truthyString]
      | some a =>
        by_cases hv : validLengths q a
        · left; exact ⟨clipId, q, a, rfl, hv⟩
        · right; exact createQuestion_invalid db fails questionId now userId clipId q a hv

theorem createQuestion_clips (db : Store) (fails : QuestionStmt → Bool) (questionId : UUID)
    (now : Nat) (userId : UUID) (body : QuestionBody) :
    ((createQuestion db fails questionId now userId body).response.status ≠ 201 ∧
      (createQuestion db fails questionId now userId body).store.clips = db.clips) ∨
    (∃ clipId, body.clipId = some clipId ∧ (∃ c ∈ db.clips, c.id = clipId) ∧
      (createQuestion db fails questionId now userId body).response.status = 201 ∧
      (createQuestion db fails questionId now userId body).store.clips
        = db.clips.map fun c =>
            if c.id = clipId ∧ c.is_dry = true then { c with is_dry := false } else c) := by
  rcases createQuestion_validation db fails questionId now userId body with
    ⟨clipId, q, a, rfl, hv⟩ | ⟨hs, hdb, -⟩
  · rcases createQuestion_outcomes db fails questionId now userId clipId q a hv with
      ⟨-, h⟩ | ⟨-, -, h⟩ | ⟨-, -, h⟩ | ⟨-, db1, row, hins, -, h⟩ | ⟨hex, db1, row, hins, -, h⟩
    · left; rw [h]; exact ⟨by simp [serverError], rfl⟩
    · left; rw [h]; exact ⟨by simp, rfl⟩
    · left; rw [h]; exact ⟨by simp [serverError], rfl⟩
    · left
      rw [h, (insertQuestion_inv db db1 _ _ _ _ _ _ row hins).2]
      exact ⟨by simp [serverError], rfl⟩
    · right
      refine ⟨clipId, rfl, hex, by rw [h], ?_⟩
      rw [h, (insertQuestion_inv db db1 _ _ _ _ _ _ row hins).2]
      rfl
  · left
    rw [hs, hdb]
    exact ⟨by decide, rfl⟩

theorem insertClips_fresh (db db2 : Store) (ids : Nat → UUID) (now : Nat)
    (clips : List ClipParams) (h : insertClips db ids now clips = .ok db2) :
    ∀ r ∈ clipRows ids now clips, ∀ c ∈ db.clips, c.id ≠ r.id := by
  unfold insertClips at h
  simp only at h
  split at h
  · cases h
  · rename_i hpk
    simp only [Bool.or_eq_true, Bool.not_eq_true', decide_eq_false_iff_not, List.any_eq_true,
      beq_iff_eq, not_or, not_exists, not_and] at hpk
    intro r hr c hc
    exact hpk.2 r hr c hc

/-- Clips after video creation: the clips before, followed in case of success
by rows with fresh identifiers. -/
theorem createVideo_clips (db : Store) (fails : VideoStmt → Bool) (vid : UUID)
    (cids : Nat → UUID) (now : Nat) (body : VideoBody) :
    ∃ rows, (createVideo db fails vid cids now body).store.clips = db.clips ++ rows ∧
      ∀ r ∈ rows, ∀ c ∈ db.clips, c.id ≠ r.id := by
  rcases createVideo_validation db fails vid cids now body with
    ⟨title, url, D, rfl, ht, hu, hmin, hmax⟩ | ⟨-, hdb, -⟩
  · rw [createVideo_valid db fails vid cids now title url D ht hu hmin hmax]
    cases fails .connect <;> simp only [Bool.false_eq_true, if_false, if_true]
    · rcases videoTransaction_cases db fails vid cids now title url D hmin with
        ⟨e, issued, htx, -⟩ | ⟨db1, video, db2, hins, hcl, -, -, -, -, -, htx⟩
      · rw [htx]
        exact ⟨[], by simp, by simp⟩
      · rw [htx]
        obtain ⟨-, hdb1, -⟩ := insertVideo_inv db db1 vid now title url D video hins
        have hfresh := insertClips_fresh db1 db2 cids now _ hcl
        refine ⟨clipRows cids now (generateClips video.id D), ?_, ?_⟩
        · simp only [updateClipCount]
          rw [insertClips_inv db1 db2 cids now _ hcl, hdb1]
        · intro r hr c hc
          exact hfresh r hr c (by rw [hdb1]; exact hc)
    · exact ⟨[], by simp, by simp⟩
  · rw [hdb]
    exact ⟨[], by simp, by simp⟩

/-- C14: video creation, `getRandomClip`, mark-dry, question update,
`markClipQuality`, registration and login keep every dry clip dry, and so does
a question creation that is not answered 201; a question creation answered
201 does clear the flag of a dry clip, as on clip 102 of the sample store. -/
theorem dry_flag_cleared_only_by_question_creation :
    (∀ db fails vid cids now body,
        dryFlagsKept db (createVideo db fails vid cids now body).store) ∧
      (∀ db fails rand viewId now userId,
        dryFlagsKept db (getRandomClip db fails rand viewId now userId).store) ∧
      (∀ db fails viewId now id userId,
        dryFlagsKept db (markDry db fails viewId now id userId).store) ∧
      (∀ db fails id userId patch,
        dryFlagsKept db (updateQuestion db fails id userId patch).store) ∧
      (∀ db clipId qualityScore,
        dryFlagsKept db (markClipQuality db clipId qualityScore).1) ∧
      (∀ db fails hash generateToken userId now body,
        dryFlagsKept db (register db fails hash generateToken userId now body).store) ∧
      (∀ db fails compare generateToken now body,
        dryFlagsKept db (login db fails compare generateToken now body).store) ∧
      (∀ db fails questionId now userId body,
        (createQuestion db fails questionId now userId body).response.status ≠ 201 →
          dryFlagsKept db (createQuestion db fails questionId now userId body).store) ∧
      ((createQuestion sampleStore noFault 300 9 1
          ⟨some 102, some "What?", some "ok"⟩).response.status = 201 ∧
        ¬ dryFlagsKept sampleStore
          (createQuestion sampleStore noFault 300 9 1
            ⟨some 102, some "What?", some "ok"⟩).store) := by
  refine ⟨?_, ?_, ?_, ?_, ?_, ?_, ?_, ?_, by decide, ?_⟩
  · intro db fails vid cids now body
    obtain ⟨rows, h, -⟩ := createVideo_clips db fails vid cids now body
    exact dryFlagsKept_of_append db _ rows h
  · intro db fails rand viewId now userId
    rcases getRandomClip_clips db fails rand viewId now userId with h | ⟨id, h⟩
    · exact dryFlagsKept_of_clips_eq db _ h
    · refine dryFlagsKept_of_map db _ _ (fun c => ?_) h
      by_cases hc : c.id = id <;> simp [hc]
  · intro db fails viewId now id userId
    rcases markDry_clips db fails viewId now id userId with h | h
    · exact dryFlagsKept_of_clips_eq db _ h
    · refine dryFlagsKept_of_map db _ _ (fun c => ?_) h
      by_cases hc : c.id = id <;> simp [hc]
  · intro db fails id userId patch
    exact dryFlagsKept_of_clips_eq db _ (updateQuestion_clips db fails id userId patch)
  · intro db clipId qualityScore
    exact dryFlagsKept_of_clips_eq db _ rfl
  · intro db fails hash generateToken userId now body
    exact dryFlagsKept_of_clips_eq db _ (register_clips db fails hash generateToken userId now body)
  · intro db fails compare generateToken now body
    exact dryFlagsKept_of_clips_eq db _ (login_clips db fails compare generateToken now body)
  · intro db fails questionId now userId body hne
    rcases createQuestion_clips db fails questionId now userId body with ⟨-, h⟩ | ⟨_, -, -, h, -⟩
    · exact dryFlagsKept_of_clips_eq db _ h
    · exact absurd h hne
  · intro hkept
    obtain ⟨c', hc', -, hdry⟩ := hkept 2 ⟨102, some 7, 2, 12, true, 0, 5⟩ (by decide) rfl
    have hafter : (createQuestion sampleStore noFault 300 9 1
        ⟨some 102, some "What?", some "ok"⟩).store.clips[2]?
          = some ⟨102, some 7, 2, 12, false, 0, 5⟩ := by decide
    rw [hafter] at hc'
    cases hc'
    cases hdry

/-- C14 on the sample store: a question creation for the missing clip 999 is
answered 404 and keeps the dry clip 102 dry. -/
theorem dry_flag_cleared_only_by_question_creation_witness :
    (createQuestion sampleStore noFault 300 9 1
        ⟨some 999, some "What?", some "ok"⟩).response.status ≠ 201 ∧
      dryFlagsKept sampleStore
        (createQuestion sampleStore noFault 300 9 1 ⟨some 999, some "What?", some "ok"⟩).store ∧
      dryFlagsKept sampleStore (markDry sampleStore noFault 55 9 100 1).store :=
  ⟨by decide,
    dry_flag_cleared_only_by_question_creation.2.2.2.2.2.2.2.1 sampleStore noFault 300 9 1
      ⟨some 999, some "What?", some "ok"⟩ (by decide),
    dry_flag_cleared_only_by_question_creation.2.2.1 sampleStore noFault 55 9 100 1⟩

/-! ## A dry clip is not served until a question is attached -/

theorem dryAt_of_clips_eq (c : UUID) (db db' : Store) (h : db'.clips = db.clips)
    (hinv : dryAt c db) : dryAt c db' := by
  unfold dryAt at hinv ⊢
  rw [h]
  exact hinv

theorem dryAt_of_map (c : UUID) (db db' : Store) (f : Clip → Clip)
    (hf : ∀ x, (f x).id = x.id ∧ (x.id = c → x.is_dry = true → (f x).is_dry = true))
    (h : db'.clips = db.clips.map f) (hinv : dryAt c db) : dryAt c db' := by
  unfold dryAt at hinv ⊢
  rw [h]
  obtain ⟨⟨x, hx, hxc⟩, hall⟩ := hinv
  constructor
  · exact ⟨f x, List.mem_map_of_mem f hx, by rw [(hf x).1, hxc]⟩
  · intro y hy hyc
    obtain ⟨x0, hx0, rfl⟩ := List.mem_map.1 hy
    rw [(hf x0).1] at hyc
    exact (hf x0).2 hyc (hall x0 hx0 hyc)

theorem dryAt_of_append (c : UUID) (db db' : Store) (rows : List Clip)
    (h : db'.clips = db.clips ++ rows) (hfresh : ∀ r ∈ rows, ∀ x ∈ db.clips, x.id ≠ r.id)
    (hinv : dryAt c db) : dryAt c db' := by
  unfold dryAt at hinv ⊢
  rw [h]
  obtain ⟨⟨x, hx, hxc⟩, hall⟩ := hinv
  constructor
  · exact ⟨x, List.mem_append_left _ hx, hxc⟩
  · intro y hy hyc
    rcases List.mem_append.1 hy with hy | hy
    · exact hall y hy hyc
    · exact absurd (hxc.trans hyc.symm) (hfresh y hy x hx)

/-- A request other than a question creation for the dry clip `c` keeps `c`
dry and does not serve it. -/
theorem run_keeps_dry (c : UUID) (db : Store) (r : Request) (hr : r.asksAbout c = false)
    (hinv : dryAt c db) :
    dryAt c (r.run db).1 ∧ ∀ row, (r.run db).2 = some row → row.clip.id ≠ c := by
  cases r with
  | select fails rand viewId now userId =>
    constructor
    · rcases getRandomClip_clips db fails rand viewId now userId with h | ⟨id, h⟩
      · exact dryAt_of_clips_eq c db _ h hinv
      · refine dryAt_of_map c db _ _ (fun x => ?_) h hinv
        by_cases hx : x.id = id <;> simp [hx]
    · intro row hrow heq
      simp only [Request.run] at hrow
      have hres : (getRandomClip db fails rand viewId now userId).result = .ok (some row) := by
        generalize (getRandomClip db fails rand viewId now userId).result = res at hrow
        match res, hrow with
        | .ok (some row'), h => cases h; rfl
      obtain ⟨hsel, -⟩ := getRandomClip_returns db fails rand viewId now userId row hres
      have hmem := (mem_candidateRows db row).1 (selectRandomClip_sound db rand row [] hsel).2.1
      have := hinv.2 row.clip hmem.1 heq
      rw [hmem.2.1] at this
      cases this
  | markDry fails viewId now id userId =>
    refine ⟨?_, fun row h => by cases h⟩
    rcases markDry_clips db fails viewId now id userId with h | h
    · exact dryAt_of_clips_eq c db _ h hinv
    · refine dryAt_of_map c db _ _ (fun x => ?_) h hinv
      by_cases hx : x.id = id <;> simp [hx]
  | createQuestion fails questionId now userId body =>
    refine ⟨?_, fun row h => by cases h⟩
    rcases createQuestion_clips db fails questionId now userId body with
      ⟨-, h⟩ | ⟨clipId, hbody, -, -, h⟩
    · exact dryAt_of_clips_eq c db _ h hinv
    · have hne : clipId ≠ c := by
        rintro rfl
        simp [Request.asksAbout, hbody] at hr
      refine dryAt_of_map c db _ _ (fun x => ?_) h hinv
      by_cases hx : x.id = clipId ∧ x.is_dry = true
      · simp only [hx, and_self, if_true, true_and]
        intro hxc
        exact absurd hxc hne
      · simp [hx]
  | updateQuestion fails id userId patch =>
    exact ⟨dryAt_of_clips_eq c db _ (updateQuestion_clips db fails id userId patch) hinv,
      fun row h => by cases h⟩
  | createVideo fails vid cids now body =>
    refine ⟨?_, fun row h => by cases h⟩
    obtain ⟨rows, h, hfresh⟩ := createVideo_clips db fails vid cids now body
    exact dryAt_of_append c db _ rows h hfresh hinv

theorem runAll_keeps_dry (c : UUID) (reqs : List Request) :
    ∀ db, dryAt c db → (∀ r ∈ reqs, r.asksAbout c = false) →
      dryAt c (runAll db reqs).1 ∧
        ∀ served ∈ (runAll db reqs).2, ∀ row, served = some row → row.clip.id ≠ c := by
  induction reqs with
  | nil =>
    intro db hinv _
    exact ⟨hinv, fun s hs => by cases hs⟩
  | cons r rest ih =>
    intro db hinv hall
    obtain ⟨h1, h2⟩ := run_keeps_dry c db r (hall r (List.mem_cons_self _ _)) hinv
    obtain ⟨h3, h4⟩ := ih (r.run db).1 h1 (fun x hx => hall x (List.mem_cons_of_mem _ hx))
    refine ⟨h3, ?_⟩
    intro served hs row hrow
    simp only [runAll, List.mem_cons] at hs
    rcases hs with rfl | hs
    · exact h2 row hrow
    · exact h4 served hs row hrow

theorem markDry_dryAt (db : Store) (fails : DryStmt → Bool) (viewId : UUID) (now : Nat)
    (c userId : UUID) (h : (markDry db fails viewId now c userId).response.status = 200) :
    dryAt c (markDry db fails viewId now c userId).store := by
  obtain ⟨⟨x, hx, hxc⟩, hins⟩ := markDry_ok_inv db fails viewId now c userId h
  have hclips := insertClipView_clips _ _ _ _ _ _ _ hins
  unfold dryAt
  rw [hclips]
  simp only [setDry, List.mem_map]
  constructor
  · exact ⟨{ x with is_dry := true }, ⟨x, hx, by simp [hxc]⟩, hxc⟩
  · rintro y ⟨x0, -, rfl⟩ hyc
    by_cases h0 : x0.id = c
    · simp [h0]
    · simp only [h0, if_false] at hyc

theorem createQuestion_videos (db : Store) (fails : QuestionStmt → Bool) (questionId : UUID)
    (now : Nat) (userId : UUID) (body : QuestionBody) :
    (createQuestion db fails questionId now userId body).store.videos = db.videos := by
  rcases createQuestion_validation db fails questionId now userId body with
    ⟨clipId, q, a, rfl, hv⟩ | ⟨-, hdb, -⟩
  · rcases createQuestion_outcomes db fails questionId now userId clipId q a hv with
      ⟨-, h⟩ | ⟨-, -, h⟩ | ⟨-, -, h⟩ | ⟨-, db1, row, hins, -, h⟩ | ⟨-, db1, row, hins, -, h⟩
    · rw [h]
    · rw [h]
    · rw [h]
    · rw [h, (insertQuestion_inv db db1 _ _ _ _ _ _ row hins).2]
    · rw [h, (insertQuestion_inv db db1 _ _ _ _ _ _ row hins).2]
      rfl
  · rw [hdb]

theorem store21_eq : store21 = store21Rows := by
  unfold store21
  rw [createVideo_valid _ _ _ _ _ _ _ _ (by decide) (by decide) (by decide) (by decide)]
  unfold videoTransaction
  simp only [generateClips_eq]
  decide

/-- C13: after a mark-dry request for clip `c` is answered 200, no selection
in any later sequence of selections, mark-dry requests, question updates,
video creations and question creations for other clips returns `c`.  And when
a question creation for `c` is answered 201, `c` exists with
`is_dry = false`, and on a store whose clips all belong to stored videos it
is among the candidate rows of the selection query. -/
theorem dry_clip_not_served_until_question :
    (∀ db fails viewId now c userId reqs,
        (markDry db fails viewId now c userId).response.status = 200 →
        (∀ r ∈ reqs, Request.asksAbout c r = false) →
          ∀ served ∈ (runAll (markDry db fails viewId now c userId).store reqs).2,
            ∀ row, served = some row → row.clip.id ≠ c) ∧
      (∀ db fails questionId now userId c q a,
        (createQuestion db fails questionId now userId ⟨some c, q, a⟩).response.status = 201 →
          (∃ x ∈ (createQuestion db fails questionId now userId ⟨some c, q, a⟩).store.clips,
            x.id = c) ∧
          (∀ x ∈ (createQuestion db fails questionId now userId ⟨some c, q, a⟩).store.clips,
            x.id = c → x.is_dry = false) ∧
          (db.clipsHaveVideos →
            ∃ row ∈ candidateRows
                (createQuestion db fails questionId now userId ⟨some c, q, a⟩).store,
              row.clip.id = c)) := by
  constructor
  · intro db fails viewId now c userId reqs h hreqs
    exact (runAll_keeps_dry c reqs _ (markDry_dryAt db fails viewId now c userId h) hreqs).2
  · intro db fails questionId now userId c q a h
    rcases createQuestion_clips db fails questionId now userId ⟨some c, q, a⟩ with
      ⟨hne, -⟩ | ⟨clipId, hbody, ⟨x, hx, hxc⟩, -, hclips⟩
    · exact absurd h hne
    · simp only [Option.some.injEq] at hbody
      subst hbody
      obtain ⟨x', hx', hid, hvid⟩ : ∃ x' ∈ (createQuestion db fails questionId now userId
          ⟨some c, q, a⟩).store.clips, x'.id = c ∧ x'.video_id = x.video_id := by
        refine ⟨_, by rw [hclips]; exact List.mem_map_of_mem _ hx, ?_, ?_⟩
        · by_cases h0 : x.id = c ∧ x.is_dry = true
          · rw [if_pos h0]; exact hxc
          · rw [if_neg h0]; exact hxc
        · by_cases h0 : x.id = c ∧ x.is_dry = true
          · rw [if_pos h0]
          · rw [if_neg h0]
      have hdry : ∀ y ∈ (createQuestion db fails questionId now userId
          ⟨some c, q, a⟩).store.clips, y.id = c → y.is_dry = false := by
        intro y hy hyc
        rw [hclips] at hy
        obtain ⟨y0, -, rfl⟩ := List.mem_map.1 hy
        by_cases h0 : y0.id = c ∧ y0.is_dry = true
        · simp [h0]
        · simp only [h0, if_false] at hyc ⊢
          cases hd : y0.is_dry
          · rfl
          · exact absurd ⟨hyc, hd⟩ h0
      refine ⟨⟨x', hx', hid⟩, hdry, ?_⟩
      intro hfk
      obtain ⟨v, hv, hxv⟩ := hfk x hx
      refine ⟨⟨x', v.url, v.title⟩, ?_, hid⟩
      rw [mem_candidateRows]
      refine ⟨hx', hdry x' hx' hid, v, ?_, ?_, rfl, rfl⟩
      · rw [createQuestion_videos]; exact hv
      · show x'.video_id = some v.id
        rw [hvid]
        exact hxv

/-- C13 on the store with the 21 clips of a 30-second video: all 21 are
candidates; after clip 203 is marked dry there are 20, and a selection then
does not return clip 203; after a question is created for clip 203 there are
21 again. -/
theorem dry_clip_not_served_until_question_witness :
    store21 = store21Rows ∧
      (candidateRows store21Rows).length = 21 ∧
      (markDry store21Rows noFault 55 9 203 1).response.status = 200 ∧
      (candidateRows (markDry store21Rows noFault 55 9 203 1).store).length = 20 ∧
      (∀ served ∈ (runAll (markDry store21Rows noFault 55 9 203 1).store
            [.select noFault (favour 3) 56 10 1]).2,
          ∀ row, served = some row → row.clip.id ≠ 203) ∧
      (createQuestion (markDry store21Rows noFault 55 9 203 1).store noFault 300 11 1
          ⟨some 203, some "What?", some "ok"⟩).response.status = 201 ∧
      (candidateRows
          (createQuestion (markDry store21Rows noFault 55 9 203 1).store noFault 300 11 1
            ⟨some 203, some "What?", some "ok"⟩).store).length = 21 :=
  ⟨store21_eq, by decide, by decide, by decide,
    dry_clip_not_served_until_question.1 store21Rows noFault 55 9 203 1
      [.select noFault (favour 3) 56 10 1] (by decide) (by decide),
    by decide, by decide⟩

/-! ## Question creation: the insert and the flag -/

/-- C21, counterexample: on the sample store, whose clip 102 is dry, a
question creation for clip 102 in which the `UPDATE clips` throws is answered
500 although the question row has been inserted, and clip 102 is still dry. -/
theorem createQuestion_question_on_dry_clip :
    (createQuestion sampleStore flagUpdateFails 300 9 1
        ⟨some 102, some "What?", some "ok"⟩).response
        = serverError "Failed to create question" ∧
      (createQuestion sampleStore flagUpdateFails 300 9 1
        ⟨some 102, some "What?", some "ok"⟩).store.questions
        = [{ id := 300, clip_id := 102, user_id := 1, question_text := "What?",
             answer_text := "ok", created_at := 9, quality_score := 0 }] ∧
      (createQuestion sampleStore flagUpdateFails 300 9 1
        ⟨some 102, some "What?", some "ok"⟩).store.clips = sampleStore.clips ∧
      (∃ c ∈ (createQuestion sampleStore flagUpdateFails 300 9 1
          ⟨some 102, some "What?", some "ok"⟩).store.clips, c.id = 102 ∧ c.is_dry = true) := by
  decide

/-- C21, amended: for an existing clip and texts of valid length, every
outcome of question creation is one of three.  The answer is 201, the
question row is inserted and the clip has `is_dry = false`; or the answer is
500 and the store is unchanged; or the `UPDATE clips` threw after the insert
was committed: the answer is 500, the question row stays and every clip, its
dry flag included, is as before. -/
theorem createQuestion_unit (db : Store) (fails : QuestionStmt → Bool) (questionId : UUID)
    (now : Nat) (userId clipId : UUID) (q a : String)
    (hlen : 5 ≤ jsLength q ∧ jsLength q ≤ 500 ∧ 2 ≤ jsLength a ∧ jsLength a ≤ 1000)
    (hclip : ∃ c ∈ db.clips, c.id = clipId) :
    ((createQuestion db fails questionId now userId ⟨some clipId, some q, some a⟩).response.status
          = 201 ∧
        (createQuestion db fails questionId now userId ⟨some clipId, some q, some a⟩).store.questions
          = db.questions ++
            [{ id := questionId, clip_id := clipId, user_id := userId, question_text := q,
               answer_text := a, created_at := now, quality_score := 0 }] ∧
        (∀ x ∈ (createQuestion db fails questionId now userId
            ⟨some clipId, some q, some a⟩).store.clips, x.id = clipId → x.is_dry = false)) ∨
      ((createQuestion db fails questionId now userId ⟨some clipId, some q, some a⟩).response
          = serverError "Failed to create question" ∧
        (createQuestion db fails questionId now userId ⟨some clipId, some q, some a⟩).store = db) ∨
      (fails .updateClip = true ∧
        (createQuestion db fails questionId now userId ⟨some clipId, some q, some a⟩).response
          = serverError "Failed to create question" ∧
        (createQuestion db fails questionId now userId ⟨some clipId, some q, some a⟩).store
          = { db with questions := db.questions ++
              [{ id := questionId, clip_id := clipId, user_id := userId, question_text := q,
                 answer_text := a, created_at := now, quality_score := 0 }] }) := by
  rcases createQuestion_outcomes db fails questionId now userId clipId q a hlen with
    ⟨-, h⟩ | ⟨-, hno, -⟩ | ⟨-, -, h⟩ | ⟨-, db1, row, hins, hu, h⟩ | ⟨-, db1, row, hins, -, h⟩
  · right; left; rw [h]; exact ⟨rfl, rfl⟩
  · obtain ⟨c, hc, hid⟩ := hclip
    exact absurd hid (hno c hc)
  · right; left; rw [h]; exact ⟨rfl, rfl⟩
  · right; right
    obtain ⟨hrow, hdb1⟩ := insertQuestion_inv db db1 _ _ _ _ _ _ row hins
    rw [h, hdb1, hrow]
    exact ⟨hu, rfl, rfl⟩
  · left
    obtain ⟨hrow, hdb1⟩ := insertQuestion_inv db db1 _ _ _ _ _ _ row hins
    rw [h, hdb1, hrow]
    refine ⟨rfl, rfl, ?_⟩
    intro x hx hxid
    simp only [clearDry, List.mem_map] at hx
    obtain ⟨x0, -, rfl⟩ := hx
    by_cases h0 : x0.id = clipId ∧ x0.is_dry = true
    · simp [h0]
    · simp only [h0, if_false] at hxid ⊢
      cases hd : x0.is_dry
      · rfl
      · exact absurd ⟨hxid, hd⟩ h0

/-- C21, amended, on the sample store: a question for the dry clip 102 with
no statement throwing. -/
theorem createQuestion_unit_witness :
    (5 ≤ jsLength "What?" ∧ jsLength "What?" ≤ 500 ∧ 2 ≤ jsLength "ok" ∧ jsLength "ok" ≤ 1000) ∧
      (∃ c ∈ sampleStore.clips, c.id = 102) ∧
      (createQuestion sampleStore noFault 300 9 1
        ⟨some 102, some "What?", some "ok"⟩).response.status = 201 ∧
      (∀ x ∈ (createQuestion sampleStore noFault 300 9 1
          ⟨some 102, some "What?", some "ok"⟩).store.clips, x.id = 102 → x.is_dry = false) :=
  ⟨by decide, by decide, by decide,
    ((createQuestion_unit sampleStore noFault 300 9 1 102 "What?" "ok" (by decide)
      (by decide)).resolve_right (by decide)).2.2⟩

/-! ## The served count across the operations -/

theorem clipsRelated_of_clips_eq (R : Clip → Clip → Prop) (hR : ∀ c, R c c) (db db' : Store)
    (h : db'.clips = db.clips) : clipsRelated R db db' := by
  unfold clipsRelated
  intro i c hc
  exact ⟨c, by rw [h]; exact hc, hR c⟩

theorem clipsRelated_of_append (R : Clip → Clip → Prop) (hR : ∀ c, R c c) (db db' : Store)
    (extra : List Clip) (h : db'.clips = db.clips ++ extra) : clipsRelated R db db' := by
  unfold clipsRelated
  intro i c hc
  refine ⟨c, ?_, hR c⟩
  rw [h, List.getElem?_append_left (List.getElem?_eq_some.1 hc).1]
  exact hc

theorem clipsRelated_of_map (R : Clip → Clip → Prop) (db db' : Store) (f : Clip → Clip)
    (hf : ∀ c, R c (f c)) (h : db'.clips = db.clips.map f) : clipsRelated R db db' := by
  unfold clipsRelated
  intro i c hc
  refine ⟨f c, ?_, hf c⟩
  rw [h, List.getElem?_map, hc]
  rfl

theorem clipRows_unserved (ids : Nat → UUID) (now : Nat) (clips : List ClipParams) :
    ∀ r ∈ clipRows ids now clips, r.served_count = 0 ∧ r.is_dry = false := by
  intro r hr
  unfold clipRows at hr
  simp only [List.mem_map] at hr
  obtain ⟨ip, -, rfl⟩ := hr
  exact ⟨rfl, rfl⟩

/-- Clips after video creation: the clips before, followed in case of success
by rows that are not dry and were never served. -/
theorem createVideo_clips_unserved (db : Store) (fails : VideoStmt → Bool) (vid : UUID)
    (cids : Nat → UUID) (now : Nat) (body : VideoBody) :
    ∃ rows, (createVideo db fails vid cids now body).store.clips = db.clips ++ rows ∧
      ∀ r ∈ rows, r.served_count = 0 ∧ r.is_dry = false := by
  rcases createVideo_validation db fails vid cids now body with
    ⟨title, url, D, rfl, ht, hu, hmin, hmax⟩ | ⟨-, hdb, -⟩
  · rcases createVideo_outcomes db fails vid cids now title url D ht hu hmin hmax with
      ⟨hstore, -⟩ | ⟨-, -, hstore, -⟩
    · rw [hstore]; exact ⟨[], by simp, by simp⟩
    · rw [hstore]
      exact ⟨clipRows cids now (generateClips vid D), rfl, clipRows_unserved cids now _⟩
  · rw [hdb]
    exact ⟨[], by simp, by simp⟩

/-- C25: on a store with unique clip identifiers, a call of `getRandomClip`
that returns a record returns a row as it was stored before the call, and
afterwards the stored `served_count` of that clip is the `served_count` of the
returned record plus one. -/
theorem getRandomClip_reports_count_before (db : Store) (hpk : db.clipKeysUnique)
    (fails : ClipStmt → Bool) (rand : Nat → Nat) (viewId : UUID) (now : Nat) (userId : UUID)
    (row : ClipRow)
    (h : (getRandomClip db fails rand viewId now userId).result = .ok (some row)) :
    row.clip ∈ db.clips ∧
      (∃ c ∈ (getRandomClip db fails rand viewId now userId).store.clips, c.id = row.clip.id) ∧
      (∀ c ∈ (getRandomClip db fails rand viewId now userId).store.clips,
        c.id = row.clip.id → c.served_count = row.clip.served_count + 1) := by
  obtain ⟨hsel, db1, hinc, hins⟩ := getRandomClip_returns db fails rand viewId now userId row h
  have hmem := ((mem_candidateRows db row).1 (selectRandomClip_sound db rand row [] hsel).2.1).1
  have hclips : (getRandomClip db fails rand viewId now userId).store.clips
      = db.clips.map fun c =>
          if c.id = row.clip.id then { c with served_count := c.served_count + 1 } else c := by
    rw [insertClipView_clips db1 _ _ _ _ _ _ hins, incrementServed_inv db db1 _ hinc]
  rw [hclips]
  refine ⟨hmem, ⟨_, List.mem_map_of_mem _ hmem, by simp⟩, ?_⟩
  intro c hc hid
  obtain ⟨c0, hc0, rfl⟩ := List.mem_map.1 hc
  by_cases h0 : c0.id = row.clip.id
  · rw [clip_eq_of_id_eq db hpk row.clip c0 hmem hc0 h0]
    simp
  · simp only [h0, if_false] at hid

/-- C25 on the sample store: clip 101 is reported with `served_count = 0`
while the store then holds 1. -/
theorem getRandomClip_reports_count_before_witness :
    sampleStore.clipKeysUnique ∧
      (getRandomClip sampleStore noFault (favour 1) 55 9 1).result
        = .ok (some ⟨⟨101, some 7, 1, 11, false, 0, 5⟩, "u", "t"⟩) ∧
      (∀ c ∈ (getRandomClip sampleStore noFault (favour 1) 55 9 1).store.clips,
        c.id = 101 → c.served_count = 0 + 1) :=
  ⟨by decide, by decide,
    (getRandomClip_reports_count_before sampleStore (by decide) noFault (favour 1) 55 9 1
      ⟨⟨101, some 7, 1, 11, false, 0, 5⟩, "u", "t"⟩ (by decide)).2.2⟩

theorem newClipsUnserved_of_append (db db' : Store) (rows : List Clip)
    (h : db'.clips = db.clips ++ rows) (hrows : ∀ r ∈ rows, r.served_count = 0) :
    newClipsUnserved db db' := by
  unfold newClipsUnserved
  intro i c hc hi
  rw [h, List.getElem?_append_right hi] at hc
  exact hrows c (List.getElem?_mem hc)

theorem servedNonneg_of_map (db db' : Store) (f : Clip → Clip)
    (hf : ∀ c, c.served_count ≤ (f c).served_count) (h : db'.clips = db.clips.map f)
    (hinv : db.servedNonneg) : db'.servedNonneg := by
  unfold Store.servedNonneg at hinv ⊢
  rw [h]
  intro c hc
  obtain ⟨c0, hc0, rfl⟩ := List.mem_map.1 hc
  exact le_trans (hinv c0 hc0) (hf c0)

theorem servedNonneg_of_clips_eq (db db' : Store) (h : db'.clips = db.clips)
    (hinv : db.servedNonneg) : db'.servedNonneg := by
  unfold Store.servedNonneg at hinv ⊢
  rw [h]
  exact hinv

theorem run_servedNonneg (db : Store) (r : Request) (hinv : db.servedNonneg) :
    (r.run db).1.servedNonneg := by
  cases r with
  | select fails rand viewId now userId =>
    rcases getRandomClip_clips db fails rand viewId now userId with h | ⟨id, h⟩
    · exact servedNonneg_of_clips_eq db _ h hinv
    · refine servedNonneg_of_map db _ _ (fun c => ?_) h hinv
      by_cases hc : c.id = id <;> simp [hc]
  | markDry fails viewId now id userId =>
    rcases markDry_clips db fails viewId now id userId with h | h
    · exact servedNonneg_of_clips_eq db _ h hinv
    · refine servedNonneg_of_map db _ _ (fun c => ?_) h hinv
      by_cases hc : c.id = id <;> simp [hc]
  | createQuestion fails questionId now userId body =>
    rcases createQuestion_clips db fails questionId now userId body with
      ⟨-, h⟩ | ⟨clipId, -, -, -, h⟩
    · exact servedNonneg_of_clips_eq db _ h hinv
    · refine servedNonneg_of_map db _ _ (fun c => ?_) h hinv
      by_cases hc : c.id = clipId ∧ c.is_dry = true <;> simp [hc]
  | updateQuestion fails id userId patch =>
    exact servedNonneg_of_clips_eq db _ (updateQuestion_clips db fails id userId patch) hinv
  | createVideo fails vid cids now body =>
    obtain ⟨rows, h, hrows⟩ := createVideo_clips_unserved db fails vid cids now body
    unfold Store.servedNonneg at hinv ⊢
    show ∀ c ∈ (createVideo db fails vid cids now body).store.clips, 0 ≤ c.served_count
    rw [h]
    intro c hc
    rcases List.mem_append.1 hc with hc | hc
    · exact hinv c hc
    · rw [(hrows c hc).1]

theorem runAll_servedNonneg (reqs : List Request) :
    ∀ db : Store, db.servedNonneg → (runAll db reqs).1.servedNonneg := by
  induction reqs with
  | nil => intro db h; exact h
  | cons r rest ih =>
    intro db h
    exact ih _ (run_servedNonneg db r h)

/-- C23: video creation, mark-dry, question creation and question update
leave the `served_count` of every clip unchanged, and the clips that video
creation adds start at 0; `getRandomClip` never lowers a `served_count` and
raises it by at most one.  Hence, from a store without negative counts, and in
particular from one without clips, no sequence of these operations leads to a
negative `served_count`. -/
theorem served_count_monotonic :
    (∀ db fails vid cids now body,
        servedKept db (createVideo db fails vid cids now body).store ∧
          newClipsUnserved db (createVideo db fails vid cids now body).store) ∧
      (∀ db fails rand viewId now userId,
        servedGrown db (getRandomClip db fails rand viewId now userId).store ∧
          (getRandomClip db fails rand viewId now userId).store.clips.length
            = db.clips.length) ∧
      (∀ db fails viewId now id userId,
        servedKept db (markDry db fails viewId now id userId).store ∧
          (markDry db fails viewId now id userId).store.clips.length = db.clips.length) ∧
      (∀ db fails questionId now userId body,
        servedKept db (createQuestion db fails questionId now userId body).store ∧
          (createQuestion db fails questionId now userId body).store.clips.length
            = db.clips.length) ∧
      (∀ db fails id userId patch,
        servedKept db (updateQuestion db fails id userId patch).store ∧
          (updateQuestion db fails id userId patch).store.clips.length = db.clips.length) ∧
      (∀ (db : Store) (reqs : List Request),
        db.servedNonneg → (runAll db reqs).1.servedNonneg) ∧
      (∀ (db : Store) (reqs : List Request),
        db.clips = [] → (runAll db reqs).1.servedNonneg) := by
  refine ⟨?_, ?_, ?_, ?_, ?_, fun db reqs h => runAll_servedNonneg reqs db h, ?_⟩
  · intro db fails vid cids now body
    obtain ⟨rows, h, hrows⟩ := createVideo_clips_unserved db fails vid cids now body
    exact ⟨clipsRelated_of_append _ (fun c => ⟨rfl, rfl⟩) db _ rows h,
      newClipsUnserved_of_append db _ rows h (fun r hr => (hrows r hr).1)⟩
  · intro db fails rand viewId now userId
    rcases getRandomClip_clips db fails rand viewId now userId with h | ⟨id, h⟩
    · exact ⟨clipsRelated_of_clips_eq _ (fun c => ⟨rfl, le_refl _, by omega⟩) db _ h, by rw [h]⟩
    · refine ⟨clipsRelated_of_map _ db _ _ (fun c => ?_) h, by rw [h, List.length_map]⟩
      by_cases hc : c.id = id <;> simp [hc]
  · intro db fails viewId now id userId
    rcases markDry_clips db fails viewId now id userId with h | h
    · exact ⟨clipsRelated_of_clips_eq _ (fun c => ⟨rfl, rfl⟩) db _ h, by rw [h]⟩
    · refine ⟨clipsRelated_of_map _ db _ _ (fun c => ?_) h, by rw [h]; simp [setDry]⟩
      by_cases hc : c.id = id <;> simp [hc]
  · intro db fails questionId now userId body
    rcases createQuestion_clips db fails questionId now userId body with
      ⟨-, h⟩ | ⟨clipId, -, -, -, h⟩
    · exact ⟨clipsRelated_of_clips_eq _ (fun c => ⟨rfl, rfl⟩) db _ h, by rw [h]⟩
    · refine ⟨clipsRelated_of_map _ db _ _ (fun c => ?_) h, by rw [h, List.length_map]⟩
      by_cases hc : c.id = clipId ∧ c.is_dry = true <;> simp [hc]
  · intro db fails id userId patch
    have h := updateQuestion_clips db fails id userId patch
    exact ⟨clipsRelated_of_clips_eq _ (fun c => ⟨rfl, rfl⟩) db _ h, by rw [h]⟩
  · intro db reqs h
    refine runAll_servedNonneg reqs db ?_
    unfold Store.servedNonneg
    rw [h]
    intro c hc
    cases hc

/-- C23 on the sample store: a selection, a mark-dry request and a video
creation in sequence leave no negative count. -/
theorem served_count_monotonic_witness :
    sampleStore.servedNonneg ∧
      (runAll sampleStore
        [.select noFault (favour 0) 55 9 1, .markDry noFault 56 10 101 1,
         .createVideo noFault 8 sampleClipIds 11 sampleBody]).1.servedNonneg :=
  ⟨by decide,
    served_count_monotonic.2.2.2.2.2.1 sampleStore
      [.select noFault (favour 0) 55 9 1, .markDry noFault 56 10 101 1,
       .createVideo noFault 8 sampleClipIds 11 sampleBody] (by decide)⟩

/-! ## Clips overlapping a window -/

theorem overlapClause_iff (c : Clip) (startTime endTime : Int) (hw : startTime < endTime)
    (hc : c.start_time < c.end_time) :
    overlapClause c startTime endTime = true ↔ overlapsHalfOpen c startTime endTime := by
  unfold overlapClause overlapsHalfOpen
  simp only [Bool.or_eq_true, Bool.and_eq_true, decide_eq_true_eq]
  omega

/-- C26: for a window with `startTime < endTime`, the three-way clause of
`getOverlappingClips` holds of a clip with `start_time < end_time` if and only
if the clip and the window overlap in the half-open sense.  On a store whose
clips all have `start_time < end_time`, the query, when it does not throw,
returns exactly the clips of the given video that overlap the window, each as
often as it is stored, sorted by `start_time` ascending. -/
theorem getOverlappingClips_half_open (startTime endTime : Int) (hw : startTime < endTime) :
    (∀ c : Clip, c.start_time < c.end_time →
        (overlapClause c startTime endTime = true ↔ overlapsHalfOpen c startTime endTime)) ∧
      (∀ (db : Store) (videoId : UUID), (∀ c ∈ db.clips, c.start_time < c.end_time) →
        ∃ rows, getOverlappingClips db false videoId startTime endTime = .ok rows ∧
          (∀ c, c ∈ rows ↔
            c ∈ db.clips ∧ c.video_id = some videoId ∧ overlapsHalfOpen c startTime endTime) ∧
          rows.Perm (db.clips.filter fun c =>
            c.video_id == some videoId && decide (overlapsHalfOpen c startTime endTime)) ∧
          rows.Sorted byStartTime) := by
  refine ⟨fun c hc => overlapClause_iff c startTime endTime hw hc, ?_⟩
  intro db videoId hdb
  have hfilter : (db.clips.filter fun c =>
      c.video_id == some videoId && overlapClause c startTime endTime)
      = db.clips.filter fun c =>
        c.video_id == some videoId && decide (overlapsHalfOpen c startTime endTime) := by
    apply List.filter_congr
    intro c hc
    congr 1
    rw [Bool.eq_iff_iff, overlapClause_iff c startTime endTime hw (hdb c hc)]
    simp
  refine ⟨_, rfl, ?_, ?_, List.sorted_insertionSort byStartTime _⟩
  · intro c
    rw [List.mem_insertionSort, hfilter]
    simp only [List.mem_filter, Bool.and_eq_true, beq_iff_eq, decide_eq_true_eq]
  · rw [← hfilter]
    exact List.perm_insertionSort byStartTime _

/-- C26 on the sample store: the window `[10, 11)` of video 7 overlaps the
clips that start at 1 and 2 and not the clip that ends at 10. -/
theorem getOverlappingClips_half_open_witness :
    ((10 : Int) < 11 ∧ ∀ c ∈ sampleStore.clips, c.start_time < c.end_time) ∧
      getOverlappingClips sampleStore false 7 10 11
        = .ok [⟨101, some 7, 1, 11, false, 0, 5⟩, ⟨102, some 7, 2, 12, true, 0, 5⟩] ∧
      ∃ rows, getOverlappingClips sampleStore false 7 10 11 = .ok rows ∧
        ∀ c, c ∈ rows ↔
          c ∈ sampleStore.clips ∧ c.video_id = some 7 ∧ overlapsHalfOpen c 10 11 :=
  ⟨by decide, by decide,
    let ⟨rows, h1, h2, _⟩ :=
      (getOverlappingClips_half_open 10 11 (by decide)).2 sampleStore 7 (by decide)
    ⟨rows, h1, h2⟩⟩

/-! ## Video creation: the bulk insert statement -/

theorem enum_map_fst {α β : Type} (l : List α) (f : Nat → β) :
    l.enum.map (fun ic => f ic.1) = (List.range l.length).map f := by
  rw [List.enum_eq_zip_range]
  have h : (fun ic : Nat × α => f ic.1) = f ∘ Prod.fst := rfl
  rw [h, ← List.map_map, List.map_fst_zip]
  simp

theorem insertParams_cons (c : ClipParams) (cs : List ClipParams) :
    insertParams (c :: cs)
      = .uuid c.video_id :: .int c.start_time :: .int c.end_time :: insertParams cs := by
  simp [insertParams]

theorem insertParams_length (clips : List ClipParams) :
    (insertParams clips).length = 3 * clips.length := by
  induction clips with
  | nil => rfl
  | cons c cs ih =>
    rw [insertParams_cons]
    simp only [List.length_cons, ih]
    omega

theorem getElem?_skip_three {α : Type} (a b c : α) (l : List α) (n : Nat) :
    (a :: b :: c :: l)[n + 3]? = l[n]? := by
  simp only [List.getElem?_cons_succ]

theorem insertParams_getElem (clips : List ClipParams) :
    ∀ (i : Nat) (c : ClipParams), clips[i]? = some c →
      (insertParams clips)[3 * i]? = some (.uuid c.video_id) ∧
        (insertParams clips)[3 * i + 1]? = some (.int c.start_time) ∧
        (insertParams clips)[3 * i + 2]? = some (.int c.end_time) := by
  induction clips with
  | nil => intro i c h; simp at h
  | cons a cs ih =>
    intro i c h
    rw [insertParams_cons]
    cases i with
    | zero =>
      simp only [List.getElem?_cons_zero, Option.some.injEq] at h
      subst h
      exact ⟨by simp, by simp, by simp⟩
    | succ j =>
      simp only [List.getElem?_cons_succ] at h
      obtain ⟨h1, h2, h3⟩ := ih j c h
      refine ⟨?_, ?_, ?_⟩
      · rw [show 3 * (j + 1) = 3 * j + 3 from by omega, getElem?_skip_three]
        exact h1
      · rw [show 3 * (j + 1) + 1 = 3 * j + 1 + 3 from by omega, getElem?_skip_three]
        exact h2
      · rw [show 3 * (j + 1) + 2 = 3 * j + 2 + 3 from by omega, getElem?_skip_three]
        exact h3

/-- C27: for every list of `n` clips, the `VALUES` text built by video
creation is the `n` tuples `($3i+1, $3i+2, $3i+3)` for `i = 0 .. n - 1`,
joined with commas; the parameter array has length `3n`, and its parameters
`3i+1`, `3i+2`, `3i+3` (at the positions `3i`, `3i+1`, `3i+2` of the array)
are the video id, `start_time` and `end_time` of clip `i`; so every
placeholder index lies between 1 and the length of the array.  For the clips
generated from a duration `10 ≤ D ≤ 1020` the statement has `3 (D - 9)`
parameters, at most 3033. -/
theorem insertClips_statement (clips : List ClipParams) :
    valuesText clips
        = ",".intercalate ((List.range clips.length).map fun i =>
            "($" ++ toString (3 * i + 1) ++ ", $" ++ toString (3 * i + 2) ++ ", $" ++
              toString (3 * i + 3) ++ ")") ∧
      (insertParams clips).length = 3 * clips.length ∧
      (∀ (i : Nat) (c : ClipParams), clips[i]? = some c →
        (insertParams clips)[3 * i]? = some (.uuid c.video_id) ∧
          (insertParams clips)[3 * i + 1]? = some (.int c.start_time) ∧
          (insertParams clips)[3 * i + 2]? = some (.int c.end_time)) ∧
      (∀ i, i < clips.length →
        1 ≤ 3 * i + 1 ∧ 3 * i + 3 ≤ (insertParams clips).length) ∧
      (∀ (video_id : UUID) (D : Int), 10 ≤ D → D ≤ 1020 →
        ((insertParams (generateClips video_id D)).length : Int) = 3 * (D - 9) ∧
          (insertParams (generateClips video_id D)).length ≤ 3033) := by
  refine ⟨?_, insertParams_length clips, insertParams_getElem clips, ?_, ?_⟩
  · unfold valuesText
    rw [enum_map_fst]
    congr 1
    apply List.map_congr_left
    intro i _
    unfold placeholderTuple
    simp only [Nat.mul_comm i 3]
  · intro i hi
    rw [insertParams_length]
    omega
  · intro video_id D hmin hmax
    rw [insertParams_length, generateClips_length]
    omega

/-- C27 at `D = 12`: three tuples and nine parameters. -/
theorem insertClips_statement_witness :
    ((10 : Int) ≤ 12 ∧ (12 : Int) ≤ 1020) ∧
      valuesText [windowAt 7 0, windowAt 7 1, windowAt 7 2]
        = "($1, $2, $3),($4, $5, $6),($7, $8, $9)" ∧
      insertParams [windowAt 7 0, windowAt 7 1, windowAt 7 2]
        = [.uuid 7, .int 0, .int 10, .uuid 7, .int 1, .int 11, .uuid 7, .int 2, .int 12] ∧
      ((insertParams (generateClips 7 12)).length : Int) = 3 * (12 - 9) :=
  ⟨by decide, by decide, by decide,
    ((insertClips_statement [windowAt 7 0, windowAt 7 1, windowAt 7 2]).2.2.2.2 7 12
      (by decide) (by decide)).1⟩

/-! ## The per-user listing -/

theorem flatMap_eq_nil_of_forall {α β : Type} (l : List α) (g : α → List β)
    (h : ∀ y ∈ l, g y = []) : l.flatMap g = [] := by
  induction l with
  | nil => rfl
  | cons a t ih =>
    rw [List.flatMap_cons, h a (List.mem_cons_self _ _),
      ih (fun y hy => h y (List.mem_cons_of_mem _ hy))]
    rfl

theorem flatMap_eq_of_unique {α β : Type} (l : List α) (x : α) (hx : x ∈ l) (hnd : l.Nodup)
    (g : α → List β) (hg : ∀ y ∈ l, y ≠ x → g y = []) : l.flatMap g = g x := by
  induction l with
  | nil => cases hx
  | cons a t ih =>
    rw [List.nodup_cons] at hnd
    rw [List.flatMap_cons]
    rcases List.mem_cons.1 hx with rfl | hxt
    · rw [flatMap_eq_nil_of_forall t g (fun y hy =>
        hg y (List.mem_cons_of_mem _ hy) (fun heq => hnd.1 (heq ▸ hy)))]
      simp
    · have hax : a ≠ x := fun heq => hnd.1 (heq ▸ hxt)
      rw [hg a (List.mem_cons_self _ _) hax,
        ih hxt hnd.2 (fun y hy => hg y (List.mem_cons_of_mem _ hy))]
      rfl

theorem map_flatMap_singletons {α β : Type} (l : List α) (g : α → List β) (f : β → α)
    (h : ∀ q ∈ l, ∃ r, g q = [r] ∧ f r = q) : (l.flatMap g).map f = l := by
  induction l with
  | nil => rfl
  | cons a t ih =>
    obtain ⟨r, hr, hf⟩ := h a (List.mem_cons_self _ _)
    rw [List.flatMap_cons, List.map_append, hr,
      ih (fun q hq => h q (List.mem_cons_of_mem _ hq))]
    simp [hf]

/-- On a store that satisfies its primary and foreign keys, the join of the
per-user listing has exactly one row for each question. -/
theorem joinQuestionsClipsVideos_question (db : Store) (hcpk : db.clipKeysUnique)
    (hvpk : db.videoKeysUnique) (hqc : db.questionsHaveClips) (hcv : db.clipsHaveVideos) :
    (joinQuestionsClipsVideos db).map UserQuestionRow.question = db.questions := by
  unfold joinQuestionsClipsVideos
  apply map_flatMap_singletons
  intro q hq
  obtain ⟨c, hc, hcq⟩ := hqc q hq
  obtain ⟨v, hv, hcv'⟩ := hcv c hc
  refine ⟨{ question := q, start_time := c.start_time, end_time := c.end_time,
            video_title := v.title }, ?_, rfl⟩
  rw [flatMap_eq_of_unique db.clips c hc (List.Nodup.of_map _ hcpk)]
  · rw [flatMap_eq_of_unique db.videos v hv (List.Nodup.of_map _ hvpk)]
    · rw [if_pos ⟨hcq.symm, hcv'⟩]
    · intro v' hv' hne
      rw [if_neg]
      rintro ⟨-, h2⟩
      rw [hcv'] at h2
      exact hne (List.inj_on_of_nodup_map hvpk hv' hv (Option.some.inj h2).symm)
  · intro c' hc' hne
    apply flatMap_eq_nil_of_forall
    intro v' _
    rw [if_neg]
    rintro ⟨h1, -⟩
    exact hne (List.inj_on_of_nodup_map hcpk hc' hc (by rw [hcq, h1]))

theorem filtered_join_question (db : Store) (hcpk : db.clipKeysUnique)
    (hvpk : db.videoKeysUnique) (hqc : db.questionsHaveClips) (hcv : db.clipsHaveVideos)
    (userId : UUID) :
    ((joinQuestionsClipsVideos db).filter fun r => r.question.user_id == userId).map
      UserQuestionRow.question = db.questionsOf userId := by
  unfold Store.questionsOf
  rw [← joinQuestionsClipsVideos_question db hcpk hvpk hqc hcv, List.filter_map]
  rfl

/-- C22: on a store that satisfies its primary and foreign keys, the per-user
listing leaves the store unchanged and, when its query does not throw,
answers 200 with `min(n, 50)` rows, where `n` is the number of stored
questions of the user.  Every row is a stored question of that user, the rows
are sorted by `created_at` descending, and together with the omitted
questions they are exactly the questions of the user, no omitted question
being newer than a returned one. -/
theorem listUserQuestions_newest_fifty (db : Store) (hcpk : db.clipKeysUnique)
    (hvpk : db.videoKeysUnique) (hqc : db.questionsHaveClips) (hcv : db.clipsHaveVideos)
    (fails : ListStmt → Bool) (userId : UUID) :
    (listUserQuestions db fails userId).store = db ∧
      (fails .select = false →
        ∃ rows, (listUserQuestions db fails userId).response
            = { status := 200, body := .userQuestions rows } ∧
          rows.length = min (db.questionsOf userId).length 50 ∧
          (∀ r ∈ rows, r.question ∈ db.questions ∧ r.question.user_id = userId) ∧
          rows.Sorted newestFirst ∧
          ∃ omitted : List Question,
            (rows.map UserQuestionRow.question ++ omitted).Perm (db.questionsOf userId) ∧
              ∀ r ∈ rows, ∀ o ∈ omitted, o.created_at ≤ r.question.created_at) := by
  constructor
  · unfold listUserQuestions attempt
    cases fails .select <;> rfl
  · intro hf
    have hproj := filtered_join_question db hcpk hvpk hqc hcv userId
    have hsorted := List.sorted_insertionSort newestFirst
      ((joinQuestionsClipsVideos db).filter fun r => r.question.user_id == userId)
    have hperm := List.perm_insertionSort newestFirst
      ((joinQuestionsClipsVideos db).filter fun r => r.question.user_id == userId)
    generalize hS : ((joinQuestionsClipsVideos db).filter fun r =>
      r.question.user_id == userId).insertionSort newestFirst = S at hsorted hperm
    have hrows : selectUserQuestions db userId = S.take 50 := by
      unfold selectUserQuestions
      rw [hS]
    have hSq : (S.map UserQuestionRow.question).Perm (db.questionsOf userId) := by
      rw [← hproj]
      exact hperm.map _
    refine ⟨S.take 50, ?_, ?_, ?_, ?_, (S.drop 50).map UserQuestionRow.question, ?_, ?_⟩
    · unfold listUserQuestions attempt
      rw [hf, hrows]
      rfl
    · rw [List.length_take, ← hSq.length_eq, List.length_map, Nat.min_comm]
    · intro r hr
      have hmem : r.question ∈ db.questionsOf userId :=
        hSq.subset (List.mem_map_of_mem _ (List.mem_of_mem_take hr))
      unfold Store.questionsOf at hmem
      simpa using List.mem_filter.1 hmem
    · exact List.Pairwise.sublist (List.take_sublist 50 S) hsorted
    · rw [← List.map_append, List.take_append_drop]
      exact hSq
    · intro r hr o ho
      obtain ⟨o', ho', rfl⟩ := List.mem_map.1 ho
      have hpw : List.Pairwise newestFirst (S.take 50 ++ S.drop 50) := by
        rw [List.take_append_drop]; exact hsorted
      exact (List.pairwise_append.1 hpw).2.2 r hr o' ho'

/-- C22 on the store with two questions of user 1 and one of user 2: the
listing of user 1 has the question of time 12 before the question of time 9. -/
theorem listUserQuestions_newest_fifty_witness :
    (listedStore.clipKeysUnique ∧ listedStore.videoKeysUnique ∧
        listedStore.questionsHaveClips ∧ listedStore.clipsHaveVideos) ∧
      (selectUserQuestions listedStore 1).map (fun r => r.question.id) = [302, 300] ∧
      ∃ rows, (listUserQuestions listedStore noFault 1).response
          = { status := 200, body := .userQuestions rows } ∧
        rows.length = min (listedStore.questionsOf 1).length 50 ∧
        rows.Sorted newestFirst :=
  ⟨by decide, by decide,
    let ⟨rows, h1, h2, _, h4, _⟩ :=
      (listUserQuestions_newest_fifty listedStore (by decide) (by decide) (by decide)
        (by decide) noFault 1).2 rfl
    ⟨rows, h1, h2, h4⟩⟩

/-! ## Clip selection: greedy load balancing -/

theorem served_sum_le (l : List Clip) (B : Int) (h : ∀ c ∈ l, c.served_count ≤ B) :
    (l.map Clip.served_count).sum ≤ l.length * B := by
  induction l with
  | nil => simp
  | cons a t ih =>
    have h1 := h a (List.mem_cons_self _ _)
    have h2 := ih (fun c hc => h c (List.mem_cons_of_mem _ hc))
    simp only [List.map_cons, List.sum_cons, List.length_cons, Nat.cast_add, Nat.cast_one]
    linarith

theorem served_le_sum (l : List Clip) (B : Int) (h : ∀ c ∈ l, B ≤ c.served_count) :
    l.length * B ≤ (l.map Clip.served_count).sum := by
  induction l with
  | nil => simp
  | cons a t ih =>
    have h1 := h a (List.mem_cons_self _ _)
    have h2 := ih (fun c hc => h c (List.mem_cons_of_mem _ hc))
    simp only [List.map_cons, List.sum_cons, List.length_cons, Nat.cast_add, Nat.cast_one]
    linarith

theorem served_eq_of_sum_upper (l : List Clip) (B : Int) (h : ∀ c ∈ l, c.served_count ≤ B)
    (hsum : (l.map Clip.served_count).sum = l.length * B) : ∀ c ∈ l, c.served_count = B := by
  induction l with
  | nil => intro c hc; cases hc
  | cons a t ih =>
    have h1 := h a (List.mem_cons_self _ _)
    have ht : ∀ c ∈ t, c.served_count ≤ B := fun c hc => h c (List.mem_cons_of_mem _ hc)
    have h2 := served_sum_le t B ht
    simp only [List.map_cons, List.sum_cons, List.length_cons, Nat.cast_add, Nat.cast_one]
      at hsum
    have ha : a.served_count = B := by linarith
    have hts : (t.map Clip.served_count).sum = t.length * B := by linarith
    intro c hc
    rcases List.mem_cons.1 hc with rfl | hc
    · exact ha
    · exact ih ht hts c hc

theorem served_eq_of_sum_lower (l : List Clip) (B : Int) (h : ∀ c ∈ l, B ≤ c.served_count)
    (hsum : (l.map Clip.served_count).sum = l.length * B) : ∀ c ∈ l, c.served_count = B := by
  induction l with
  | nil => intro c hc; cases hc
  | cons a t ih =>
    have h1 := h a (List.mem_cons_self _ _)
    have ht : ∀ c ∈ t, B ≤ c.served_count := fun c hc => h c (List.mem_cons_of_mem _ hc)
    have h2 := served_le_sum t B ht
    simp only [List.map_cons, List.sum_cons, List.length_cons, Nat.cast_add, Nat.cast_one]
      at hsum
    have ha : a.served_count = B := by linarith
    have hts : (t.map Clip.served_count).sum = t.length * B := by linarith
    intro c hc
    rcases List.mem_cons.1 hc with rfl | hc
    · exact ha
    · exact ih ht hts c hc

/-- One more selection of a least served clip keeps the pool balanced. -/
theorem balanced_step (m : Int) (k q r : Nat) (pool : List Clip)
    (hnd : (pool.map Clip.id).Nodup) (hb : balanced m k q r pool) (x : Clip) (hx : x ∈ pool)
    (hmin : ∀ c ∈ pool, x.served_count ≤ c.served_count) :
    (r + 1 < k ∧ balanced m k q (r + 1) (pool.map fun c =>
        if c.id = x.id then { c with served_count := c.served_count + 1 } else c)) ∨
      (r + 1 = k ∧ balanced m k (q + 1) 0 (pool.map fun c =>
        if c.id = x.id then { c with served_count := c.served_count + 1 } else c)) := by
  obtain ⟨hlen, hr, hbounds, hsum⟩ := hb
  have hxq : x.served_count = m + q := by
    by_contra hne
    have hx1 : m + q + 1 ≤ x.served_count := by
      have := hbounds x hx
      omega
    have hall : ∀ c ∈ pool, m + q + 1 ≤ c.served_count := fun c hc =>
      le_trans hx1 (hmin c hc)
    have hle := served_le_sum pool (m + q + 1) hall
    rw [hsum, hlen] at hle
    have hrk : (r : Int) < k := by exact_mod_cast hr
    have : (k : Int) * (m + q + 1) = k * m + k * q + k := by ring
    linarith
  have hsum' := sum_served_increment x.id pool hnd (List.mem_map_of_mem Clip.id hx)
  rw [hsum] at hsum'
  have hnew : ∀ c' ∈ (pool.map fun c =>
      if c.id = x.id then { c with served_count := c.served_count + 1 } else c),
      m + q ≤ c'.served_count ∧ c'.served_count ≤ m + q + 1 := by
    intro c' hc'
    obtain ⟨c, hc, rfl⟩ := List.mem_map.1 hc'
    by_cases hid : c.id = x.id
    · have : c = x := List.inj_on_of_nodup_map hnd hc hx hid
      subst this
      simp only [if_true]
      omega
    · simp only [hid, if_false]
      exact hbounds c hc
  by_cases hcase : r + 1 < k
  · left
    refine ⟨hcase, by rw [List.length_map]; exact hlen, hcase, hnew, ?_⟩
    rw [hsum']
    push_cast
    ring
  · right
    have hrk : r + 1 = k := by omega
    have hkr : (k : Int) = r + 1 := by exact_mod_cast hrk.symm
    have hlen' : (pool.map fun c =>
        if c.id = x.id then { c with served_count := c.served_count + 1 } else c).length
        = k := by rw [List.length_map]; exact hlen
    have hall := served_eq_of_sum_upper _ (m + q + 1) (fun c' hc' => (hnew c' hc').2) (by
      rw [hsum', hlen']
      have : (k : Int) * (m + q + 1) = k * m + k * q + k := by ring
      linarith)
    refine ⟨hrk, hlen', by omega, ?_, ?_⟩
    · intro c' hc'
      have := hall c' hc'
      push_cast
      omega
    · rw [hsum']
      push_cast
      linarith [show (k : Int) * (q + 1) = k * q + k from by ring]

/-- Store after a call of `getRandomClip` that returned `row`. -/
theorem getRandomClip_success_store (db : Store) (fails : ClipStmt → Bool) (rand : Nat → Nat)
    (viewId : UUID) (now : Nat) (userId : UUID) (row : ClipRow)
    (h : (getRandomClip db fails rand viewId now userId).result = .ok (some row)) :
    (getRandomClip db fails rand viewId now userId).store
      = { db with
          clips := db.clips.map fun c =>
            if c.id = row.clip.id then { c with served_count := c.served_count + 1 } else c
          clip_views := db.clip_views ++
            [{ id := viewId, clip_id := row.clip.id, user_id := userId, viewed_at := now,
               session_duration := none }] } := by
  obtain ⟨-, db1, hinc, hins⟩ := getRandomClip_returns db fails rand viewId now userId row h
  rw [insertClipView_inv db1 _ viewId now _ userId none hins, incrementServed_inv db db1 _ hinc]

/-- On a store whose clips all belong to stored videos, the clip of a returned
row is in the pool and least served in it. -/
theorem returned_least_in_pool (db : Store) (hfk : db.clipsHaveVideos)
    (fails : ClipStmt → Bool) (rand : Nat → Nat) (viewId : UUID) (now : Nat) (userId : UUID)
    (row : ClipRow)
    (h : (getRandomClip db fails rand viewId now userId).result = .ok (some row)) :
    row.clip ∈ db.pool ∧ ∀ c ∈ db.pool, row.clip.served_count ≤ c.served_count := by
  obtain ⟨hsel, -⟩ := getRandomClip_returns db fails rand viewId now userId row h
  obtain ⟨-, hmem, hmin⟩ := selectRandomClip_sound db rand row [] hsel
  have hrow := (mem_candidateRows db row).1 hmem
  unfold Store.pool
  refine ⟨List.mem_filter.2 ⟨hrow.1, by simp [hrow.2.1]⟩, ?_⟩
  intro c hc
  obtain ⟨hc1, hc2⟩ := List.mem_filter.1 hc
  obtain ⟨v, hv, hcv⟩ := hfk c hc1
  exact hmin ⟨c, v.url, v.title⟩
    ((mem_candidateRows db _).2 ⟨hc1, by simpa using hc2, v, hv, hcv, rfl, rfl⟩)

theorem pool_ids_nodup (db : Store) (hpk : db.clipKeysUnique) :
    (db.pool.map Clip.id).Nodup := by
  unfold Store.pool
  exact List.Nodup.sublist ((List.filter_sublist db.clips).map Clip.id) hpk

theorem serveAll_balanced_aux (m : Int) (k : Nat) (calls : List ServeCall) :
    ∀ (db : Store) (q r : Nat), db.clipKeysUnique → db.clipsHaveVideos →
      balanced m k q r db.pool →
      (∀ res ∈ (serveAll db calls).2, clipsReturned res = 1) →
        ∃ q' r', k * q' + r' = k * q + r + calls.length ∧
          balanced m k q' r' (serveAll db calls).1.pool := by
  induction calls with
  | nil =>
    intro db q r _ _ hb _
    exact ⟨q, r, rfl, hb⟩
  | cons call rest ih =>
    intro db q r hpk hfk hb hall
    simp only [serveAll, List.mem_cons, forall_eq_or_imp] at hall ⊢
    obtain ⟨hhead, htail⟩ := hall
    obtain ⟨row, hrow⟩ : ∃ row, (getRandomClip db call.fails call.rand call.viewId call.now
        call.userId).result = .ok (some row) := by
      generalize (getRandomClip db call.fails call.rand call.viewId call.now
        call.userId).result = res at hhead
      match res, hhead with
      | .ok (some row), _ => exact ⟨row, rfl⟩
    have hstore := getRandomClip_success_store db _ _ _ _ _ row hrow
    obtain ⟨hmem, hmin⟩ := returned_least_in_pool db hfk _ _ _ _ _ row hrow
    have hpool : (getRandomClip db call.fails call.rand call.viewId call.now
        call.userId).store.pool = db.pool.map fun c =>
          if c.id = row.clip.id then { c with served_count := c.served_count + 1 } else c := by
      rw [hstore]
      exact pool_incrementServed db row.clip.id
    have hpk1 : (getRandomClip db call.fails call.rand call.viewId call.now
        call.userId).store.clipKeysUnique := by
      rw [hstore]
      unfold Store.clipKeysUnique
      simp only [map_id_incrementServed]
      exact hpk
    have hfk1 : (getRandomClip db call.fails call.rand call.viewId call.now
        call.userId).store.clipsHaveVideos := by
      rw [hstore]
      unfold Store.clipsHaveVideos
      intro c' hc'
      obtain ⟨c, hc, rfl⟩ := List.mem_map.1 hc'
      obtain ⟨v, hv, hcv⟩ := hfk c hc
      refine ⟨v, hv, ?_⟩
      by_cases hid : c.id = row.clip.id <;> simp [hid, hcv]
    rcases balanced_step m k q r db.pool (pool_ids_nodup db hpk) hb row.clip hmem hmin with
      ⟨hlt, hb1⟩ | ⟨heq, hb1⟩
    · rw [← hpool] at hb1
      obtain ⟨q', r', he, hb'⟩ := ih _ q (r + 1) hpk1 hfk1 hb1 htail
      exact ⟨q', r', by rw [he, List.length_cons]; omega, hb'⟩
    · rw [← hpool] at hb1
      obtain ⟨q', r', he, hb'⟩ := ih _ (q + 1) 0 hpk1 hfk1 hb1 htail
      refine ⟨q', r', ?_, hb'⟩
      rw [he, List.length_cons, Nat.mul_add, Nat.mul_one]
      omega

/-- C24: on a store with unique clip identifiers whose clips all belong to
stored videos, let the `k ≥ 1` clips that are not dry all have the same
`served_count = m`.  After `t` consecutive successful selections the pool has
the same `k` clips, each with `served_count` equal to `m + t / k` or
`m + t / k + 1` (integer division), so any two differ by at most 1; the counts
add up to `k * m + t`; and after exactly `k` selections every count is
`m + 1`. -/
theorem serveAll_balanced (db : Store) (hpk : db.clipKeysUnique) (hfk : db.clipsHaveVideos)
    (m : Int) (hm : ∀ c ∈ db.pool, c.served_count = m) (hk : db.pool ≠ [])
    (calls : List ServeCall)
    (hall : ∀ res ∈ (serveAll db calls).2, clipsReturned res = 1) :
    (serveAll db calls).1.pool.length = db.pool.length ∧
      (∀ c ∈ (serveAll db calls).1.pool,
        c.served_count = m + ((calls.length / db.pool.length : Nat) : Int) ∨
          c.served_count = m + ((calls.length / db.pool.length : Nat) : Int) + 1) ∧
      (∀ c ∈ (serveAll db calls).1.pool, ∀ c' ∈ (serveAll db calls).1.pool,
        c.served_count - c'.served_count ≤ 1) ∧
      ((serveAll db calls).1.pool.map Clip.served_count).sum
        = db.pool.length * m + calls.length ∧
      (calls.length = db.pool.length →
        ∀ c ∈ (serveAll db calls).1.pool, c.served_count = m + 1) := by
  have hkpos : 0 < db.pool.length := List.length_pos.2 hk
  have hinit : balanced m db.pool.length 0 0 db.pool := by
    refine ⟨rfl, hkpos, fun c hc => ?_, ?_⟩
    · rw [hm c hc]; simp
    · have h1 := served_sum_le db.pool m (fun c hc => le_of_eq (hm c hc))
      have h2 := served_le_sum db.pool m (fun c hc => le_of_eq (hm c hc).symm)
      simp only [Nat.cast_zero, mul_zero, add_zero]
      linarith
  obtain ⟨q, r, he, hlen, hr, hbounds, hsum⟩ :=
    serveAll_balanced_aux m db.pool.length calls db 0 0 hpk hfk hinit hall
  simp only [Nat.mul_zero, Nat.zero_add, Nat.add_zero] at he
  have hq : calls.length / db.pool.length = q := by
    rw [← he, Nat.mul_add_div hkpos, Nat.div_eq_of_lt hr, Nat.add_zero]
  have hcast : (calls.length : Int) = db.pool.length * q + r := by
    exact_mod_cast he.symm
  refine ⟨hlen, ?_, ?_, ?_, ?_⟩
  · intro c hc
    rw [hq]
    have := hbounds c hc
    omega
  · intro c hc c' hc'
    have h1 := hbounds c hc
    have h2 := hbounds c' hc'
    omega
  · rw [hsum, hcast]
    ring
  · intro ht
    have hq1 : q = 1 := by
      rw [← hq, ht, Nat.div_self hkpos]
    subst hq1
    have hr0 : r = 0 := by
      rw [ht, Nat.mul_one] at he
      omega
    subst hr0
    apply served_eq_of_sum_lower _ (m + 1) (fun c hc => by
      have := (hbounds c hc).1
      simpa using this)
    rw [hsum, hlen]
    push_cast
    ring

/-- C24 on the sample store, whose pool is the clips 100 and 101 with count
0: after three selections the counts are 2 and 1. -/
theorem serveAll_balanced_witness :
    (sampleStore.clipKeysUnique ∧ sampleStore.clipsHaveVideos ∧
        (∀ c ∈ sampleStore.pool, c.served_count = 0) ∧ sampleStore.pool ≠ [] ∧
        ∀ res ∈ (serveAll sampleStore threeCalls).2, clipsReturned res = 1) ∧
      (serveAll sampleStore threeCalls).1.pool.map Clip.served_count = [2, 1] ∧
      (∀ c ∈ (serveAll sampleStore threeCalls).1.pool,
        ∀ c' ∈ (serveAll sampleStore threeCalls).1.pool,
          c.served_count - c'.served_count ≤ 1) :=
  ⟨by decide, by decide,
    (serveAll_balanced sampleStore (by decide) (by decide) 0 (by decide) (by decide) threeCalls
      (by decide)).2.2.1⟩

end VqaSys
